import Mathlib

/-!
# The GBA core facade of mGBA (`src/gba/core.c`)

A shallow embedding of the parts of the facade that publish the memory-block
catalog, look up a block or an identifier, read and write CPU registers by
name, hold the key state, load and reload the configuration, reset the machine
(renderer selection, overrides, BIOS discovery, BIOS skip), run a frame,
hot-plug the cheat device, load a video log and save and load the extra
state, followed by theorems about them.

Conventions of the embedding.

* Machine words are natural numbers; a store into a 32-bit object reduces
  modulo `2 ^ 32` where the C conversion does.
* A C string is the list of its characters before the terminating NUL.
* Constants, types and functions that `core.c` uses but that are declared in
  headers or translation units outside it are parameters: the header constants
  are collected in `Headers`, `BoardHeaders` and `IOHeaders`, the CPU
  collaborators in `ARMExt`, the other collaborators in `GBAExt`, `CheatExt`,
  `VLPExt` and `ExtdataExt`, the preprocessor symbols in `Build`, the C
  library's platform choices in `CLib`.
* A pointer into the board's memory is an address, `none` when it is null.
* A loop of the source that need not terminate is given a bound on the number
  of its tests and returns `none` when the bound is used up.
-/

namespace MGBA

/-! ## Header constants -/

/-- Constants that `core.c` takes from headers (`memory.h`, `savedata.h`,
`core/interface.h`).  The two `Nodup` fields record what the C compiler
enforces on `core.c`: the six save-media enumerators are the `case` labels of
one `switch` in `_GBACoreListMemoryBlocks`, and the eleven region enumerators
are the `case` labels of the `switch` in `_GBACoreGetMemoryBlock`; duplicate
`case` labels do not compile. -/
structure Headers where
  GBA_REGION_BIOS : Int
  GBA_REGION_EWRAM : Int
  GBA_REGION_IWRAM : Int
  GBA_REGION_IO : Int
  GBA_REGION_PALETTE_RAM : Int
  GBA_REGION_VRAM : Int
  GBA_REGION_OAM : Int
  GBA_REGION_ROM0 : Int
  GBA_REGION_ROM1 : Int
  GBA_REGION_ROM2 : Int
  GBA_REGION_SRAM : Int
  GBA_REGION_SRAM_MIRROR : Int
  GBA_BASE_BIOS : Nat
  GBA_BASE_EWRAM : Nat
  GBA_BASE_IWRAM : Nat
  GBA_BASE_IO : Nat
  GBA_BASE_PALETTE_RAM : Nat
  GBA_BASE_VRAM : Nat
  GBA_BASE_OAM : Nat
  GBA_BASE_ROM0 : Nat
  GBA_BASE_ROM1 : Nat
  GBA_BASE_ROM2 : Nat
  GBA_BASE_SRAM : Nat
  GBA_SIZE_BIOS : Nat
  GBA_SIZE_EWRAM : Nat
  GBA_SIZE_IWRAM : Nat
  GBA_SIZE_IO : Nat
  GBA_SIZE_PALETTE_RAM : Nat
  GBA_SIZE_VRAM : Nat
  GBA_SIZE_OAM : Nat
  GBA_SIZE_ROM0 : Nat
  GBA_SIZE_ROM1 : Nat
  GBA_SIZE_ROM2 : Nat
  GBA_SIZE_SRAM : Nat
  GBA_SIZE_SRAM512 : Nat
  GBA_SIZE_FLASH512 : Nat
  GBA_SIZE_FLASH1M : Nat
  GBA_SIZE_EEPROM : Nat
  GBA_SIZE_EEPROM512 : Nat
  mCORE_MEMORY_READ : Nat
  mCORE_MEMORY_RW : Nat
  mCORE_MEMORY_WORM : Nat
  mCORE_MEMORY_MAPPED : Nat
  mCORE_MEMORY_VIRTUAL : Nat
  GBA_SAVEDATA_SRAM : Int
  GBA_SAVEDATA_SRAM512 : Int
  GBA_SAVEDATA_FLASH512 : Int
  GBA_SAVEDATA_FLASH1M : Int
  GBA_SAVEDATA_EEPROM : Int
  GBA_SAVEDATA_EEPROM512 : Int
  savedata_nodup : [GBA_SAVEDATA_SRAM, GBA_SAVEDATA_SRAM512, GBA_SAVEDATA_FLASH512,
    GBA_SAVEDATA_FLASH1M, GBA_SAVEDATA_EEPROM, GBA_SAVEDATA_EEPROM512].Nodup
  region_nodup : [GBA_REGION_BIOS, GBA_REGION_EWRAM, GBA_REGION_IWRAM,
    GBA_REGION_PALETTE_RAM, GBA_REGION_VRAM, GBA_REGION_OAM, GBA_REGION_ROM0,
    GBA_REGION_ROM1, GBA_REGION_ROM2, GBA_REGION_SRAM, GBA_REGION_SRAM_MIRROR].Nodup

/-- The values the constants of `Headers` have in the mGBA headers; used to
evaluate the embedding on concrete inputs. -/
def mgbaHeaders : Headers where
  GBA_REGION_BIOS := 0x0
  GBA_REGION_EWRAM := 0x2
  GBA_REGION_IWRAM := 0x3
  GBA_REGION_IO := 0x4
  GBA_REGION_PALETTE_RAM := 0x5
  GBA_REGION_VRAM := 0x6
  GBA_REGION_OAM := 0x7
  GBA_REGION_ROM0 := 0x8
  GBA_REGION_ROM1 := 0xA
  GBA_REGION_ROM2 := 0xC
  GBA_REGION_SRAM := 0xE
  GBA_REGION_SRAM_MIRROR := 0xF
  GBA_BASE_BIOS := 0x00000000
  GBA_BASE_EWRAM := 0x02000000
  GBA_BASE_IWRAM := 0x03000000
  GBA_BASE_IO := 0x04000000
  GBA_BASE_PALETTE_RAM := 0x05000000
  GBA_BASE_VRAM := 0x06000000
  GBA_BASE_OAM := 0x07000000
  GBA_BASE_ROM0 := 0x08000000
  GBA_BASE_ROM1 := 0x0A000000
  GBA_BASE_ROM2 := 0x0C000000
  GBA_BASE_SRAM := 0x0E000000
  GBA_SIZE_BIOS := 0x00004000
  GBA_SIZE_EWRAM := 0x00040000
  GBA_SIZE_IWRAM := 0x00008000
  GBA_SIZE_IO := 0x00000400
  GBA_SIZE_PALETTE_RAM := 0x00000400
  GBA_SIZE_VRAM := 0x00018000
  GBA_SIZE_OAM := 0x00000400
  GBA_SIZE_ROM0 := 0x02000000
  GBA_SIZE_ROM1 := 0x02000000
  GBA_SIZE_ROM2 := 0x02000000
  GBA_SIZE_SRAM := 0x00008000
  GBA_SIZE_SRAM512 := 0x00010000
  GBA_SIZE_FLASH512 := 0x00010000
  GBA_SIZE_FLASH1M := 0x00020000
  GBA_SIZE_EEPROM := 0x00002000
  GBA_SIZE_EEPROM512 := 0x00000200
  mCORE_MEMORY_READ := 0x01
  mCORE_MEMORY_RW := 0x03
  mCORE_MEMORY_WORM := 0x04
  mCORE_MEMORY_MAPPED := 0x10
  mCORE_MEMORY_VIRTUAL := 0x20
  GBA_SAVEDATA_SRAM := 1
  GBA_SAVEDATA_SRAM512 := 6
  GBA_SAVEDATA_FLASH512 := 2
  GBA_SAVEDATA_FLASH1M := 3
  GBA_SAVEDATA_EEPROM := 4
  GBA_SAVEDATA_EEPROM512 := 5
  savedata_nodup := by decide
  region_nodup := by decide

/-! ## Memory-block catalog -/

/-- One entry of the memory-block catalog (`struct mCoreMemoryBlock`).
`end_` is the field `end`; an initializer that omits `maxSegment` and
`segmentStart` leaves them zero. -/
structure mCoreMemoryBlock where
  id : Int
  internalName : String
  shortName : String
  longName : String
  start : Nat
  end_ : Nat
  size : Nat
  flags : Nat
  maxSegment : Nat := 0
  segmentStart : Nat := 0
deriving DecidableEq, Repr

/-- The template `_GBAMemoryBlocks` (no save media): eleven blocks. -/
def _GBAMemoryBlocks (K : Headers) : List mCoreMemoryBlock :=
  [ { id := -1, internalName := "mem", shortName := "All", longName := "All",
      start := 0, end_ := 0x10000000, size := 0x10000000,
      flags := K.mCORE_MEMORY_VIRTUAL },
    { id := K.GBA_REGION_BIOS, internalName := "bios", shortName := "BIOS",
      longName := "BIOS (16kiB)", start := K.GBA_BASE_BIOS, end_ := K.GBA_SIZE_BIOS,
      size := K.GBA_SIZE_BIOS, flags := K.mCORE_MEMORY_READ ||| K.mCORE_MEMORY_MAPPED },
    { id := K.GBA_REGION_EWRAM, internalName := "wram", shortName := "EWRAM",
      longName := "Working RAM (256kiB)", start := K.GBA_BASE_EWRAM,
      end_ := K.GBA_BASE_EWRAM + K.GBA_SIZE_EWRAM, size := K.GBA_SIZE_EWRAM,
      flags := K.mCORE_MEMORY_RW ||| K.mCORE_MEMORY_MAPPED },
    { id := K.GBA_REGION_IWRAM, internalName := "iwram", shortName := "IWRAM",
      longName := "Internal Working RAM (32kiB)", start := K.GBA_BASE_IWRAM,
      end_ := K.GBA_BASE_IWRAM + K.GBA_SIZE_IWRAM, size := K.GBA_SIZE_IWRAM,
      flags := K.mCORE_MEMORY_RW ||| K.mCORE_MEMORY_MAPPED },
    { id := K.GBA_REGION_IO, internalName := "io", shortName := "MMIO",
      longName := "Memory-Mapped I/O", start := K.GBA_BASE_IO,
      end_ := K.GBA_BASE_IO + K.GBA_SIZE_IO, size := K.GBA_SIZE_IO,
      flags := K.mCORE_MEMORY_RW ||| K.mCORE_MEMORY_MAPPED },
    { id := K.GBA_REGION_PALETTE_RAM, internalName := "palette", shortName := "Palette",
      longName := "Palette RAM (1kiB)", start := K.GBA_BASE_PALETTE_RAM,
      end_ := K.GBA_BASE_PALETTE_RAM + K.GBA_SIZE_PALETTE_RAM,
      size := K.GBA_SIZE_PALETTE_RAM,
      flags := K.mCORE_MEMORY_RW ||| K.mCORE_MEMORY_MAPPED },
    { id := K.GBA_REGION_VRAM, internalName := "vram", shortName := "VRAM",
      longName := "Video RAM (96kiB)", start := K.GBA_BASE_VRAM,
      end_ := K.GBA_BASE_VRAM + K.GBA_SIZE_VRAM, size := K.GBA_SIZE_VRAM,
      flags := K.mCORE_MEMORY_RW ||| K.mCORE_MEMORY_MAPPED },
    { id := K.GBA_REGION_OAM, internalName := "oam", shortName := "OAM",
      longName := "OBJ Attribute Memory (1kiB)", start := K.GBA_BASE_OAM,
      end_ := K.GBA_BASE_OAM + K.GBA_SIZE_OAM, size := K.GBA_SIZE_OAM,
      flags := K.mCORE_MEMORY_RW ||| K.mCORE_MEMORY_MAPPED },
    { id := K.GBA_REGION_ROM0, internalName := "cart0", shortName := "ROM",
      longName := "Game Pak (32MiB)", start := K.GBA_BASE_ROM0,
      end_ := K.GBA_BASE_ROM0 + K.GBA_SIZE_ROM0, size := K.GBA_SIZE_ROM0,
      flags := K.mCORE_MEMORY_READ ||| K.mCORE_MEMORY_WORM ||| K.mCORE_MEMORY_MAPPED },
    { id := K.GBA_REGION_ROM1, internalName := "cart1", shortName := "ROM WS1",
      longName := "Game Pak (Waitstate 1)", start := K.GBA_BASE_ROM1,
      end_ := K.GBA_BASE_ROM1 + K.GBA_SIZE_ROM1, size := K.GBA_SIZE_ROM1,
      flags := K.mCORE_MEMORY_READ ||| K.mCORE_MEMORY_WORM ||| K.mCORE_MEMORY_MAPPED },
    { id := K.GBA_REGION_ROM2, internalName := "cart2", shortName := "ROM WS2",
      longName := "Game Pak (Waitstate 2)", start := K.GBA_BASE_ROM2,
      end_ := K.GBA_BASE_ROM2 + K.GBA_SIZE_ROM2, size := K.GBA_SIZE_ROM2,
      flags := K.mCORE_MEMORY_READ ||| K.mCORE_MEMORY_WORM ||| K.mCORE_MEMORY_MAPPED } ]

/-- The template `_GBAMemoryBlocksSRAM`.  In the source each save-media
template spells out the same eleven initializers as `_GBAMemoryBlocks` and
adds a twelfth; its flags are the initializer `true`, that is 1. -/
def _GBAMemoryBlocksSRAM (K : Headers) : List mCoreMemoryBlock :=
  _GBAMemoryBlocks K ++
  [ { id := K.GBA_REGION_SRAM, internalName := "sram", shortName := "SRAM",
      longName := "Static RAM (32kiB)", start := K.GBA_BASE_SRAM,
      end_ := K.GBA_BASE_SRAM + K.GBA_SIZE_SRAM, size := K.GBA_SIZE_SRAM, flags := 1 } ]

/-- The template `_GBAMemoryBlocksSRAM512`; flags are the initializer `true`. -/
def _GBAMemoryBlocksSRAM512 (K : Headers) : List mCoreMemoryBlock :=
  _GBAMemoryBlocks K ++
  [ { id := K.GBA_REGION_SRAM, internalName := "sram", shortName := "SRAM",
      longName := "Static RAM (64kiB)", start := K.GBA_BASE_SRAM,
      end_ := K.GBA_BASE_SRAM + K.GBA_SIZE_SRAM512, size := K.GBA_SIZE_SRAM512,
      flags := 1 } ]

/-- The template `_GBAMemoryBlocksFlash512`. -/
def _GBAMemoryBlocksFlash512 (K : Headers) : List mCoreMemoryBlock :=
  _GBAMemoryBlocks K ++
  [ { id := K.GBA_REGION_SRAM, internalName := "sram", shortName := "Flash",
      longName := "Flash Memory (64kiB)", start := K.GBA_BASE_SRAM,
      end_ := K.GBA_BASE_SRAM + K.GBA_SIZE_FLASH512, size := K.GBA_SIZE_FLASH512,
      flags := K.mCORE_MEMORY_RW ||| K.mCORE_MEMORY_MAPPED } ]

/-- The template `_GBAMemoryBlocksFlash1M`: the window is one 64 KiB bank
(`end` uses `GBA_SIZE_FLASH512`), `maxSegment` is 1. -/
def _GBAMemoryBlocksFlash1M (K : Headers) : List mCoreMemoryBlock :=
  _GBAMemoryBlocks K ++
  [ { id := K.GBA_REGION_SRAM, internalName := "sram", shortName := "Flash",
      longName := "Flash Memory (128kiB)", start := K.GBA_BASE_SRAM,
      end_ := K.GBA_BASE_SRAM + K.GBA_SIZE_FLASH512, size := K.GBA_SIZE_FLASH1M,
      flags := K.mCORE_MEMORY_RW ||| K.mCORE_MEMORY_MAPPED,
      maxSegment := 1, segmentStart := K.GBA_BASE_SRAM } ]

/-- The template `_GBAMemoryBlocksEEPROM`. -/
def _GBAMemoryBlocksEEPROM (K : Headers) : List mCoreMemoryBlock :=
  _GBAMemoryBlocks K ++
  [ { id := K.GBA_REGION_SRAM_MIRROR, internalName := "eeprom", shortName := "EEPROM",
      longName := "EEPROM (8kiB)", start := 0, end_ := K.GBA_SIZE_EEPROM,
      size := K.GBA_SIZE_EEPROM, flags := K.mCORE_MEMORY_RW } ]

/-- The template `_GBAMemoryBlocksEEPROM512`. -/
def _GBAMemoryBlocksEEPROM512 (K : Headers) : List mCoreMemoryBlock :=
  _GBAMemoryBlocks K ++
  [ { id := K.GBA_REGION_SRAM_MIRROR, internalName := "eeprom", shortName := "EEPROM",
      longName := "EEPROM (512B)", start := 0, end_ := K.GBA_SIZE_EEPROM,
      size := K.GBA_SIZE_EEPROM512, flags := K.mCORE_MEMORY_RW } ]

/-! ## State -/

/-- The types of the state that `core.c` reaches only through collaborators:
the rest of the CPU, of the board and of the facade, the handles of files and
parsed ELF images, the configuration bag, the override table and a manual
override, loggers supplied from outside, the pixel buffer of a front-end, the
remainders of the video unit, the timing root, the GPU renderer and the proxy
renderer, and the handles of cheat devices and of video-log contexts (the
non-null values of a `struct mCheatDevice*` and of a
`struct mVideoLogContext*`). -/
structure Types where
  CPU : Type
  Board : Type
  Facade : Type
  VFile : Type
  ELF : Type
  Config : Type
  Overrides : Type
  Override : Type
  Logger : Type
  Buffer : Type
  Video : Type
  Timing : Type
  Gpu : Type
  Proxy : Type
  Cheat : Type
  LogContext : Type

/-- The part of `struct ARMCore` that `core.c` reads and writes directly: the
sixteen general registers and the packed CPSR, as 32-bit patterns; `rest` is
everything else (banked registers, prefetch, cycle counters). -/
structure ARMCore (T : Types) where
  gprs : Fin 16 → Nat
  cpsr : Nat
  rest : T.CPU

/-- The renderers a `struct GBAVideoRenderer*` of `core.c` can point to: the
members `dummyRenderer`, `renderer.d`, `glRenderer.d`, `proxyRenderer.d` and
`vlProxy.d` of the facade. -/
inductive RendererRef where
  | dummyRenderer
  | renderer
  | glRenderer
  | proxyRenderer
  | vlProxy
deriving DecidableEq, Repr

/-- The loggers `core->videoLogger` can point to: the member `threadProxy.d`
of the facade, or a logger object that lives outside it. -/
inductive LoggerRef (T : Types) where
  | threadProxy
  | other (l : T.Logger)

/-- The part of `struct GBAVideo` used below: `frameskip` and `frameCounter`
(as a 32-bit pattern). -/
structure GBAVideo (T : Types) where
  frameskip : Int
  frameCounter : Nat
  rest : T.Video

/-- The addresses held by the pointers of the board that
`_GBACoreGetMemoryBlock` returns, `none` for a null pointer: `memory.bios`,
`memory.wram`, `memory.iwram`, `video.palette`, `video.vram`, `video.oam.raw`,
`memory.savedata.data` and `memory.savedata.currentBank`; `rom` is the address
`memory.rom` holds when it is not null. -/
structure GBARegionPointers where
  bios : Option Nat
  wram : Option Nat
  iwram : Option Nat
  palette : Option Nat
  vram : Option Nat
  oam : Option Nat
  rom : Nat
  savedataData : Option Nat
  savedataCurrentBank : Option Nat
deriving DecidableEq, Repr

/-- The part of `struct GBA` used below: `keysActive`, `memory.romSize`,
`memory.savedata.type`, `audio.masterVolume`, the video unit,
`allowOpposingDirections`, `idleOptimization`, `idleLoop`,
`memory.hw.devices`, `vbaBugCompat`, the file handles `biosVf`, `mbVf`,
`romVf`, the ROM image `memory.rom` (`none` for a null pointer, otherwise the
bytes it points to), `pristineRomSize`, the timing root and the addresses of
the regions; `rest` is the remainder of the board. -/
structure GBA (T : Types) where
  keysActive : Nat
  romSize : Nat
  savedataType : Int
  masterVolume : Int
  video : GBAVideo T
  allowOpposingDirections : Bool
  idleOptimization : Int
  idleLoop : Nat
  devices : Nat
  vbaBugCompat : Bool
  biosVf : Option T.VFile
  mbVf : Option T.VFile
  romVf : Option T.VFile
  rom : Option (List Nat)
  pristineRomSize : Nat
  timing : T.Timing
  regions : GBARegionPointers
  rest : T.Board

/-- The fields of `core->opts` (`struct mCoreOptions`) that `core.c` uses. -/
structure mCoreOptions where
  mute : Bool
  volume : Int
  frameskip : Int
  useBios : Bool
  skipBios : Bool
  bios : Option String

/-- The member `renderer` of the facade: `outputBuffer` (`none` for null). -/
structure GBAVideoSoftwareRenderer (T : Types) where
  outputBuffer : Option T.Buffer
  outputBufferStride : Nat

/-- The member `glRenderer` of the facade: `outputTex` (an `unsigned`, the
value `(unsigned) -1` meaning that no target is installed) and `scale`. -/
structure GBAVideoGLRenderer (T : Types) where
  outputTex : Nat
  scale : Int
  rest : T.Gpu

/-- The member `proxyRenderer` of the facade: `logger` and `flushScanline`. -/
structure GBAVideoProxyRenderer (T : Types) where
  logger : Option (LoggerRef T)
  flushScanline : Int
  rest : T.Proxy

/-- The facade `struct GBACore` with the members of its `struct mCore` head
that are used below: CPU, board, options, configuration, video logger, the
software, GPU and proxy renderers, the override fields, the owned block
vector (`memoryBlocks[12]`), its recorded length and the cached save-media
tag, the pointer `cheatDevice`, the entry `components[CPU_COMPONENT_CHEAT_DEVICE]`
of the component table and the pointer `logContext`; `rest` is the remainder
(debugger, the other components, the video-log proxy) together with the heap
objects the facade's pointers lead to.  The CPU's `components` pointer is the
facade's array `components` (`ARMSetComponents` in `_GBACoreInit`), so a store
through `cpu->components` is a store into this table. -/
structure GBACore (T : Types) where
  cpu : ARMCore T
  board : GBA T
  opts : mCoreOptions
  config : T.Config
  videoLogger : Option (LoggerRef T)
  renderer : GBAVideoSoftwareRenderer T
  glRenderer : GBAVideoGLRenderer T
  proxyRenderer : GBAVideoProxyRenderer T
  overrides : Option T.Overrides
  override : T.Override
  hasOverride : Bool
  memoryBlocks : List mCoreMemoryBlock
  nMemoryBlocks : Nat
  memoryBlockType : Int
  cheatDevice : Option T.Cheat
  componentsCheatDevice : Option T.Cheat
  logContext : Option T.LogContext
  rest : T.Facade

/-! ## Listing the memory blocks -/

/-- The `switch` of `_GBACoreListMemoryBlocks`: the template chosen for a
save-media type, the `default` being `_GBAMemoryBlocks`. -/
def memoryBlockTemplate (K : Headers) (type : Int) : List mCoreMemoryBlock :=
  if type = K.GBA_SAVEDATA_SRAM then _GBAMemoryBlocksSRAM K
  else if type = K.GBA_SAVEDATA_SRAM512 then _GBAMemoryBlocksSRAM512 K
  else if type = K.GBA_SAVEDATA_FLASH512 then _GBAMemoryBlocksFlash512 K
  else if type = K.GBA_SAVEDATA_FLASH1M then _GBAMemoryBlocksFlash1M K
  else if type = K.GBA_SAVEDATA_EEPROM then _GBAMemoryBlocksEEPROM K
  else if type = K.GBA_SAVEDATA_EEPROM512 then _GBAMemoryBlocksEEPROM512 K
  else _GBAMemoryBlocks K

/-- The test of the patch loop: the block's id is one of the three ROM
regions. -/
def isROMRegion (K : Headers) (id : Int) : Bool :=
  id == K.GBA_REGION_ROM0 || id == K.GBA_REGION_ROM1 || id == K.GBA_REGION_ROM2

/-- One iteration of the patch loop: a ROM region gets `size = romSize`. -/
def patchROMSize (K : Headers) (romSize : Nat) (b : mCoreMemoryBlock) : mCoreMemoryBlock :=
  if isROMRegion K b.id then { b with size := romSize } else b

/-- The call `memcpy(gbacore->memoryBlocks, template, sizeof(template))`: the
leading entries of the array are overwritten, the others stay. -/
def memcpyBlocks (dst src : List mCoreMemoryBlock) : List mCoreMemoryBlock :=
  src ++ dst.drop src.length

/-- The function `_GBACoreListMemoryBlocks`.  It returns the facade after the
call, the array handed out through `*blocks`, and the count.  When the cached
tag differs from the board's save-media type the template is copied, the
entries `0 .. nMemoryBlocks - 1` are patched, and the tag is updated. -/
def _GBACoreListMemoryBlocks {T : Types} (K : Headers) (core : GBACore T) :
    GBACore T × List mCoreMemoryBlock × Nat :=
  if core.memoryBlockType ≠ core.board.savedataType then
    let tmpl := memoryBlockTemplate K core.board.savedataType
    let copied := memcpyBlocks core.memoryBlocks tmpl
    let n := tmpl.length
    let patched := (copied.take n).map (patchROMSize K core.board.romSize) ++ copied.drop n
    let core' := { core with
      memoryBlocks := patched, nMemoryBlocks := n,
      memoryBlockType := core.board.savedataType }
    (core', core'.memoryBlocks, core'.nMemoryBlocks)
  else
    (core, core.memoryBlocks, core.nMemoryBlocks)

/-- The blocks a listing call returns: the first `count` entries of the array. -/
def listedBlocks {T : Types} (r : GBACore T × List mCoreMemoryBlock × Nat) :
    List mCoreMemoryBlock :=
  r.2.1.take r.2.2

/-- The step "the board's save-media type is set to `t`" of the listing
claims: the store into `memory.savedata.type`, which board code outside
`core.c` performs (the spec's test hook `_setSavedataType`). -/
def _setSavedataType {T : Types} (core : GBACore T) (t : Int) : GBACore T :=
  { core with board := { core.board with savedataType := t } }

/-! ## Build flags, further header constants, collaborators -/

/-- The preprocessor symbols that select code in `core.c`.  `MINIMAL_CORE` is
`none` when the symbol is undefined and its value otherwise; `LIBRETRO` is
the symbol `__LIBRETRO__`. -/
structure Build where
  BUILD_GLES3 : Bool
  DISABLE_THREADING : Bool
  MINIMAL_CORE : Option Nat
  ENABLE_VFS : Bool
  LIBRETRO : Bool

/-- Further constants that `core.c` takes from headers (`gba/hardware.h`,
`gba/video.h`, `gba/gba.h`, `gba/memory.h`, the platform's `limits.h`).
`sizeof_rom_element` is the size in bytes of the objects `memory.rom` points
to, which fixes where `&gba->memory.rom[1]` lies. -/
structure BoardHeaders where
  HW_GB_PLAYER_DETECTION : Nat
  VIDEO_TOTAL_LENGTH : Nat
  VIDEO_HORIZONTAL_LENGTH : Nat
  IDLE_LOOP_IGNORE : Int
  IDLE_LOOP_REMOVE : Int
  IDLE_LOOP_DETECT : Int
  GBA_IDLE_LOOP_NONE : Nat
  sizeof_rom_element : Nat
  PATH_MAX : Nat
  PATH_SEP : String

/-- The values the constants of `BoardHeaders` have in the mGBA headers on a
POSIX platform; `memory.rom` is a `uint32_t*` there. -/
def mgbaBoardHeaders : BoardHeaders where
  HW_GB_PLAYER_DETECTION := 0x40
  VIDEO_TOTAL_LENGTH := 280896
  VIDEO_HORIZONTAL_LENGTH := 1232
  IDLE_LOOP_IGNORE := -1
  IDLE_LOOP_REMOVE := 0
  IDLE_LOOP_DETECT := 1
  GBA_IDLE_LOOP_NONE := 0xFFFFFFFF
  sizeof_rom_element := 4
  PATH_MAX := 4096
  PATH_SEP := "/"

/-- The constant `LOGO_CRC32` of `core.c`. -/
def LOGO_CRC32 : Nat := 0xD0BEB55E

/-- Collaborators of the facade outside `core.c`.  Each is applied to the
state it can reach.

* The loaders and the keypad interrupt test act on the board.
* `initAlloc` stands for the two `anonymousMemoryMap` calls followed by
  `GBACreate`, `ARMSetComponents`, `ARMInit`, `mRTCGenericSourceInit` and the
  stores of `_GBACoreInit` into members that are not modelled (`none` when an
  allocation fails).
* The typed getters of the configuration return `none` when they report
  `false`; they store through their out-pointer only when they report `true`.
  `mCoreConfigCopyValue dst src key` is the destination after the copy.
* `uninitialized` is the value held by the local `scale` of the `videoScale`
  branch of `_GBACoreReloadConfigOption` when nothing was stored into it.
* `GBAVideoAssociateRenderer` acts on the video unit, the renderer
  constructors on the renderer they are given.
* `VFileOpen` is the file system as seen during one call; `mCoreConfigDirectory`
  is the path that function writes.
* `ARMReset`, `GBASkipBIOS`, `mTimingInterrupt` and `ARMRunLoop` reach the CPU
  and, through its master component and the timing root, the board.
* `mTimingCurrentTime` returns an `int32_t`, given here as its 32-bit pattern.
* `USE_ELF` is the build flag of that name. -/
structure GBAExt (T : Types) where
  USE_ELF : Bool
  ELFOpen : T.VFile → Option T.ELF
  GBAVerifyELFEntry : T.ELF → Bool
  GBALoadNull : GBA T → GBA T
  mCoreLoadELF : GBA T → T.ELF → Bool × GBA T
  GBAIsMB : T.VFile → Bool
  GBALoadMB : GBA T → T.VFile → Bool × GBA T
  GBALoadROM : GBA T → T.VFile → Bool × GBA T
  GBATestKeypadIRQ : GBA T → GBA T
  initAlloc : GBACore T → Option (ARMCore T × GBA T × T.Facade)
  mCoreConfigGetBoolValue : T.Config → String → Option Bool
  mCoreConfigGetIntValue : T.Config → String → Option Int
  mCoreConfigGetValue : T.Config → String → Option String
  mCoreConfigCopyValue : T.Config → T.Config → String → T.Config
  mCoreConfigGetOverridesConst : T.Config → T.Overrides
  uninitialized : Int
  GBAVideoAssociateRenderer : GBAVideo T → RendererRef → GBAVideo T
  GBAVideoSoftwareRendererCreate : GBAVideoSoftwareRenderer T → GBAVideoSoftwareRenderer T
  GBAVideoGLRendererCreate : GBAVideoGLRenderer T → GBAVideoGLRenderer T
  GBAVideoGLRendererSetScale : GBAVideoGLRenderer T → Int → GBAVideoGLRenderer T
  GBAVideoProxyRendererCreate :
    GBAVideoProxyRenderer T → RendererRef → LoggerRef T → GBAVideoProxyRenderer T
  GBAOverrideApply : GBA T → T.Override → GBA T
  GBAOverrideApplyDefaults : GBA T → Option T.Overrides → GBA T
  VFileOpen : String → Option T.VFile
  GBAIsBIOS : T.VFile → Bool
  GBALoadBIOS : GBA T → T.VFile → GBA T
  mCoreConfigDirectory : String
  ARMReset : ARMCore T × GBA T → ARMCore T × GBA T
  doCrc32 : List Nat → Nat
  GBASkipBIOS : ARMCore T × GBA T → ARMCore T × GBA T
  mTimingInterrupt : ARMCore T × GBA T → ARMCore T × GBA T
  mTimingCurrentTime : T.Timing → Nat
  ARMRunLoop : ARMCore T × GBA T → ARMCore T × GBA T

/-! ## Init, configuration, output targets -/

/-- The function `_GBACoreInit`.  The shell it receives comes from `malloc` in
`GBACoreCreate`.  Init assigns the CPU, the board and the remaining facade
members, clears the cheat device, the log context (unless `MINIMAL_CORE`)
and the component table, associates the dummy renderer, clears the output
buffer, marks the GPU target absent and clears the proxy logger; it stores
nothing into
`memoryBlocks`, `nMemoryBlocks` or `memoryBlockType`, which keep whatever the
shell held. -/
def _GBACoreInit {T : Types} (B : Build) (X : GBAExt T) (core : GBACore T) :
    Bool × GBACore T :=
  match X.initAlloc core with
  | none => (false, core)
  | some (cpu, gba, rest) =>
    let gba1 := { gba with video := X.GBAVideoAssociateRenderer gba.video .dummyRenderer }
    let sw := X.GBAVideoSoftwareRendererCreate core.renderer
    let gl := X.GBAVideoGLRendererCreate core.glRenderer
    let proxy := core.proxyRenderer
    (true, { core with
      cpu := cpu, board := gba1, rest := rest, videoLogger := none,
      hasOverride := false, overrides := none, cheatDevice := none,
      logContext := if B.MINIMAL_CORE.isNone then none else core.logContext,
      componentsCheatDevice := none,
      renderer := { sw with outputBuffer := none },
      glRenderer := if B.BUILD_GLES3 then { gl with outputTex := 4294967295 }
        else core.glRenderer,
      proxyRenderer := if B.MINIMAL_CORE.isNone then { proxy with logger := none }
        else proxy })

/-- The function `strcasecmp(a, b) == 0` in the C locale. -/
def strcasecmpEq (a b : String) : Bool :=
  a.toList.map Char.toLower == b.toList.map Char.toLower

/-- The keys `_GBACoreLoadConfig` copies into the facade's configuration, in
order; `threadedVideo` only in a build with threading. -/
def loadConfigCopiedKeys (B : Build) : List String :=
  ["allowOpposingDirections", "gba.bios", "gba.forceGbp", "vbaBugCompat"] ++
  (if B.DISABLE_THREADING then [] else ["threadedVideo"]) ++
  ["hwaccelVideo", "videoScale"]

/-- The function `_GBACoreLoadConfig`. -/
def _GBACoreLoadConfig {T : Types} (B : Build) (H : BoardHeaders) (X : GBAExt T)
    (core : GBACore T) (config : T.Config) : GBACore T :=
  let gba := core.board
  let gba1 := { gba with
    masterVolume := if core.opts.mute then 0 else core.opts.volume,
    video := { gba.video with frameskip := core.opts.frameskip } }
  let overrides :=
    match B.MINIMAL_CORE with
    | none => some (X.mCoreConfigGetOverridesConst config)
    | some n => if n < 2 then some (X.mCoreConfigGetOverridesConst config) else core.overrides
  let gba2 :=
    match X.mCoreConfigGetValue config "idleOptimization" with
    | some v =>
      if strcasecmpEq v "ignore" then { gba1 with idleOptimization := H.IDLE_LOOP_IGNORE }
      else if strcasecmpEq v "remove" then { gba1 with idleOptimization := H.IDLE_LOOP_REMOVE }
      else if strcasecmpEq v "detect" then
        if gba1.idleLoop = H.GBA_IDLE_LOOP_NONE then
          { gba1 with idleOptimization := H.IDLE_LOOP_DETECT }
        else { gba1 with idleOptimization := H.IDLE_LOOP_REMOVE }
      else gba1
    | none => gba1
  let opposing := X.mCoreConfigGetBoolValue config "allowOpposingDirections"
  let gba3 := { gba2 with
    allowOpposingDirections := opposing.getD gba2.allowOpposingDirections }
  let cfg := (loadConfigCopiedKeys B).foldl
    (fun c key => X.mCoreConfigCopyValue c config key) core.config
  { core with board := gba3, overrides := overrides, config := cfg }

/-- The function `_GBACoreSetOverride`. -/
def _GBACoreSetOverride {T : Types} (core : GBACore T) (o : T.Override) : GBACore T :=
  { core with override := o, hasOverride := true }

/-- The function `_GBACoreSetVideoBuffer`; the dirty marks of the scanlines
are not part of the embedding. -/
def _GBACoreSetVideoBuffer {T : Types} (core : GBACore T) (buffer : Option T.Buffer)
    (stride : Nat) : GBACore T :=
  { core with renderer := { outputBuffer := buffer, outputBufferStride := stride } }

/-- The function `_GBACoreSetVideoGLTex`; `outputTexDirty` is not part of the
embedding. -/
def _GBACoreSetVideoGLTex {T : Types} (B : Build) (core : GBACore T) (texid : Nat) :
    GBACore T :=
  if B.BUILD_GLES3 then
    let gl := core.glRenderer
    { core with glRenderer := { gl with outputTex := texid % 4294967296 } }
  else core

/-! ## Renderer selection, reloading one option -/

/-- The `BUILD_GLES3` block that `_GBACoreReset` (lines 736-743) and the
`hwaccelVideo` branch of `_GBACoreReloadConfigOption` (lines 464-472) share
word for word: with a GPU target installed and `hwaccelVideo` true in the
facade's own configuration, `videoScale` is read into the GPU renderer's scale
and the GPU renderer is chosen; otherwise the scale is set to 1.  The result
is the local `renderer` and the GPU renderer after the block. -/
def selectGLRenderer {T : Types} (B : Build) (X : GBAExt T) (core : GBACore T)
    (renderer : Option RendererRef) : Option RendererRef × GBAVideoGLRenderer T :=
  let gl := core.glRenderer
  if B.BUILD_GLES3 then
    if gl.outputTex != 4294967295 &&
        X.mCoreConfigGetBoolValue core.config "hwaccelVideo" == some true then
      let scale := X.mCoreConfigGetIntValue core.config "videoScale"
      (some .glRenderer, { gl with scale := scale.getD gl.scale })
    else (renderer, { gl with scale := 1 })
  else (renderer, gl)

/-- The final step of both renderer selections: `if (renderer)
GBAVideoAssociateRenderer(&gba->video, renderer)`. -/
def associateIfSet {T : Types} (X : GBAExt T) (gba : GBA T)
    (renderer : Option RendererRef) : GBA T :=
  match renderer with
  | some r => { gba with video := X.GBAVideoAssociateRenderer gba.video r }
  | none => gba

/-- The `hwaccelVideo` branch of `_GBACoreReloadConfigOption` (lines 459-482). -/
def reloadHwaccelVideo {T : Types} (B : Build) (X : GBAExt T) (core : GBACore T) :
    GBACore T :=
  let renderer0 : Option RendererRef :=
    if core.renderer.outputBuffer.isSome then some .renderer else none
  let sel := selectGLRenderer B X core renderer0
  let core1 := { core with glRenderer := sel.2 }
  match (if B.MINIMAL_CORE.isNone then sel.1 else none), core1.videoLogger with
  | some r, some l =>
    let proxy := X.GBAVideoProxyRendererCreate core1.proxyRenderer r l
    { core1 with
      proxyRenderer := proxy,
      board := associateIfSet X core1.board (some .proxyRenderer) }
  | _, _ => { core1 with board := associateIfSet X core1.board sel.1 }

/-- Lines 403-412 of `_GBACoreReloadConfigOption`: a null option reloads the
volume and the frame skip from `core->opts`. -/
def reloadFromOpts {T : Types} (core : GBACore T) : GBACore T :=
  let gba := core.board
  let gba1 := { gba with
    masterVolume := if core.opts.mute then 0 else core.opts.volume,
    video := { gba.video with frameskip := core.opts.frameskip } }
  { core with board := gba1 }

/-- The `mute` branch (lines 414-423); `cfg` is the configuration read. -/
def reloadMute {T : Types} (X : GBAExt T) (core : GBACore T) (cfg : T.Config) : GBACore T :=
  match X.mCoreConfigGetBoolValue cfg "mute" with
  | some m =>
    { core with
      opts := { core.opts with mute := m },
      board := { core.board with masterVolume := if m then 0 else core.opts.volume } }
  | none => core

/-- The `volume` branch (lines 424-429). -/
def reloadVolume {T : Types} (X : GBAExt T) (core : GBACore T) (cfg : T.Config) : GBACore T :=
  match X.mCoreConfigGetIntValue cfg "volume" with
  | some v =>
    let core1 := { core with opts := { core.opts with volume := v } }
    if !core.opts.mute then { core1 with board := { core.board with masterVolume := v } }
    else core1
  | none => core

/-- The `frameskip` branch (lines 430-435). -/
def reloadFrameskip {T : Types} (X : GBAExt T) (core : GBACore T) (cfg : T.Config) :
    GBACore T :=
  match X.mCoreConfigGetIntValue cfg "frameskip" with
  | some f =>
    let gba := core.board
    { core with
      opts := { core.opts with frameskip := f },
      board := { gba with video := { gba.video with frameskip := f } } }
  | none => core

/-- The facade's own configuration after `if (config != &core->config)
mCoreConfigCopyValue(&core->config, config, key)`. -/
def copyIfOther {T : Types} (X : GBAExt T) (core : GBACore T) (config : Option T.Config)
    (key : String) : T.Config :=
  match config with
  | some c => X.mCoreConfigCopyValue core.config c key
  | none => core.config

/-- The `allowOpposingDirections` branch (lines 436-442). -/
def reloadAllowOpposingDirections {T : Types} (X : GBAExt T) (core : GBACore T)
    (config : Option T.Config) : GBACore T :=
  let own := copyIfOther X core config "allowOpposingDirections"
  let cfg := config.getD own
  let opposing := X.mCoreConfigGetBoolValue cfg "allowOpposingDirections"
  let gba := core.board
  { core with
    config := own,
    board := { gba with allowOpposingDirections := opposing.getD gba.allowOpposingDirections } }

/-- The `videoScale` branch (lines 446-457, `BUILD_GLES3`): `hwaccelVideo` is
read from the facade's own configuration, `videoScale` from `config`. -/
def reloadVideoScale {T : Types} (X : GBAExt T) (core : GBACore T)
    (config : Option T.Config) : GBACore T :=
  let own := copyIfOther X core config "videoScale"
  let cfg := config.getD own
  let gl := core.glRenderer
  if gl.outputTex != 4294967295 &&
      X.mCoreConfigGetBoolValue own "hwaccelVideo" == some true then
    let scale := (X.mCoreConfigGetIntValue cfg "videoScale").getD X.uninitialized
    { core with config := own, glRenderer := X.GBAVideoGLRendererSetScale gl scale }
  else { core with config := own }

/-- The `threadedVideo.flushScanline` branch (lines 485-489). -/
def reloadFlushScanline {T : Types} (X : GBAExt T) (core : GBACore T) (cfg : T.Config) :
    GBACore T :=
  let flushScanline :=
    (X.mCoreConfigGetIntValue cfg "threadedVideo.flushScanline").getD (-1)
  let proxy := core.proxyRenderer
  { core with proxyRenderer := { proxy with flushScanline := flushScanline } }

/-- The function `_GBACoreReloadConfigOption`.  The argument `config` is
`none` for a null pointer and for a pointer to the facade's own configuration
(the function replaces the former by the latter), and `some c` for another
configuration object.  The branches up to `videoScale` return; the
`hwaccelVideo` branch falls through to the test for
`threadedVideo.flushScanline`. -/
def _GBACoreReloadConfigOption {T : Types} (B : Build) (X : GBAExt T) (core : GBACore T)
    (option : Option String) (config : Option T.Config) : GBACore T :=
  let cfg := config.getD core.config
  match option with
  | none => reloadFromOpts core
  | some option =>
    if option = "mute" then reloadMute X core cfg
    else if option = "volume" then reloadVolume X core cfg
    else if option = "frameskip" then reloadFrameskip X core cfg
    else if option = "allowOpposingDirections" then reloadAllowOpposingDirections X core config
    else if B.BUILD_GLES3 && option = "videoScale" then reloadVideoScale X core config
    else
      let core1 := if option = "hwaccelVideo" then reloadHwaccelVideo B X core else core
      if B.MINIMAL_CORE.isNone && option = "threadedVideo.flushScanline" then
        reloadFlushScanline X core1 cfg
      else core1

/-! ## Reset -/

/-- Lines 727-764 of `_GBACoreReset`: the renderer selection.  All of it,
the installation of the thread-proxy logger included, lies inside the test
that an output buffer or (with `BUILD_GLES3`) a GPU target is installed. -/
def resetRenderer {T : Types} (B : Build) (X : GBAExt T) (core : GBACore T) : GBACore T :=
  if core.renderer.outputBuffer.isSome ||
      (B.BUILD_GLES3 && core.glRenderer.outputTex != 4294967295) then
    let renderer0 : Option RendererRef :=
      if core.renderer.outputBuffer.isSome then some .renderer else none
    let sel := selectGLRenderer B X core renderer0
    let threaded := !B.DISABLE_THREADING &&
      X.mCoreConfigGetBoolValue core.config "threadedVideo" == some true
    let logger : Option (LoggerRef T) :=
      if threaded && core.videoLogger.isNone then some .threadProxy else core.videoLogger
    let core1 := { core with glRenderer := sel.2, videoLogger := logger }
    match (if B.MINIMAL_CORE.isNone then sel.1 else none), logger with
    | some r, some l =>
      let proxy := X.GBAVideoProxyRendererCreate core1.proxyRenderer r l
      let flushScanline :=
        (X.mCoreConfigGetIntValue core.config "threadedVideo.flushScanline").getD (-1)
      { core1 with
        proxyRenderer := { proxy with flushScanline := flushScanline },
        board := associateIfSet X core1.board (some .proxyRenderer) }
    | _, _ => { core1 with board := associateIfSet X core1.board sel.1 }
  else core

/-- Lines 773-777 of `_GBACoreReset`: the manual override when one was set,
the default lookup otherwise. -/
def applyOverride {T : Types} (X : GBAExt T) (core : GBACore T) (gba : GBA T) : GBA T :=
  if core.hasOverride then X.GBAOverrideApply gba core.override
  else X.GBAOverrideApplyDefaults gba core.overrides

/-- The mask of `devices &= ~HW_GB_PLAYER_DETECTION`, the complement being
taken in 32 bits. -/
def gbPlayerClearMask (H : BoardHeaders) : Nat :=
  4294967295 - H.HW_GB_PLAYER_DETECTION % 4294967296

/-- Lines 766-784 of `_GBACoreReset`: the GB-Player bit around the override
application, `vbaBugCompat`, and the invalidation of the cache tag.
`devices` is a `uint32_t`; the complement is taken in 32 bits. -/
def resetOverrides {T : Types} (H : BoardHeaders) (X : GBAExt T) (core : GBACore T) :
    GBACore T :=
  let forceGbp := (X.mCoreConfigGetBoolValue core.config "gba.forceGbp").getD false
  let vbaBugCompat := (X.mCoreConfigGetBoolValue core.config "vbaBugCompat").getD true
  let gba := core.board
  let gba1 :=
    if !forceGbp then
      { gba with devices := gba.devices &&& gbPlayerClearMask H }
    else gba
  let gba2 := applyOverride X core gba1
  let gba3 :=
    if forceGbp then
      { gba2 with devices := gba2.devices ||| H.HW_GB_PLAYER_DETECTION % 4294967296 }
    else gba2
  let gba4 := if !vbaBugCompat then { gba3 with vbaBugCompat := false } else gba3
  { core with board := gba4, memoryBlockType := -2 }

/-- One candidate of the BIOS discovery: open the path, keep the file when
`GBAIsBIOS` accepts it, close it otherwise. -/
def openBIOS {T : Types} (X : GBAExt T) (path : String) : Option T.VFile :=
  match X.VFileOpen path with
  | some bios => if X.GBAIsBIOS bios then some bios else none
  | none => none

/-- The default BIOS path: `mCoreConfigDirectory` followed by
`strncat(path, PATH_SEP "gba_bios.bin", PATH_MAX - strlen(path) - 1)`. -/
def defaultBIOSPath {T : Types} (H : BoardHeaders) (X : GBAExt T) : String :=
  let path := X.mCoreConfigDirectory
  let tail := (H.PATH_SEP ++ "gba_bios.bin").toList.take (H.PATH_MAX - path.length - 1)
  path ++ String.mk tail

/-- Lines 786-829 of `_GBACoreReset` (`ENABLE_VFS`): BIOS discovery when no
BIOS is loaded and `useBios` is set, in the order explicit path, configured
`gba.bios`, and (outside libretro) the default path. -/
def resetBIOS {T : Types} (B : Build) (H : BoardHeaders) (X : GBAExt T) (core : GBACore T) :
    GBACore T :=
  if B.ENABLE_VFS && core.board.biosVf.isNone && core.opts.useBios then
    let c1 : Option T.VFile :=
      match core.opts.bios with
      | some path => openBIOS X path
      | none => none
    let c2 : Option T.VFile :=
      if c1.isSome then c1
      else
        match X.mCoreConfigGetValue core.config "gba.bios" with
        | some path => openBIOS X path
        | none => none
    let c3 : Option T.VFile :=
      if c2.isSome || B.LIBRETRO then c2 else openBIOS X (defaultBIOSPath H X)
    match c3 with
    | some bios => { core with board := X.GBALoadBIOS core.board bios }
    | none => core
  else core

/-- The argument of `doCrc32` in `_GBACoreReset`: `0x9C` bytes starting at
`&gba->memory.rom[1]`, that is at byte offset `sizeof_rom_element` of the ROM
image (read as the empty image when `memory.rom` is null). -/
def logoBytes {T : Types} (H : BoardHeaders) (gba : GBA T) : List Nat :=
  ((gba.rom.getD []).drop H.sizeof_rom_element).take 0x9C

/-- Lines 832-839 of `_GBACoreReset`: the value of `forceSkip` when the test
of line 841 is made; `crc` is a `uint32_t`. -/
def resetForceSkip {T : Types} (H : BoardHeaders) (X : GBAExt T) (opts : mCoreOptions)
    (gba : GBA T) : Bool :=
  let forceSkip :=
    gba.mbVf.isSome || (opts.skipBios && (gba.romVf.isSome || gba.rom.isSome))
  if !forceSkip && (gba.romVf.isSome || gba.rom.isSome) &&
      decide (gba.pristineRomSize ≥ 0xA0) && gba.biosVf.isSome then
    let crc := X.doCrc32 (logoBytes H gba) % 4294967296
    if crc != LOGO_CRC32 then true else forceSkip
  else forceSkip

/-- The state on which the skip decision of `_GBACoreReset` is taken: after
`ARMReset` (line 831). -/
def resetBeforeSkip {T : Types} (X : GBAExt T) (core : GBACore T) : ARMCore T × GBA T :=
  X.ARMReset (core.cpu, core.board)

/-- Lines 841-845 of `_GBACoreReset`: `GBASkipBIOS` when `forceSkip` is set,
then `mTimingInterrupt`. -/
def skipAndInterrupt {T : Types} (X : GBAExt T) (forceSkip : Bool) (s : ARMCore T × GBA T) :
    ARMCore T × GBA T :=
  X.mTimingInterrupt (if forceSkip then X.GBASkipBIOS s else s)

/-- Lines 831-845 of `_GBACoreReset`: `ARMReset`, the skip decision,
`GBASkipBIOS` when it is positive, `mTimingInterrupt`. -/
def resetFinish {T : Types} (H : BoardHeaders) (X : GBAExt T) (core : GBACore T) :
    GBACore T :=
  let s1 := resetBeforeSkip X core
  let s3 := skipAndInterrupt X (resetForceSkip H X core.opts s1.2) s1
  { core with cpu := s3.1, board := s3.2 }

/-- Lines 727-829 of `_GBACoreReset`: everything before `ARMReset`. -/
def resetPrefix {T : Types} (B : Build) (H : BoardHeaders) (X : GBAExt T)
    (core : GBACore T) : GBACore T :=
  resetBIOS B H X (resetOverrides H X (resetRenderer B X core))

/-- The function `_GBACoreReset`: its four parts in order. -/
def _GBACoreReset {T : Types} (B : Build) (H : BoardHeaders) (X : GBAExt T)
    (core : GBACore T) : GBACore T :=
  resetFinish H X (resetPrefix B H X core)

/-! ## Loading a ROM, running a frame -/

/-- The function `_GBACoreLoadROM`.  With `USE_ELF`, a file that opens as an
ELF image is loaded by `mCoreLoadELF` (after `GBALoadNull` when the entry
point lies in ROM0) and the function returns; otherwise a multiboot image is
loaded by `GBALoadMB` and the function returns; otherwise the cache tag is
set to -2 and `GBALoadROM` is called.  Closing the file and the ELF handle
has no effect on the state modelled here. -/
def _GBACoreLoadROM {T : Types} (X : GBAExt T) (core : GBACore T) (vf : T.VFile) :
    Bool × GBACore T :=
  match (if X.USE_ELF then X.ELFOpen vf else none) with
  | some elf =>
    let board1 := if X.GBAVerifyELFEntry elf then X.GBALoadNull core.board else core.board
    let r := X.mCoreLoadELF board1 elf
    (r.1, { core with board := r.2 })
  | none =>
    if X.GBAIsMB vf then
      let r := X.GBALoadMB core.board vf
      (r.1, { core with board := r.2 })
    else
      let core1 := { core with memoryBlockType := -2 }
      let r := X.GBALoadROM core1.board vf
      (r.1, { core1 with board := r.2 })

/-- The cycles elapsed since `startCycle` in the state `s`, as the loop test
of `_GBACoreRunFrame` computes them: `mTimingCurrentTime(&gba->timing) -
startCycle` in 32-bit unsigned arithmetic. -/
def elapsedCycles {T : Types} (X : GBAExt T) (startCycle : Nat) (s : ARMCore T × GBA T) :
    Nat :=
  (X.mTimingCurrentTime s.2.timing % 4294967296 + 4294967296 - startCycle) % 4294967296

/-- The bound of the loop test, `VIDEO_TOTAL_LENGTH + VIDEO_HORIZONTAL_LENGTH`
converted to `uint32_t` for the comparison. -/
def frameCycleLimit (H : BoardHeaders) : Nat :=
  (H.VIDEO_TOTAL_LENGTH + H.VIDEO_HORIZONTAL_LENGTH) % 4294967296

/-- The loop test of `_GBACoreRunFrame`. -/
def runFrameTest {T : Types} (H : BoardHeaders) (X : GBAExt T) (frameCounter startCycle : Nat)
    (s : ARMCore T × GBA T) : Bool :=
  s.2.video.frameCounter % 4294967296 == frameCounter &&
    decide (elapsedCycles X startCycle s < frameCycleLimit H)

/-- The `while` loop of `_GBACoreRunFrame` with a bound on the number of
tests: `none` when the bound is used up before the test fails. -/
def runFrameLoop {T : Types} (H : BoardHeaders) (X : GBAExt T) (frameCounter startCycle : Nat) :
    Nat → ARMCore T × GBA T → Option (ARMCore T × GBA T)
  | 0, _ => none
  | fuel + 1, s =>
    if runFrameTest H X frameCounter startCycle s then
      runFrameLoop H X frameCounter startCycle fuel (X.ARMRunLoop s)
    else some s

/-- The function `_GBACoreRunFrame`, with a bound on the number of loop
tests. -/
def _GBACoreRunFrame {T : Types} (H : BoardHeaders) (X : GBAExt T) (fuel : Nat)
    (core : GBACore T) : Option (GBACore T) :=
  let frameCounter := core.board.video.frameCounter % 4294967296
  let startCycle := X.mTimingCurrentTime core.board.timing % 4294967296
  match runFrameLoop H X frameCounter startCycle fuel (core.cpu, core.board) with
  | some s => some { core with cpu := s.1, board := s.2 }
  | none => none

/-! ## Keys -/

/-- The function `_GBACoreSetKeys`; the argument is a `uint32_t`. -/
def _GBACoreSetKeys {T : Types} (X : GBAExt T) (core : GBACore T) (keys : Nat) : GBACore T :=
  let gba := core.board
  let gba1 := { gba with keysActive := keys % 2 ^ 32 }
  { core with board := X.GBATestKeypadIRQ gba1 }

/-- The function `_GBACoreAddKeys`: `keysActive |= keys`. -/
def _GBACoreAddKeys {T : Types} (X : GBAExt T) (core : GBACore T) (keys : Nat) : GBACore T :=
  let gba := core.board
  let gba1 := { gba with keysActive := gba.keysActive ||| keys % 2 ^ 32 }
  { core with board := X.GBATestKeypadIRQ gba1 }

/-- The function `_GBACoreClearKeys`: `keysActive &= ~keys`, the complement
being taken in 32 bits. -/
def _GBACoreClearKeys {T : Types} (X : GBAExt T) (core : GBACore T) (keys : Nat) : GBACore T :=
  let gba := core.board
  let gba1 := { gba with keysActive := gba.keysActive &&& (4294967295 - keys % 2 ^ 32) }
  { core with board := X.GBATestKeypadIRQ gba1 }

/-- The function `_GBACoreGetKeys`. -/
def _GBACoreGetKeys {T : Types} (core : GBACore T) : Nat :=
  core.board.keysActive

/-- One key operation of a front-end. -/
inductive KeyOp where
  | set (keys : Nat)
  | add (keys : Nat)
  | clear (keys : Nat)
deriving DecidableEq, Repr

/-- The argument of a key operation. -/
def KeyOp.arg : KeyOp → Nat
  | .set k => k
  | .add k => k
  | .clear k => k

/-- Running one key operation on the facade. -/
def runKeyOp {T : Types} (X : GBAExt T) (core : GBACore T) : KeyOp → GBACore T
  | .set k => _GBACoreSetKeys X core k
  | .add k => _GBACoreAddKeys X core k
  | .clear k => _GBACoreClearKeys X core k

/-- The key semantics in the spec's words: `setKeys(k)` replaces the state by
`k`, `addKeys(k)` gives state OR `k`, `clearKeys(k)` gives state AND NOT `k`,
NOT being the complement of a 32-bit word. -/
def keySpecStep (state : Nat) : KeyOp → Nat
  | .set k => k
  | .add k => state ||| k
  | .clear k => state &&& (k ^^^ 4294967295)

/-! ## Registers by name -/

/-- The platform choices of the C library that `strtoul` depends on:
`ULONG_MAX` (at least `2 ^ 32 - 1`), and whether `errno` is set (to `EINVAL`)
when no conversion can be performed, which ISO C leaves open. -/
structure CLib where
  ULONG_MAX : Nat
  ULONG_MAX_ge : 4294967295 ≤ ULONG_MAX
  noConvEINVAL : Bool

/-- The function `isspace` in the C locale: space and the controls 9 to 13. -/
def isspace (c : Char) : Bool :=
  c.toNat == 32 || (9 ≤ c.toNat && c.toNat ≤ 13)

/-- The value of a run of decimal digits. -/
def decimalValue (ds : List Char) : Nat :=
  ds.foldl (fun acc c => 10 * acc + (c.toNat - 48)) 0

/-- What a call `strtoul(nptr, &endptr, 10)` made with `errno == 0` leaves:
the returned value, the string `endptr` points to, and whether `errno` is
nonzero afterwards. -/
structure StrtoulResult where
  value : Nat
  endptr : List Char
  errno : Bool
deriving DecidableEq, Repr

/-- The function `strtoul` with base 10 (ISO C 7.22.1.4): white space is
skipped, one sign is accepted, the longest run of digits is converted.
Without a digit the value is 0 and `endptr` is `nptr`; a value above
`ULONG_MAX` gives `ULONG_MAX` with `errno` set; a minus sign negates the
value in the type `unsigned long`. -/
def strtoul (L : CLib) (nptr : List Char) : StrtoulResult :=
  let s1 := nptr.dropWhile isspace
  let neg := s1.head? == some '-'
  let s2 := if s1.head? == some '-' || s1.head? == some '+' then s1.tail else s1
  let ds := s2.takeWhile Char.isDigit
  let tl := s2.dropWhile Char.isDigit
  if ds.isEmpty then { value := 0, endptr := nptr, errno := L.noConvEINVAL }
  else
    let v := decimalValue ds
    if v > L.ULONG_MAX then { value := L.ULONG_MAX, endptr := tl, errno := true }
    else
      { value := if neg then (L.ULONG_MAX + 1 - v) % (L.ULONG_MAX + 1) else v,
        endptr := tl, errno := false }

/-- What `core.c` takes from the ARM headers and the ARM core: the register
numbers `ARM_SP`, `ARM_LR`, `ARM_PC`, the Thumb bit-field `cpsr.t` of the
packed CPSR, and the functions `_ARMReadCPSR`, `ThumbWritePC`, `ARMWritePC`. -/
structure ARMExt (T : Types) where
  ARM_SP : Fin 16
  ARM_LR : Fin 16
  ARM_PC : Fin 16
  cpsr_t : Nat → Bool
  _ARMReadCPSR : ARMCore T → ARMCore T
  ThumbWritePC : ARMCore T → ARMCore T
  ARMWritePC : ARMCore T → ARMCore T

/-- The numeric tail shared by `_GBACoreReadRegister` (lines 1243-1248) and
`_GBACoreWriteRegister` (lines 1302-1307): `errno = 0`, `strtoul`, and the
test `errno || regId > 15 || *parseEnd`; the register number when the test
lets it pass. -/
def parseRegId (L : CLib) (name : List Char) : Option (Fin 16) :=
  let r := strtoul L name
  if h : r.errno = true ∨ r.value > 15 ∨ r.endptr ≠ [] then none
  else some ⟨r.value, by omega⟩

/-- The numeric tail of `_GBACoreReadRegister` (lines 1243-1250). -/
def readNumeric {T : Types} (L : CLib) (core : GBACore T) (name : List Char) :
    Option Nat × GBACore T :=
  match parseRegId L name with
  | some regId => (some (core.cpu.gprs regId), core)
  | none => (none, core)

/-- The function `_GBACoreReadRegister`: the value stored through `out` when
the function returns `true` (`none` when it returns `false`, `out` then being
untouched), and the facade after the call. -/
def _GBACoreReadRegister {T : Types} (L : CLib) (A : ARMExt T) (core : GBACore T)
    (name : List Char) : Option Nat × GBACore T :=
  let cpu := core.cpu
  let c := name.head?.getD (Char.ofNat 0)
  if c = 'r' ∨ c = 'R' then readNumeric L core name.tail
  else if c = 'c' ∨ c = 'C' then
    if name = "cpsr".toList ∨ name = "CPSR".toList then
      (some cpu.cpsr, { core with cpu := A._ARMReadCPSR cpu })
    else (none, core)
  else if c = 'i' ∨ c = 'I' then
    if name = "ip".toList ∨ name = "IP".toList then (some (cpu.gprs 12), core)
    else (none, core)
  else if c = 's' ∨ c = 'S' then
    if name = "sp".toList ∨ name = "SP".toList then (some (cpu.gprs A.ARM_SP), core)
    else (none, core)
  else if c = 'l' ∨ c = 'L' then
    if name = "lr".toList ∨ name = "LR".toList then (some (cpu.gprs A.ARM_LR), core)
    else (none, core)
  else if c = 'p' ∨ c = 'P' then
    if name = "pc".toList ∨ name = "PC".toList then
      (some (cpu.gprs A.ARM_PC), core)
    else (none, core)
  else (none, core)

/-- The store `cpu->gprs[i] = value` of an `int32_t`, kept as its pattern. -/
def setGpr {T : Types} (cpu : ARMCore T) (i : Fin 16) (value : Nat) : ARMCore T :=
  { cpu with gprs := fun j => if j = i then value % 4294967296 else cpu.gprs j }

/-- Lines 1310-1314 of `_GBACoreWriteRegister`: `ThumbWritePC` when the Thumb
flag of the CPSR is set, `ARMWritePC` otherwise. -/
def pcWritePath {T : Types} (A : ARMExt T) (cpu : ARMCore T) : ARMCore T :=
  if A.cpsr_t cpu.cpsr then A.ThumbWritePC cpu else A.ARMWritePC cpu

/-- The numeric tail of `_GBACoreWriteRegister` (lines 1302-1316). -/
def writeNumeric {T : Types} (L : CLib) (A : ARMExt T) (core : GBACore T)
    (name : List Char) (value : Nat) : Bool × GBACore T :=
  match parseRegId L name with
  | some regId =>
    let cpu1 := setGpr core.cpu regId value
    let cpu2 := if regId = A.ARM_PC then pcWritePath A cpu1 else cpu1
    (true, { core with cpu := cpu2 })
  | none => (false, core)

/-- The register name made of `r` and the decimal numeral of `i`. -/
def regName (i : Nat) : List Char := 'r' :: Nat.toDigits 10 i

/-- The function `_GBACoreWriteRegister`; `value` is the `int32_t` read
through `in`, as its pattern. -/
def _GBACoreWriteRegister {T : Types} (L : CLib) (A : ARMExt T) (core : GBACore T)
    (name : List Char) (value : Nat) : Bool × GBACore T :=
  let cpu := core.cpu
  let c := name.head?.getD (Char.ofNat 0)
  if c = 'r' ∨ c = 'R' then writeNumeric L A core name.tail value
  else if c = 'c' ∨ c = 'C' then
    if name = "cpsr".toList then
      let cpu1 := { cpu with cpsr := value % 4294967296 &&& 0xF00000FF }
      (true, { core with cpu := A._ARMReadCPSR cpu1 })
    else (false, core)
  else if c = 'i' ∨ c = 'I' then
    if name = "ip".toList ∨ name = "IP".toList then
      (true, { core with cpu := setGpr cpu 12 value })
    else (false, core)
  else if c = 's' ∨ c = 'S' then
    if name = "sp".toList ∨ name = "SP".toList then
      (true, { core with cpu := setGpr cpu A.ARM_SP value })
    else (false, core)
  else if c = 'l' ∨ c = 'L' then
    if name = "lr".toList ∨ name = "LR".toList then
      (true, { core with cpu := setGpr cpu A.ARM_LR value })
    else (false, core)
  else if c = 'p' ∨ c = 'P' then
    if name = "pc".toList ∨ name = "PC".toList then writeNumeric L A core "15".toList value
    else (false, core)
  else (false, core)

/-- The enumerators of `enum mCoreRegisterType` that `core.c` uses. -/
inductive mCoreRegisterType where
  | mCORE_REGISTER_GPR
  | mCORE_REGISTER_FLAGS
deriving DecidableEq, Repr

/-- One entry of the register catalog (`struct mCoreRegisterInfo`); a null
`aliases` pointer is the empty list. -/
structure mCoreRegisterInfo where
  name : String
  aliases : List String
  width : Nat
  mask : Nat
  type : mCoreRegisterType
deriving DecidableEq, Repr

/-- The table `_GBARegisters`. -/
def _GBARegisters : List mCoreRegisterInfo :=
  [ { name := "r0", aliases := [], width := 4, mask := 0xFFFFFFFF, type := .mCORE_REGISTER_GPR },
    { name := "r1", aliases := [], width := 4, mask := 0xFFFFFFFF, type := .mCORE_REGISTER_GPR },
    { name := "r2", aliases := [], width := 4, mask := 0xFFFFFFFF, type := .mCORE_REGISTER_GPR },
    { name := "r3", aliases := [], width := 4, mask := 0xFFFFFFFF, type := .mCORE_REGISTER_GPR },
    { name := "r4", aliases := [], width := 4, mask := 0xFFFFFFFF, type := .mCORE_REGISTER_GPR },
    { name := "r5", aliases := [], width := 4, mask := 0xFFFFFFFF, type := .mCORE_REGISTER_GPR },
    { name := "r6", aliases := [], width := 4, mask := 0xFFFFFFFF, type := .mCORE_REGISTER_GPR },
    { name := "r7", aliases := [], width := 4, mask := 0xFFFFFFFF, type := .mCORE_REGISTER_GPR },
    { name := "r8", aliases := [], width := 4, mask := 0xFFFFFFFF, type := .mCORE_REGISTER_GPR },
    { name := "r9", aliases := [], width := 4, mask := 0xFFFFFFFF, type := .mCORE_REGISTER_GPR },
    { name := "r10", aliases := [], width := 4, mask := 0xFFFFFFFF, type := .mCORE_REGISTER_GPR },
    { name := "r11", aliases := [], width := 4, mask := 0xFFFFFFFF, type := .mCORE_REGISTER_GPR },
    { name := "r12", aliases := ["ip"], width := 4, mask := 0xFFFFFFFF,
      type := .mCORE_REGISTER_GPR },
    { name := "sp", aliases := ["r13"], width := 4, mask := 0xFFFFFFFF,
      type := .mCORE_REGISTER_GPR },
    { name := "lr", aliases := ["r14"], width := 4, mask := 0xFFFFFFFF,
      type := .mCORE_REGISTER_GPR },
    { name := "pc", aliases := ["r15"], width := 4, mask := 0xFFFFFFFF,
      type := .mCORE_REGISTER_GPR },
    { name := "cpsr", aliases := [], width := 4, mask := 0xF00000FF,
      type := .mCORE_REGISTER_FLAGS },
    { name := "spsr", aliases := [], width := 4, mask := 0xF00000FF,
      type := .mCORE_REGISTER_FLAGS },
    { name := "spsr_irq", aliases := [], width := 4, mask := 0xF00000FF,
      type := .mCORE_REGISTER_FLAGS },
    { name := "spsr_fiq", aliases := [], width := 4, mask := 0xF00000FF,
      type := .mCORE_REGISTER_FLAGS },
    { name := "spsr_svc", aliases := [], width := 4, mask := 0xF00000FF,
      type := .mCORE_REGISTER_FLAGS },
    { name := "spsr_abt", aliases := [], width := 4, mask := 0xF00000FF,
      type := .mCORE_REGISTER_FLAGS },
    { name := "spsr_und", aliases := [], width := 4, mask := 0xF00000FF,
      type := .mCORE_REGISTER_FLAGS } ]

/-- The function `_GBACoreListRegisters`: the table and its length. -/
def _GBACoreListRegisters {T : Types} (_core : GBACore T) : List mCoreRegisterInfo × Nat :=
  (_GBARegisters, _GBARegisters.length)

/-! ## An instance of the collaborators

A small instance on which the embedding can be evaluated: the hidden state is
trivial except for the timing root, which is the clock, and the remainder of
the facade, which counts the heap objects allocated so far; a handle of a
cheat device or of a log context is a number; a configuration is an
association list from keys to integers; a burst of the scheduler advances the
clock by 200000 cycles and leaves the frame counter alone. -/

/-- The types of the instance. -/
@[reducible] def simTypes : Types where
  CPU := Unit
  Board := Unit
  Facade := Nat
  VFile := Nat
  ELF := Unit
  Config := List (String × Int)
  Overrides := Unit
  Override := Nat
  Logger := Unit
  Buffer := Unit
  Video := Option RendererRef
  Timing := Nat
  Gpu := Unit
  Proxy := Option RendererRef
  Cheat := Nat
  LogContext := Nat

/-- One bit step of the reflected CRC-32 (polynomial `0xEDB88320`). -/
def crc32Bit (c : Nat) : Nat :=
  if c % 2 = 1 then (c / 2) ^^^ 0xEDB88320 else c / 2

/-- One byte step of CRC-32. -/
def crc32Byte (c b : Nat) : Nat :=
  crc32Bit (crc32Bit (crc32Bit (crc32Bit (crc32Bit (crc32Bit (crc32Bit (crc32Bit
    (c ^^^ b % 256))))))))

/-- The CRC-32 of a byte string (initial value and final complement
`0xFFFFFFFF`), the checksum `doCrc32` computes in the instance. -/
def crc32 (bytes : List Nat) : Nat :=
  bytes.foldl crc32Byte 0xFFFFFFFF ^^^ 0xFFFFFFFF

/-- The collaborators of the instance.  File 1 is a multiboot image, every
other file a plain ROM; no file is an ELF image; the file system is empty; a
manual override is the device mask it installs; associating a renderer and
creating the proxy record their arguments. -/
def simExt : GBAExt simTypes where
  USE_ELF := false
  ELFOpen := fun _ => none
  GBAVerifyELFEntry := fun _ => false
  GBALoadNull := fun gba => gba
  mCoreLoadELF := fun gba _ => (false, gba)
  GBAIsMB := fun vf => vf == 1
  GBALoadMB := fun gba vf => (true, { gba with mbVf := some vf })
  GBALoadROM := fun gba vf => (true, { gba with romVf := some vf })
  GBATestKeypadIRQ := fun gba => gba
  initAlloc := fun core => some (core.cpu, core.board, core.rest)
  mCoreConfigGetBoolValue := fun c key => (c.lookup key).map (fun v => v != 0)
  mCoreConfigGetIntValue := fun c key => c.lookup key
  mCoreConfigGetValue := fun _ _ => none
  mCoreConfigCopyValue := fun dst src key =>
    match src.lookup key with
    | some v => (key, v) :: dst
    | none => dst
  mCoreConfigGetOverridesConst := fun _ => ()
  uninitialized := 0
  GBAVideoAssociateRenderer := fun video r => { video with rest := some r }
  GBAVideoSoftwareRendererCreate := fun r => r
  GBAVideoGLRendererCreate := fun r => r
  GBAVideoGLRendererSetScale := fun r scale => { r with scale := scale }
  GBAVideoProxyRendererCreate := fun p r l => { p with logger := some l, rest := some r }
  GBAOverrideApply := fun gba o => { gba with devices := o }
  GBAOverrideApplyDefaults := fun gba _ => gba
  VFileOpen := fun _ => none
  GBAIsBIOS := fun _ => true
  GBALoadBIOS := fun gba vf => { gba with biosVf := some vf }
  mCoreConfigDirectory := "/config"
  ARMReset := fun s => s
  doCrc32 := crc32
  GBASkipBIOS := fun s => s
  mTimingInterrupt := fun s => s
  mTimingCurrentTime := fun t => t
  ARMRunLoop := fun s => (s.1, { s.2 with timing := s.2.timing + 200000 })

/-- The CPU collaborators of the instance: the Thumb flag is bit 5 of the
CPSR, and the two PC-write paths align the program counter as the mode
requires. -/
def simARM : ARMExt simTypes where
  ARM_SP := 13
  ARM_LR := 14
  ARM_PC := 15
  cpsr_t := fun cpsr => cpsr / 32 % 2 == 1
  _ARMReadCPSR := fun cpu => cpu
  ThumbWritePC := fun cpu =>
    { cpu with gprs := fun j => if j = 15 then cpu.gprs 15 / 2 * 2 else cpu.gprs j }
  ARMWritePC := fun cpu =>
    { cpu with gprs := fun j => if j = 15 then cpu.gprs 15 / 4 * 4 else cpu.gprs j }

/-- A C library with a 64-bit `unsigned long` that sets `errno` when no
conversion is performed. -/
def simCLib : CLib where
  ULONG_MAX := 18446744073709551615
  ULONG_MAX_ge := by decide
  noConvEINVAL := true

/-- A build with the GPU renderer, threading, the full core and the file
system. -/
def fullBuild : Build where
  BUILD_GLES3 := true
  DISABLE_THREADING := false
  MINIMAL_CORE := none
  ENABLE_VFS := true
  LIBRETRO := false

/-- A board of the instance: no ROM, no BIOS, no save media (type 0), keys
released, clock at 0, the regions allocated one after the other with the
save data at address 0x90000. -/
def simBoard : GBA simTypes where
  keysActive := 0
  romSize := 0
  savedataType := 0
  masterVolume := 0
  video := { frameskip := 0, frameCounter := 0, rest := none }
  allowOpposingDirections := false
  idleOptimization := 0
  idleLoop := 0xFFFFFFFF
  devices := 0
  vbaBugCompat := true
  biosVf := none
  mbVf := none
  romVf := none
  rom := none
  pristineRomSize := 0
  timing := 0
  regions := { bios := some 0x10000, wram := some 0x20000, iwram := some 0x60000,
               palette := some 0x68000, vram := some 0x70000, oam := some 0x88000,
               rom := 0x1000000, savedataData := some 0x90000,
               savedataCurrentBank := some 0x90000 }
  rest := ()

/-- A facade of the instance around `simBoard`: nothing installed, empty
configuration, empty block vector with the cache tag -2. -/
def simCore : GBACore simTypes where
  cpu := { gprs := fun _ => 0, cpsr := 0x1F, rest := () }
  board := simBoard
  opts := { mute := false, volume := 0, frameskip := 0, useBios := false,
            skipBios := false, bios := none }
  config := []
  videoLogger := none
  renderer := { outputBuffer := none, outputBufferStride := 0 }
  glRenderer := { outputTex := 4294967295, scale := 1, rest := () }
  proxyRenderer := { logger := none, flushScanline := -1, rest := none }
  overrides := none
  override := 0
  hasOverride := false
  memoryBlocks := []
  nMemoryBlocks := 0
  memoryBlockType := -2
  cheatDevice := none
  componentsCheatDevice := none
  logContext := none
  rest := 0

/-- A facade of the instance whose cache is stale: the SRAM catalog was
listed while the ROM had 0x1000 bytes, and the board's `romSize` is 0x2000
now. -/
def staleCore : GBACore simTypes :=
  let core1 := { simCore with board := { simBoard with romSize := 0x1000, savedataType := 1 } }
  let core2 := (_GBACoreListMemoryBlocks mgbaHeaders core1).1
  { core2 with board := { core2.board with romSize := 0x2000 } }

/-- One operation of a front-end on the facade, as far as the block cache is
concerned; the collaborators called by reset and by the loaders may change
the board's save-media type and ROM size. -/
inductive FacadeOp (T : Types) where
  | init
  | reset
  | loadROM (vf : T.VFile)
  | listMemoryBlocks
  | setSavedataType (t : Int)

/-- Running one operation. -/
def runOp {T : Types} (B : Build) (H : BoardHeaders) (K : Headers) (X : GBAExt T)
    (core : GBACore T) : FacadeOp T → GBACore T
  | .init => (_GBACoreInit B X core).2
  | .reset => _GBACoreReset B H X core
  | .loadROM vf => (_GBACoreLoadROM X core vf).2
  | .listMemoryBlocks => (_GBACoreListMemoryBlocks K core).1
  | .setSavedataType t => _setSavedataType core t

/-- The ROM0 block as the listing returns it on `staleCore` after a rebuild:
the template entry with the size 0x2000. -/
def rom0Listed : mCoreMemoryBlock :=
  { id := 0x8, internalName := "cart0", shortName := "ROM", longName := "Game Pak (32MiB)",
    start := 0x08000000, end_ := 0x0A000000, size := 0x2000, flags := 0x15 }

/-- The facade of the instance, with a ROM of 0x1000 bytes, after init,
reset and one listing. -/
def listedAfterReset : GBACore simTypes :=
  [FacadeOp.init, FacadeOp.reset, FacadeOp.listMemoryBlocks].foldl
    (runOp fullBuild mgbaBoardHeaders mgbaHeaders simExt)
    { simCore with board := { simBoard with romSize := 0x1000 } }

/-- The state a front-end reaches by a reset followed by a sequence of
operations. -/
def reachedFromReset {T : Types} (B : Build) (H : BoardHeaders) (K : Headers) (X : GBAExt T)
    (core0 : GBACore T) (ops : List (FacadeOp T)) : GBACore T :=
  ops.foldl (runOp B H K X) (_GBACoreReset B H X core0)

/-- The facade of the instance after one listing: the cached tag is 0, the
board's save-media type. -/
def listedCore : GBACore simTypes :=
  (_GBACoreListMemoryBlocks mgbaHeaders simCore).1

/-- A facade of the instance that is muted while the board still plays at
volume 0x100: the relation between mute, volume and master volume does not
hold in it. -/
def mutedCore : GBACore simTypes :=
  { simCore with
    opts := { simCore.opts with mute := true, volume := 0x100 },
    board := { simBoard with masterVolume := 0x100 } }

/-- The relation between the options and the audio unit: the master volume
is 0 when `opts.mute` is set and `opts.volume` otherwise. -/
def MuteVolumeRelation {T : Types} (core : GBACore T) : Prop :=
  core.board.masterVolume = if core.opts.mute then 0 else core.opts.volume

/-- The renderer the pipeline of the specification yields (section 4.1, steps
1, 2, 3 and 5): nothing at first; the software renderer if a buffer is
installed; the GPU renderer if a GPU target is installed and `hwaccelVideo`
is true (`gpu`); the proxy renderer if a renderer is set and a logger is
installed. -/
def pipelineRendererSpec (buffer gpu logger : Bool) : Option RendererRef :=
  let r1 : Option RendererRef := none
  let r2 := if buffer then some .renderer else r1
  let r3 := if gpu then some .glRenderer else r2
  if r3.isSome && logger then some .proxyRenderer else r3

/-- The test of the `BUILD_GLES3` block: a GPU target is installed and
`hwaccelVideo` is true in the facade's own configuration. -/
def gpuUsable {T : Types} (X : GBAExt T) (core : GBACore T) : Bool :=
  core.glRenderer.outputTex != 4294967295 &&
    X.mCoreConfigGetBoolValue core.config "hwaccelVideo" == some true

/-- A facade of the instance with a buffer and the GPU target 7 installed,
and a configuration that enables the GPU renderer at scale 3 and the
threaded proxy with a flush every 4 scanlines. -/
def gpuCore : GBACore simTypes :=
  { simCore with
    renderer := { outputBuffer := some (), outputBufferStride := 240 },
    glRenderer := { outputTex := 7, scale := 1, rest := () },
    config := [("hwaccelVideo", 1), ("videoScale", 3), ("threadedVideo", 1),
      ("threadedVideo.flushScanline", 4)] }

/-- A facade of the instance with `threadedVideo` enabled and neither a
buffer nor a GPU target installed. -/
def threadedCore : GBACore simTypes :=
  { simCore with config := [("threadedVideo", 1)] }

/-- The facade of the instance after a buffer was installed and reset ran:
the software renderer is associated. -/
def softwareCore : GBACore simTypes :=
  _GBACoreReset fullBuild mgbaBoardHeaders simExt (_GBACoreSetVideoBuffer simCore (some ()) 240)

/-- The facade with the device mask `memory.hw.devices` replaced by `d`. -/
def withDevices {T : Types} (core : GBACore T) (d : Nat) : GBACore T :=
  { core with board := { core.board with devices := d } }

/-- A facade of the instance with `gba.forceGbp` true and a manual override
that installs the empty device mask. -/
def gbpCore : GBACore simTypes :=
  { simCore with config := [("gba.forceGbp", 1)], hasOverride := true, override := 0 }

/-- The test `gba->romVf || gba->memory.rom`: a ROM is present. -/
def romPresent {T : Types} (gba : GBA T) : Bool :=
  gba.romVf.isSome || gba.rom.isSome

/-- The skip decision in the words of the specification: a multiboot image
is loaded, or `skipBios` is set and a ROM is present, or a ROM of at least
0xA0 bytes is present together with a loaded BIOS and the logo checksum
differs from `LOGO_CRC32`. -/
def biosSkipSpec {T : Types} (H : BoardHeaders) (X : GBAExt T) (opts : mCoreOptions)
    (gba : GBA T) : Bool :=
  gba.mbVf.isSome || (opts.skipBios && romPresent gba) ||
    (romPresent gba && decide (0xA0 ≤ gba.pristineRomSize) && gba.biosVf.isSome &&
      X.doCrc32 (logoBytes H gba) % 4294967296 != LOGO_CRC32)

/-- A ROM image of 0xA0 bytes, all zero except the last four, which are
chosen so that the CRC-32 of the bytes at offsets 4 up to 0xA0 is
`LOGO_CRC32`. -/
def forgedRom : List Nat :=
  List.replicate 156 0 ++ [209, 132, 88, 120]

/-- The image `forgedRom` with the byte at offset 4 changed to 1. -/
def flippedRom : List Nat :=
  List.replicate 4 0 ++ 1 :: List.replicate 151 0 ++ [209, 132, 88, 120]

/-- A board of the instance with the given ROM image loaded from file 2 and
a BIOS loaded from file 3; no multiboot image. -/
def logoBoard (rom : List Nat) : GBA simTypes :=
  { simBoard with
    rom := some rom, romVf := some 2, biosVf := some 3, pristineRomSize := rom.length,
    romSize := rom.length }

/-- The cycles by which one burst `ARMRunLoop` started in `s` advances the
timing clock, in 32-bit arithmetic. -/
def burstAdvance {T : Types} (X : GBAExt T) (s : ARMCore T × GBA T) : Nat :=
  (X.mTimingCurrentTime (X.ARMRunLoop s).2.timing % 4294967296 + 4294967296 -
    X.mTimingCurrentTime s.2.timing % 4294967296) % 4294967296

/-- The CPU and board after `n` bursts of `ARMRunLoop`. -/
def runBursts {T : Types} (X : GBAExt T) (n : Nat) (s : ARMCore T × GBA T) :
    ARMCore T × GBA T :=
  X.ARMRunLoop^[n] s

/-! ## Looking up a memory block, looking up an identifier -/

/-- The function `_GBACoreGetMemoryBlock`: the pointer it returns (`none` for
null) and the value it stores through `sizeOut` (`none` when it stores
nothing).  `GBASavedataSize` is the function of that name of `savedata.c`,
applied to the board's save data.  The `switch` has the eleven `case` labels
listed in `Headers.region_nodup`; every other id, `GBA_REGION_IO` among them,
takes the `default` branch. -/
def _GBACoreGetMemoryBlock {T : Types} (K : Headers) (GBASavedataSize : GBA T → Nat)
    (core : GBACore T) (id : Int) : Option Nat × Option Nat :=
  let gba := core.board
  if id = K.GBA_REGION_BIOS then (gba.regions.bios, some K.GBA_SIZE_BIOS)
  else if id = K.GBA_REGION_EWRAM then (gba.regions.wram, some K.GBA_SIZE_EWRAM)
  else if id = K.GBA_REGION_IWRAM then (gba.regions.iwram, some K.GBA_SIZE_IWRAM)
  else if id = K.GBA_REGION_PALETTE_RAM then
    (gba.regions.palette, some K.GBA_SIZE_PALETTE_RAM)
  else if id = K.GBA_REGION_VRAM then (gba.regions.vram, some K.GBA_SIZE_VRAM)
  else if id = K.GBA_REGION_OAM then (gba.regions.oam, some K.GBA_SIZE_OAM)
  else if id = K.GBA_REGION_ROM0 ∨ id = K.GBA_REGION_ROM1 ∨ id = K.GBA_REGION_ROM2 then
    (gba.rom.map (fun _ => gba.regions.rom), some gba.romSize)
  else if id = K.GBA_REGION_SRAM ∧ gba.savedataType = K.GBA_SAVEDATA_FLASH1M then
    (gba.regions.savedataCurrentBank, some K.GBA_SIZE_FLASH1M)
  else if id = K.GBA_REGION_SRAM ∨ id = K.GBA_REGION_SRAM_MIRROR then
    (gba.regions.savedataData, some (GBASavedataSize gba))
  else (none, none)

/-- The constant `GBA_REG_MAX` of `io.h` and the table `GBAIORegisterNames`
of `io.c`; an entry of the table is `none` for a null pointer. -/
structure IOHeaders where
  GBA_REG_MAX : Nat
  GBAIORegisterNames : List (Option String)

/-- The test `reg && strcasecmp(reg, name) == 0` on the entry `k` of the
table.  An index beyond the table, which the C program must not read, counts
as a null entry. -/
def ioNameMatches (H : IOHeaders) (name : String) (k : Nat) : Bool :=
  match H.GBAIORegisterNames[k]? with
  | some (some reg) => strcasecmpEq reg name
  | _ => false

/-- The loop of `_GBACoreLookupIdentifier` from the counter value `i` on;
`n` bounds the number of tests of the loop condition that remain.  The result
is the value stored through `value` when the loop returns true. -/
def lookupLoop (K : Headers) (H : IOHeaders) (name : String) : Nat → Nat → Option Nat
  | 0, _ => none
  | n + 1, i =>
    if i < H.GBA_REG_MAX then
      if ioNameMatches H name (i >>> 1) then some (K.GBA_BASE_IO ||| i)
      else lookupLoop K H name n (i + 2)
    else none

/-- The function `_GBACoreLookupIdentifier` (built with `ENABLE_DEBUGGERS`):
the value stored through `value`, `none` when the function returns false, and
the value stored through `segment`.  The counter grows by 2 in every round,
so `GBA_REG_MAX + 1` tests of the loop condition are never all used. -/
def _GBACoreLookupIdentifier (K : Headers) (H : IOHeaders) (name : String) :
    Option Nat × Int :=
  (lookupLoop K H name (H.GBA_REG_MAX + 1) 0, -1)

/-- A short register-name table for evaluation: `DISPCNT`, a null entry,
`DISPSTAT`, `VCOUNT`; `GBA_REG_MAX` is 8. -/
def simIO : IOHeaders where
  GBA_REG_MAX := 8
  GBAIORegisterNames := [some "DISPCNT", none, some "DISPSTAT", some "VCOUNT"]

/-- The nominal size of the save media of a type: the size the catalog
template of the type gives its save block, 0 for a type without save block. -/
def nominalSavedataSize (K : Headers) (type : Int) : Nat :=
  if type = K.GBA_SAVEDATA_SRAM then K.GBA_SIZE_SRAM
  else if type = K.GBA_SAVEDATA_SRAM512 then K.GBA_SIZE_SRAM512
  else if type = K.GBA_SAVEDATA_FLASH512 then K.GBA_SIZE_FLASH512
  else if type = K.GBA_SAVEDATA_FLASH1M then K.GBA_SIZE_FLASH1M
  else if type = K.GBA_SAVEDATA_EEPROM then K.GBA_SIZE_EEPROM
  else if type = K.GBA_SAVEDATA_EEPROM512 then K.GBA_SIZE_EEPROM512
  else 0

/-- A board of the instance with Flash-1M save media whose second bank is
selected: `currentBank` points 0x10000 bytes behind `data`. -/
def flashBank1Board : GBA simTypes :=
  { simBoard with
    savedataType := mgbaHeaders.GBA_SAVEDATA_FLASH1M,
    regions := { simBoard.regions with savedataCurrentBank := some 0xA0000 } }

/-- The board's memory is allocated: none of the pointers that
`_GBACoreGetMemoryBlock` returns is null. -/
def regionsAllocated {T : Types} (gba : GBA T) : Prop :=
  gba.regions.bios.isSome ∧ gba.regions.wram.isSome ∧ gba.regions.iwram.isSome ∧
  gba.regions.palette.isSome ∧ gba.regions.vram.isSome ∧ gba.regions.oam.isSome ∧
  gba.rom.isSome ∧ gba.regions.savedataData.isSome ∧ gba.regions.savedataCurrentBank.isSome

/-- A facade of the instance whose board has a ROM of four bytes; every
region of the board is allocated. -/
def allocatedCore : GBACore simTypes :=
  { simCore with board := { simBoard with rom := some [0, 0, 0, 0], romSize := 4 } }

/-! ## The cheat device, the video-log player -/

/-- The collaborators of the cheat-device hot-plug.  `GBACheatDeviceCreate`
allocates a device and `mCheatDeviceDestroy` frees one; both act on the heap,
which is part of the facade's remainder.  `ARMHotplugAttach` and
`ARMHotplugDetach` act on the CPU and are given the content of the slot they
are called for.  `GBAUnloadROM` acts on the board. -/
structure CheatExt (T : Types) where
  GBACheatDeviceCreate : T.Facade → T.Cheat × T.Facade
  ARMHotplugAttach : ARMCore T → Option T.Cheat → ARMCore T
  ARMHotplugDetach : ARMCore T → Option T.Cheat → ARMCore T
  mCheatDeviceDestroy : T.Facade → T.Cheat → T.Facade
  GBAUnloadROM : GBA T → GBA T

/-- The function `_GBACoreCheatDevice`: the pointer it returns and the facade
after the call.  The store `gbacore->cheatDevice->p = core` goes into the
device, which is not modelled. -/
def _GBACoreCheatDevice {T : Types} (C : CheatExt T) (core : GBACore T) :
    Option T.Cheat × GBACore T :=
  match core.cheatDevice with
  | some d => (some d, core)
  | none =>
    let created := C.GBACheatDeviceCreate core.rest
    let core1 := { core with cheatDevice := some created.1, rest := created.2 }
    let core2 := { core1 with componentsCheatDevice := core1.cheatDevice }
    let core3 := { core2 with cpu := C.ARMHotplugAttach core2.cpu core2.componentsCheatDevice }
    (core3.cheatDevice, core3)

/-- The function `_GBACoreUnloadROM`. -/
def _GBACoreUnloadROM {T : Types} (C : CheatExt T) (core : GBACore T) : GBACore T :=
  let core1 :=
    match core.cheatDevice with
    | some d =>
      let cpu1 := C.ARMHotplugDetach core.cpu core.componentsCheatDevice
      { core with
        cpu := cpu1, componentsCheatDevice := none,
        rest := C.mCheatDeviceDestroy core.rest d, cheatDevice := none }
    | none => core
  { core1 with board := C.GBAUnloadROM core1.board }

/-- The two operations of the cheat-device hot-plug. -/
inductive CheatOp where
  | cheatDevice
  | unloadROM
deriving DecidableEq, Repr

/-- Running one operation of the hot-plug. -/
def runCheatOp {T : Types} (C : CheatExt T) (core : GBACore T) : CheatOp → GBACore T
  | .cheatDevice => (_GBACoreCheatDevice C core).2
  | .unloadROM => _GBACoreUnloadROM C core

/-- The facade reached from the shell by `_GBACoreInit` and then a sequence
of `cheatDevice` and `unloadROM` calls. -/
def cheatReached {T : Types} (B : Build) (X : GBAExt T) (C : CheatExt T)
    (shell : GBACore T) (ops : List CheatOp) : GBACore T :=
  ops.foldl (runCheatOp C) (_GBACoreInit B X shell).2

/-- The hot-plug collaborators of the instance: a created device is numbered
by the count of objects allocated before it; the hot-plug signals leave the
CPU alone; unloading drops the ROM. -/
def simCheat : CheatExt simTypes where
  GBACheatDeviceCreate := fun heap => (heap, heap + 1)
  ARMHotplugAttach := fun cpu _ => cpu
  ARMHotplugDetach := fun cpu _ => cpu
  mCheatDeviceDestroy := fun heap _ => heap
  GBAUnloadROM := fun gba => { gba with rom := none, romVf := none, romSize := 0 }

/-- The collaborators of the video-log player's `loadROM`.
`mVideoLogContextCreate` allocates a context, `mVideoLogContextLoad` fills it
from a file and `mVideoLoggerAttachChannel` ties it to the logger of
`vlProxy`; all three act on heap objects, which are part of the facade's
remainder.  `mVideoLogContextDestroy` is given the facade, the context and
the flag `closeVf`. -/
structure VLPExt (T : Types) where
  mVideoLogContextCreate : T.Facade → T.LogContext × T.Facade
  mVideoLogContextLoad : T.Facade → T.LogContext → T.VFile → Bool × T.Facade
  mVideoLogContextDestroy : GBACore T → T.LogContext → Bool → GBACore T
  mVideoLoggerAttachChannel : T.Facade → T.LogContext → T.Facade

/-- The function `_GBAVLPLoadROM` (built without `MINIMAL_CORE`). -/
def _GBAVLPLoadROM {T : Types} (V : VLPExt T) (core : GBACore T) (vf : T.VFile) :
    Bool × GBACore T :=
  let created := V.mVideoLogContextCreate core.rest
  let core1 := { core with logContext := some created.1, rest := created.2 }
  let loaded := V.mVideoLogContextLoad core1.rest created.1 vf
  let core2 := { core1 with rest := loaded.2 }
  if !loaded.1 then
    let core3 := V.mVideoLogContextDestroy core2 created.1 false
    (false, { core3 with logContext := none })
  else
    (true, { core2 with rest := V.mVideoLoggerAttachChannel core2.rest created.1 })

/-- The video-log collaborators of the instance: a created context is
numbered by the count of objects allocated before it; file 5 is a video log
and no other file is; destroying and attaching change nothing that is
modelled. -/
def simVLP : VLPExt simTypes where
  mVideoLogContextCreate := fun heap => (heap, heap + 1)
  mVideoLogContextLoad := fun heap _ vf => (vf == 5, heap)
  mVideoLogContextDestroy := fun core _ _ => core
  mVideoLoggerAttachChannel := fun heap _ => heap

/-- The facade of the instance after the video log in file 5 was loaded:
its log context is the context 0. -/
def logLoadedCore : GBACore simTypes :=
  (_GBAVLPLoadROM simVLP simCore 5).2

/-! ## Extra state -/

/-- An entry of the extra-data container (`struct mStateExtdataItem`): the
`int32_t` field `size` and the bytes `data` points to (`none` for null).  The
field `clean` is not modelled. -/
structure mStateExtdataItem where
  size : Int
  data : Option (List Nat)
deriving DecidableEq, Repr

/-- The macro `LOAD_32` at offset 0: the little-endian 32-bit value of the
first four bytes; a byte that is missing counts as 0. -/
def LOAD_32 (bytes : List Nat) : Nat :=
  bytes.getD 0 0 % 256 + 256 * (bytes.getD 1 0 % 256) + 65536 * (bytes.getD 2 0 % 256) +
    16777216 * (bytes.getD 3 0 % 256)

/-- The conversion of a signed value to `uint32_t`. -/
def toUInt32 (x : Int) : Nat := (x % 4294967296).toNat

/-- The conversion of a signed value to `size_t`. -/
def toSizeT (SIZE_MAX : Nat) (x : Int) : Nat := (x % ((SIZE_MAX : Int) + 1)).toNat

/-- The function pointers of a link-cable driver (`struct GBASIODriver`) that
`core.c` calls, each `none` when null.  `saveState` yields the values it
leaves in `buffer` and `size`, which are null and 0 before the call. -/
structure GBASIODriver (T : Types) where
  driverId : Option (GBACore T → Nat)
  loadState : Option (GBACore T → List Nat → Nat → Bool × GBACore T)
  saveState : Option (GBACore T → (Option (List Nat) × Nat) × GBACore T)

/-- The collaborators of the extra-state functions, for a container type `E`
(`struct mStateExtdata`): the constant `SIZE_MAX`, the tag constants, the
accessors of the container, the methods `rendererId`, `loadState` and
`saveState` of the renderer `gba->video.renderer` (a `uint32_t` id; a method
is given the bytes behind the pointer it receives), and the driver
`gba->sio.driver` (`none` for null).  The methods reach the renderer and the
driver, which live in the facade and behind it. -/
structure ExtdataExt (T : Types) (E : Type) where
  SIZE_MAX : Nat
  EXTDATA_SUBSYSTEM_START : Nat
  GBA_SUBSYSTEM_VIDEO_RENDERER : Nat
  GBA_SUBSYSTEM_SIO_DRIVER : Nat
  mStateExtdataGet : E → Nat → Option mStateExtdataItem
  mStateExtdataPut : E → Nat → mStateExtdataItem → E
  rendererId : GBACore T → Nat
  rendererLoadState : GBACore T → List Nat → Nat → Bool × GBACore T
  rendererSaveState : GBACore T → (Option (List Nat) × Nat) × GBACore T
  sioDriver : GBACore T → Option (GBASIODriver T)

/-- The block that `_GBACoreLoadExtraState` runs on an item it got from the
container, for the subsystem with the given id and `loadState` methods; `s`
is the flag `ok` and the facade before the block.  A blob longer than four
bytes whose tag equals the id is handed to `loadState` from its fifth byte
on, with the length `item.size - sizeof(type)` as a `size_t`; a blob of at
most four bytes with non-null data clears `ok`.  A null `data` with a size
above four, which the C code would dereference, is read as zero bytes. -/
def loadSubsystemBlob {T : Types} (SIZE_MAX : Nat) (id : GBACore T → Nat)
    (loadState : GBACore T → List Nat → Nat → Bool × GBACore T) (item : mStateExtdataItem)
    (s : Bool × GBACore T) : Bool × GBACore T :=
  if toUInt32 item.size > 4 then
    let type := LOAD_32 (item.data.getD [])
    if type = id s.2 % 4294967296 then
      let r := loadState s.2 ((item.data.getD []).drop 4) (toSizeT SIZE_MAX (item.size - 4))
      (r.1 && s.1, r.2)
    else s
  else if item.data.isSome then (false, s.2)
  else s

/-- The first block of `_GBACoreLoadExtraState`: the video renderer. -/
def loadRendererExtra {T : Types} {E : Type} (X : ExtdataExt T E) (extdata : E)
    (s : Bool × GBACore T) : Bool × GBACore T :=
  match X.mStateExtdataGet extdata (X.EXTDATA_SUBSYSTEM_START + X.GBA_SUBSYSTEM_VIDEO_RENDERER)
  with
  | some item => loadSubsystemBlob X.SIZE_MAX X.rendererId X.rendererLoadState item s
  | none => s

/-- The second block of `_GBACoreLoadExtraState`: the link-cable driver, when
there is one with `driverId` and `loadState`. -/
def loadSioExtra {T : Types} {E : Type} (X : ExtdataExt T E) (extdata : E)
    (s : Bool × GBACore T) : Bool × GBACore T :=
  match X.sioDriver s.2 with
  | some driver =>
    match driver.driverId, driver.loadState with
    | some driverId, some loadState =>
      match X.mStateExtdataGet extdata (X.EXTDATA_SUBSYSTEM_START + X.GBA_SUBSYSTEM_SIO_DRIVER)
      with
      | some item => loadSubsystemBlob X.SIZE_MAX driverId loadState item s
      | none => s
    | _, _ => s
  | none => s

/-- The function `_GBACoreLoadExtraState`: the value it returns and the
facade after the call. -/
def _GBACoreLoadExtraState {T : Types} {E : Type} (X : ExtdataExt T E) (core : GBACore T)
    (extdata : E) : Bool × GBACore T :=
  loadSioExtra X extdata (loadRendererExtra X extdata (true, core))

/-- The bytes a subsystem is handed from a blob: those behind the tag. -/
def blobPayload (item : mStateExtdataItem) : List Nat :=
  (item.data.getD []).drop 4

/-- The length a subsystem is handed with a blob: `item.size - sizeof(type)`
as a `size_t`. -/
def blobLength (SIZE_MAX : Nat) (item : mStateExtdataItem) : Nat :=
  toSizeT SIZE_MAX (item.size - 4)

/-- A blob is handed to the subsystem with the given id: it is longer than
four bytes and its leading little-endian 32-bit tag equals the id. -/
def blobHanded (id : Nat) (item : mStateExtdataItem) : Prop :=
  toUInt32 item.size > 4 ∧ LOAD_32 (item.data.getD []) = id % 4294967296

/-- A blob is present with non-null data but is at most four bytes long. -/
def blobShort (item : mStateExtdataItem) : Prop :=
  toUInt32 item.size ≤ 4 ∧ item.data.isSome = true

/-- The ROM size the last rebuild of the block vector saw, carried along one
operation: a listing call that finds the cached tag different from the
board's save-media type rebuilds the vector with the board's `romSize` of
that moment; every other operation leaves the vector's ROM sizes alone. -/
def rebuildRomSize {T : Types} (core : GBACore T) (r : Nat) : FacadeOp T → Nat
  | .listMemoryBlocks =>
    if core.memoryBlockType ≠ core.board.savedataType then core.board.romSize else r
  | _ => r

/-- One operation on the facade together with the ROM size of the last
rebuild. -/
def runOpTracked {T : Types} (B : Build) (H : BoardHeaders) (K : Headers) (X : GBAExt T)
    (s : GBACore T × Nat) (op : FacadeOp T) : GBACore T × Nat :=
  (runOp B H K X s.1 op, rebuildRomSize s.1 s.2 op)

/-- The ROM size that the last rebuild saw in the run that starts with a
reset and continues with the given operations (0 when no listing call has
rebuilt the vector since the reset). -/
def lastRebuildRomSize {T : Types} (B : Build) (H : BoardHeaders) (K : Headers) (X : GBAExt T)
    (core0 : GBACore T) (ops : List (FacadeOp T)) : Nat :=
  (ops.foldl (runOpTracked B H K X) (_GBACoreReset B H X core0, 0)).2

/-- A shell as `malloc` may hand it to init: its cache fields, which init
does not store into, hold the tag -1 and the count 0; the board init creates
for it on the instance has the save-media type -1 (`GBA_SAVEDATA_AUTODETECT`). -/
def shellCore : GBACore simTypes :=
  { simCore with memoryBlockType := -1, board := { simBoard with savedataType := -1 } }

/-- A facade of the instance in Thumb state: the CPSR is 0x3F. -/
def thumbCore : GBACore simTypes :=
  { simCore with cpu := { simCore.cpu with cpsr := 0x3F } }

/-- The logger that is installed when reset reaches the proxy wrap: the
thread-proxy logger when the build has threading, `threadedVideo` is true and
no logger was installed, the logger installed before otherwise. -/
def loggerAtWrap {T : Types} (B : Build) (X : GBAExt T) (core : GBACore T) :
    Option (LoggerRef T) :=
  if !B.DISABLE_THREADING && X.mCoreConfigGetBoolValue core.config "threadedVideo" == some true
      && core.videoLogger.isNone then some .threadProxy
  else core.videoLogger

/-- The GPU renderer after the renderer part of reset: in a build with the
GPU renderer its scale is the configured `videoScale` when the GPU renderer is
chosen and 1 otherwise. -/
def glRendererAfterReset {T : Types} (B : Build) (X : GBAExt T) (core : GBACore T) :
    GBAVideoGLRenderer T :=
  if B.BUILD_GLES3 then
    { core.glRenderer with
      scale :=
        if gpuUsable X core then
          (X.mCoreConfigGetIntValue core.config "videoScale").getD core.glRenderer.scale
        else 1 }
  else core.glRenderer

/-- A build like `fullBuild` but with `MINIMAL_CORE` defined. -/
def minimalBuild : Build :=
  { fullBuild with MINIMAL_CORE := some 1 }

/-- A facade of the instance with a buffer and a logger supplied from outside
installed. -/
def bufferLoggerCore : GBACore simTypes :=
  { simCore with
    renderer := { outputBuffer := some (), outputBufferStride := 240 },
    videoLogger := some (.other ()) }

/-- A facade of the instance with `threadedVideo` enabled, a logger supplied
from outside installed, and neither a buffer nor a GPU target installed. -/
def loggedCore : GBACore simTypes :=
  { threadedCore with videoLogger := some (.other ()) }

/-- A facade of the instance with `gba.forceGbp` true, the device mask 0x05
and a manual override that installs the device mask 0x03. -/
def gbpManualCore : GBACore simTypes :=
  { simCore with
    config := [("gba.forceGbp", 1)], hasOverride := true, override := 3,
    board := { simBoard with devices := 0x05 } }

/-- A facade of the instance without `gba.forceGbp` and without manual
override whose device mask 0x45 has the GB-Player bit set. -/
def gbpBitCore : GBACore simTypes :=
  { simCore with board := { simBoard with devices := 0x45 } }

/-- The collaborators of the instance with a BIOS skip that can be seen: it
puts the program counter at the ROM entry 0x08000000. -/
def skipExt : GBAExt simTypes :=
  { simExt with
    GBASkipBIOS := fun s =>
      ({ s.1 with gprs := fun j => if j = 15 then 0x08000000 else s.1.gprs j }, s.2) }

/-- The facade of the instance around a board with the given ROM image and a
BIOS loaded. -/
def logoCore (rom : List Nat) : GBACore simTypes :=
  { simCore with board := logoBoard rom }

theorem memcpyBlocks_take (dst src : List mCoreMemoryBlock) :
    (memcpyBlocks dst src).take src.length = src := by
  simp [memcpyBlocks]

/-- What a listing call that rebuilds the vector returns and leaves. -/
theorem listMemoryBlocks_rebuild {T : Types} (K : Headers) (core : GBACore T)
    (h : core.memoryBlockType ≠ core.board.savedataType) :
    listedBlocks (_GBACoreListMemoryBlocks K core) =
        (memoryBlockTemplate K core.board.savedataType).map
          (patchROMSize K core.board.romSize) ∧
      (_GBACoreListMemoryBlocks K core).2.2 =
        (memoryBlockTemplate K core.board.savedataType).length ∧
      (_GBACoreListMemoryBlocks K core).1.memoryBlockType = core.board.savedataType ∧
      (_GBACoreListMemoryBlocks K core).1.board = core.board ∧
      (_GBACoreListMemoryBlocks K core).1.nMemoryBlocks =
        (_GBACoreListMemoryBlocks K core).2.2 ∧
      (_GBACoreListMemoryBlocks K core).1.memoryBlocks =
        (_GBACoreListMemoryBlocks K core).2.1 := by
  simp only [_GBACoreListMemoryBlocks, listedBlocks, if_pos h, memcpyBlocks_take]
  refine ⟨?_, trivial, trivial, trivial, trivial, trivial⟩
  rw [List.take_left']
  simp

/-- A listing call that finds the tag equal to the type changes nothing. -/
theorem listMemoryBlocks_cached {T : Types} (K : Headers) (core : GBACore T)
    (h : core.memoryBlockType = core.board.savedataType) :
    _GBACoreListMemoryBlocks K core = (core, core.memoryBlocks, core.nMemoryBlocks) := by
  simp [_GBACoreListMemoryBlocks, h]

theorem patchROMSize_size (K : Headers) (r : Nat) (b : mCoreMemoryBlock)
    (h : isROMRegion K (patchROMSize K r b).id = true) : (patchROMSize K r b).size = r := by
  unfold patchROMSize at *
  by_cases hb : isROMRegion K b.id = true
  · simp [hb]
  · simp [hb] at h

/-- C1, as stated, fails: on the stale facade, whose cached tag already equals
the save-media type SRAM, the listing returns the cached vector, and a ROM
block in it has the size 0x1000 of the earlier listing and not the board's
current `romSize` 0x2000. -/
theorem listMemoryBlocks_romSize_stale :
    ∃ b ∈ listedBlocks (_GBACoreListMemoryBlocks mgbaHeaders (_setSavedataType staleCore 1)),
      isROMRegion mgbaHeaders b.id = true ∧
        b.size ≠ (_setSavedataType staleCore 1).board.romSize := by
  decide

/-- C1, amended: for every facade state whose cached tag differs from the
save-media tag `t`, after the board's type is set to `t` and the blocks are
listed, every returned block whose id is a ROM region has the board's current
`romSize` as its size. -/
theorem listMemoryBlocks_romSize_on_rebuild {T : Types} (K : Headers) (core : GBACore T)
    (t : Int) (h : core.memoryBlockType ≠ t) (b : mCoreMemoryBlock)
    (hb : b ∈ listedBlocks (_GBACoreListMemoryBlocks K (_setSavedataType core t)))
    (hrom : isROMRegion K b.id = true) : b.size = core.board.romSize := by
  have h' : (_setSavedataType core t).memoryBlockType ≠
      (_setSavedataType core t).board.savedataType := h
  rw [(listMemoryBlocks_rebuild K _ h').1] at hb
  obtain ⟨b0, _, rfl⟩ := List.mem_map.1 hb
  exact patchROMSize_size K _ b0 hrom

/-- Witness of `listMemoryBlocks_romSize_on_rebuild`: the stale facade, whose
tag is SRAM, listed after the type is set to FLASH1M. -/
theorem listMemoryBlocks_romSize_on_rebuild_witness :
    staleCore.memoryBlockType ≠ 3 ∧
      rom0Listed ∈ listedBlocks
        (_GBACoreListMemoryBlocks mgbaHeaders (_setSavedataType staleCore 3)) ∧
      isROMRegion mgbaHeaders rom0Listed.id = true ∧
      rom0Listed.size = staleCore.board.romSize :=
  ⟨by decide, by decide, by decide,
    listMemoryBlocks_romSize_on_rebuild mgbaHeaders staleCore 3 (by decide) rom0Listed
      (by decide) (by decide)⟩

theorem template_length (K : Headers) (t : Int) :
    (memoryBlockTemplate K t).length =
      if t ∈ [K.GBA_SAVEDATA_SRAM, K.GBA_SAVEDATA_SRAM512, K.GBA_SAVEDATA_FLASH512,
        K.GBA_SAVEDATA_FLASH1M, K.GBA_SAVEDATA_EEPROM, K.GBA_SAVEDATA_EEPROM512]
      then 12 else 11 := by
  unfold memoryBlockTemplate
  split_ifs <;> simp_all [_GBAMemoryBlocksSRAM, _GBAMemoryBlocksSRAM512,
    _GBAMemoryBlocksFlash512, _GBAMemoryBlocksFlash1M, _GBAMemoryBlocksEEPROM,
    _GBAMemoryBlocksEEPROM512, _GBAMemoryBlocks]

theorem template_flash1M (K : Headers) :
    memoryBlockTemplate K K.GBA_SAVEDATA_FLASH1M = _GBAMemoryBlocksFlash1M K := by
  have h := K.savedata_nodup
  simp only [List.nodup_cons, List.mem_cons, List.mem_singleton, not_or] at h
  unfold memoryBlockTemplate
  have h1 : K.GBA_SAVEDATA_FLASH1M ≠ K.GBA_SAVEDATA_SRAM := fun e => h.1.2.2.1 e.symm
  have h2 : K.GBA_SAVEDATA_FLASH1M ≠ K.GBA_SAVEDATA_SRAM512 := fun e => h.2.1.2.1 e.symm
  have h3 : K.GBA_SAVEDATA_FLASH1M ≠ K.GBA_SAVEDATA_FLASH512 := fun e => h.2.2.1.1 e.symm
  simp [h1, h2, h3]

theorem sram_not_rom (K : Headers) : isROMRegion K K.GBA_REGION_SRAM = false := by
  have h := K.region_nodup
  simp only [List.nodup_cons, List.mem_cons, List.mem_singleton, not_or] at h
  have h1 : K.GBA_REGION_SRAM ≠ K.GBA_REGION_ROM0 := fun e => h.2.2.2.2.2.2.1.2.2.1 e.symm
  have h2 : K.GBA_REGION_SRAM ≠ K.GBA_REGION_ROM1 := fun e => h.2.2.2.2.2.2.2.1.2.1 e.symm
  have h3 : K.GBA_REGION_SRAM ≠ K.GBA_REGION_ROM2 := fun e => h.2.2.2.2.2.2.2.2.1.1 e.symm
  simp [isROMRegion, h1, h2, h3]

/-- C2: when `_GBACoreListMemoryBlocks` rebuilds the vector (the cached tag
differs from the board's save-media type), it returns 11 blocks when the type
is none of the six save-media types and 12 blocks for each of the six; for
FLASH1M the twelfth block has id `GBA_REGION_SRAM`, internal name "sram",
size `GBA_SIZE_FLASH1M` and flags `mCORE_MEMORY_RW | mCORE_MEMORY_MAPPED`. -/
theorem listMemoryBlocks_count_by_type {T : Types} (K : Headers) (core : GBACore T)
    (h : core.memoryBlockType ≠ core.board.savedataType) :
    (core.board.savedataType ∉ [K.GBA_SAVEDATA_SRAM, K.GBA_SAVEDATA_SRAM512,
        K.GBA_SAVEDATA_FLASH512, K.GBA_SAVEDATA_FLASH1M, K.GBA_SAVEDATA_EEPROM,
        K.GBA_SAVEDATA_EEPROM512] →
      (_GBACoreListMemoryBlocks K core).2.2 = 11 ∧
        (listedBlocks (_GBACoreListMemoryBlocks K core)).length = 11) ∧
    (core.board.savedataType ∈ [K.GBA_SAVEDATA_SRAM, K.GBA_SAVEDATA_SRAM512,
        K.GBA_SAVEDATA_FLASH512, K.GBA_SAVEDATA_FLASH1M, K.GBA_SAVEDATA_EEPROM,
        K.GBA_SAVEDATA_EEPROM512] →
      (_GBACoreListMemoryBlocks K core).2.2 = 12 ∧
        (listedBlocks (_GBACoreListMemoryBlocks K core)).length = 12) ∧
    (core.board.savedataType = K.GBA_SAVEDATA_FLASH1M →
      ((listedBlocks (_GBACoreListMemoryBlocks K core))[11]?).map
          (fun b => (b.id, b.internalName, b.size, b.flags)) =
        some (K.GBA_REGION_SRAM, "sram", K.GBA_SIZE_FLASH1M,
          K.mCORE_MEMORY_RW ||| K.mCORE_MEMORY_MAPPED)) := by
  obtain ⟨h1, h2, -⟩ := listMemoryBlocks_rebuild K core h
  refine ⟨fun hm => ?_, fun hm => ?_, fun hf => ?_⟩
  · simp only [h1, h2, List.length_map, template_length, if_neg hm, and_self]
  · simp only [h1, h2, List.length_map, template_length, if_pos hm, and_self]
  · simp only [h1, hf, template_flash1M]
    simp [_GBAMemoryBlocksFlash1M, _GBAMemoryBlocks, patchROMSize, sram_not_rom]

/-- Witness of `listMemoryBlocks_count_by_type`: the stale facade with the
type set to FLASH1M; the listing has 12 blocks and the twelfth is the 128 KiB
Flash block. -/
theorem listMemoryBlocks_count_by_type_witness :
    (_setSavedataType staleCore 3).memoryBlockType ≠
        (_setSavedataType staleCore 3).board.savedataType ∧
      (_GBACoreListMemoryBlocks mgbaHeaders (_setSavedataType staleCore 3)).2.2 = 12 ∧
      ((listedBlocks
          (_GBACoreListMemoryBlocks mgbaHeaders (_setSavedataType staleCore 3)))[11]?).map
          (fun b => (b.id, b.internalName, b.size, b.flags)) =
        some (0xE, "sram", 0x20000, 0x13) :=
  ⟨by decide,
    ((listMemoryBlocks_count_by_type mgbaHeaders (_setSavedataType staleCore 3)
      (by decide)).2.1 (by decide)).1,
    (listMemoryBlocks_count_by_type mgbaHeaders (_setSavedataType staleCore 3)
      (by decide)).2.2 (by decide)⟩

theorem reset_memoryBlockType {T : Types} (B : Build) (H : BoardHeaders) (X : GBAExt T)
    (core : GBACore T) : (_GBACoreReset B H X core).memoryBlockType = -2 := by
  simp only [_GBACoreReset, resetPrefix, resetFinish, resetBIOS, resetOverrides]
  split_ifs <;> (try split) <;> rfl

theorem init_cache {T : Types} (B : Build) (X : GBAExt T) (core : GBACore T) :
    (_GBACoreInit B X core).2.memoryBlocks = core.memoryBlocks ∧
    (_GBACoreInit B X core).2.nMemoryBlocks = core.nMemoryBlocks ∧
    (_GBACoreInit B X core).2.memoryBlockType = core.memoryBlockType := by
  unfold _GBACoreInit
  split <;> exact ⟨rfl, rfl, rfl⟩

theorem loadROM_cache {T : Types} (X : GBAExt T) (core : GBACore T) (vf : T.VFile) :
    (_GBACoreLoadROM X core vf).2.memoryBlockType = -2 ∨
    ((_GBACoreLoadROM X core vf).2.memoryBlocks = core.memoryBlocks ∧
    (_GBACoreLoadROM X core vf).2.nMemoryBlocks = core.nMemoryBlocks ∧
    (_GBACoreLoadROM X core vf).2.memoryBlockType = core.memoryBlockType) := by
  unfold _GBACoreLoadROM
  split
  · exact Or.inr ⟨rfl, rfl, rfl⟩
  · split_ifs
    · exact Or.inr ⟨rfl, rfl, rfl⟩
    · exact Or.inl rfl

theorem list_tag {T : Types} (K : Headers) (core : GBACore T) :
    (_GBACoreListMemoryBlocks K core).1.memoryBlockType =
      (_GBACoreListMemoryBlocks K core).1.board.savedataType := by
  by_cases hc : core.memoryBlockType = core.board.savedataType
  · rw [listMemoryBlocks_cached K core hc]; exact hc
  · obtain ⟨-, -, h3, h4, -⟩ := listMemoryBlocks_rebuild K core hc
    rw [h3, h4]

/-- One operation keeps the cache valid for the ROM size of the last rebuild:
the tag is -2, or the vector is the template of the tag with the ROM blocks
patched to that size. -/
theorem cacheValidAt_step {T : Types} (B : Build) (H : BoardHeaders) (K : Headers)
    (X : GBAExt T) (s : GBACore T × Nat) (op : FacadeOp T)
    (h : s.1.memoryBlockType = -2 ∨
      (s.1.memoryBlocks.take s.1.nMemoryBlocks =
          (memoryBlockTemplate K s.1.memoryBlockType).map (patchROMSize K s.2) ∧
        s.1.nMemoryBlocks = (memoryBlockTemplate K s.1.memoryBlockType).length)) :
    (runOpTracked B H K X s op).1.memoryBlockType = -2 ∨
      ((runOpTracked B H K X s op).1.memoryBlocks.take
            (runOpTracked B H K X s op).1.nMemoryBlocks =
          (memoryBlockTemplate K (runOpTracked B H K X s op).1.memoryBlockType).map
            (patchROMSize K (runOpTracked B H K X s op).2) ∧
        (runOpTracked B H K X s op).1.nMemoryBlocks =
          (memoryBlockTemplate K (runOpTracked B H K X s op).1.memoryBlockType).length) := by
  cases op with
  | init =>
    obtain ⟨h1, h2, h3⟩ := init_cache B X s.1
    simp only [runOpTracked, runOp, rebuildRomSize, h1, h2, h3]
    exact h
  | reset => exact Or.inl (reset_memoryBlockType B H X s.1)
  | loadROM vf =>
    rcases loadROM_cache X s.1 vf with h0 | ⟨h1, h2, h3⟩
    · exact Or.inl h0
    · simp only [runOpTracked, runOp, rebuildRomSize, h1, h2, h3]
      exact h
  | listMemoryBlocks =>
    simp only [runOpTracked, runOp, rebuildRomSize]
    by_cases hc : s.1.memoryBlockType = s.1.board.savedataType
    · rw [listMemoryBlocks_cached K s.1 hc]
      simp only [hc, ne_eq, not_true_eq_false, if_false]
      rw [← hc]
      exact h
    · obtain ⟨h1, h2, h3, -, h5, h6⟩ := listMemoryBlocks_rebuild K s.1 hc
      simp only [ne_eq, hc, not_false_eq_true, if_true]
      refine Or.inr ⟨?_, ?_⟩
      · rw [h6, h5, h3]; exact h1
      · rw [h5, h3]; exact h2
  | setSavedataType t => exact h

/-- Tracking the ROM size of the last rebuild does not change the run. -/
theorem runOpTracked_fst {T : Types} (B : Build) (H : BoardHeaders) (K : Headers)
    (X : GBAExt T) (ops : List (FacadeOp T)) (s : GBACore T × Nat) :
    (ops.foldl (runOpTracked B H K X) s).1 = ops.foldl (runOp B H K X) s.1 := by
  induction ops generalizing s with
  | nil => rfl
  | cons op ops ih => simp only [List.foldl_cons]; rw [ih]; rfl

/-- A run of operations keeps the cache valid for the ROM size of the last
rebuild. -/
theorem cacheValidAt_foldl {T : Types} (B : Build) (H : BoardHeaders) (K : Headers)
    (X : GBAExt T) (ops : List (FacadeOp T)) (s : GBACore T × Nat)
    (h : s.1.memoryBlockType = -2 ∨
      (s.1.memoryBlocks.take s.1.nMemoryBlocks =
          (memoryBlockTemplate K s.1.memoryBlockType).map (patchROMSize K s.2) ∧
        s.1.nMemoryBlocks = (memoryBlockTemplate K s.1.memoryBlockType).length)) :
    (ops.foldl (runOpTracked B H K X) s).1.memoryBlockType = -2 ∨
      ((ops.foldl (runOpTracked B H K X) s).1.memoryBlocks.take
            (ops.foldl (runOpTracked B H K X) s).1.nMemoryBlocks =
          (memoryBlockTemplate K (ops.foldl (runOpTracked B H K X) s).1.memoryBlockType).map
            (patchROMSize K (ops.foldl (runOpTracked B H K X) s).2) ∧
        (ops.foldl (runOpTracked B H K X) s).1.nMemoryBlocks =
          (memoryBlockTemplate K
            (ops.foldl (runOpTracked B H K X) s).1.memoryBlockType).length) := by
  induction ops generalizing s with
  | nil => exact h
  | cons op ops ih => exact ih _ (cacheValidAt_step B H K X s op h)

/-- C3, as stated, fails, in two ways.  After init, reset and one listing on
a board with a ROM of 0x1000 bytes the cached tag equals the board's
save-media type, and the owned vector is not the catalog template of that
type: the ROM blocks carry the size 0x1000.  And init does not initialise
the cache fields: from a shell that holds the tag -1 and the count 0, with a
new board of type -1, init and one listing leave the tag equal to the type
and 0 blocks, not the 11 of the template, since the listing finds the tag
equal and rebuilds nothing. -/
theorem cache_is_not_template_after_listing :
    (listedAfterReset.memoryBlockType = listedAfterReset.board.savedataType ∧
      listedAfterReset.memoryBlocks.take listedAfterReset.nMemoryBlocks ≠
        memoryBlockTemplate mgbaHeaders listedAfterReset.board.savedataType) ∧
    (([FacadeOp.init, FacadeOp.listMemoryBlocks].foldl
          (runOp fullBuild mgbaBoardHeaders mgbaHeaders simExt) shellCore).memoryBlockType =
        ([FacadeOp.init, FacadeOp.listMemoryBlocks].foldl
          (runOp fullBuild mgbaBoardHeaders mgbaHeaders simExt) shellCore).board.savedataType ∧
      ([FacadeOp.init, FacadeOp.listMemoryBlocks].foldl
          (runOp fullBuild mgbaBoardHeaders mgbaHeaders simExt) shellCore).nMemoryBlocks = 0 ∧
      (memoryBlockTemplate mgbaHeaders
        ([FacadeOp.init, FacadeOp.listMemoryBlocks].foldl
          (runOp fullBuild mgbaBoardHeaders mgbaHeaders simExt)
          shellCore).board.savedataType).length = 11) := by
  decide

/-- C3, amended: in every state reached from a reset through init, reset,
loadROM, listMemoryBlocks and changes of the board's save-media type,
whenever the cached tag equals the board's save-media type (a type other
than -2), the first `nMemoryBlocks` entries of the owned vector are the
template of that type with the sizes of the ROM blocks replaced by the
`romSize` the board had at the last rebuild, and `nMemoryBlocks` is the
template's length; after a listing call the tag equals the board's type, and
an immediately repeated call returns the same facade, array and count. -/
theorem cache_valid_reachable {T : Types} (B : Build) (H : BoardHeaders) (K : Headers)
    (X : GBAExt T) (core0 : GBACore T) (ops : List (FacadeOp T)) :
    ((reachedFromReset B H K X core0 ops).memoryBlockType =
        (reachedFromReset B H K X core0 ops).board.savedataType →
      (reachedFromReset B H K X core0 ops).board.savedataType ≠ -2 →
      (reachedFromReset B H K X core0 ops).memoryBlocks.take
            (reachedFromReset B H K X core0 ops).nMemoryBlocks =
          (memoryBlockTemplate K (reachedFromReset B H K X core0 ops).board.savedataType).map
            (patchROMSize K (lastRebuildRomSize B H K X core0 ops)) ∧
        (reachedFromReset B H K X core0 ops).nMemoryBlocks =
          (memoryBlockTemplate K
            (reachedFromReset B H K X core0 ops).board.savedataType).length) ∧
    (_GBACoreListMemoryBlocks K (reachedFromReset B H K X core0 ops)).1.memoryBlockType =
      (_GBACoreListMemoryBlocks K (reachedFromReset B H K X core0 ops)).1.board.savedataType ∧
    _GBACoreListMemoryBlocks K
        (_GBACoreListMemoryBlocks K (reachedFromReset B H K X core0 ops)).1 =
      _GBACoreListMemoryBlocks K (reachedFromReset B H K X core0 ops) := by
  have hv := cacheValidAt_foldl B H K X ops (_GBACoreReset B H X core0, 0)
    (Or.inl (reset_memoryBlockType B H X core0))
  rw [runOpTracked_fst] at hv
  refine ⟨fun ht hn => ?_, list_tag K _, ?_⟩
  · rcases hv with h2 | ⟨h1, h2⟩
    · exact absurd (ht ▸ h2) hn
    · exact ⟨ht ▸ h1, ht ▸ h2⟩
  · rw [listMemoryBlocks_cached K _ (list_tag K _)]
    by_cases hc : (reachedFromReset B H K X core0 ops).memoryBlockType =
        (reachedFromReset B H K X core0 ops).board.savedataType
    · rw [listMemoryBlocks_cached K _ hc]
    · obtain ⟨-, -, -, -, h5, h6⟩ := listMemoryBlocks_rebuild K _ hc
      rw [h5, h6]

/-- Witness of `cache_valid_reachable`: the instance with a ROM of 0x1000
bytes after reset, a change of the save-media type to FLASH1M and one
listing; the last rebuild saw the ROM size 0x1000, and the cached vector has
the 12 blocks of the FLASH1M template. -/
theorem cache_valid_reachable_witness :
    (reachedFromReset fullBuild mgbaBoardHeaders mgbaHeaders simExt
        { simCore with board := { simBoard with romSize := 0x1000 } }
        [.setSavedataType 3, .listMemoryBlocks]).memoryBlockType =
      (reachedFromReset fullBuild mgbaBoardHeaders mgbaHeaders simExt
        { simCore with board := { simBoard with romSize := 0x1000 } }
        [.setSavedataType 3, .listMemoryBlocks]).board.savedataType ∧
    (reachedFromReset fullBuild mgbaBoardHeaders mgbaHeaders simExt
        { simCore with board := { simBoard with romSize := 0x1000 } }
        [.setSavedataType 3, .listMemoryBlocks]).board.savedataType ≠ -2 ∧
    lastRebuildRomSize fullBuild mgbaBoardHeaders mgbaHeaders simExt
        { simCore with board := { simBoard with romSize := 0x1000 } }
        [.setSavedataType 3, .listMemoryBlocks] = 0x1000 ∧
    (reachedFromReset fullBuild mgbaBoardHeaders mgbaHeaders simExt
        { simCore with board := { simBoard with romSize := 0x1000 } }
        [.setSavedataType 3, .listMemoryBlocks]).nMemoryBlocks = 12 :=
  ⟨by decide, by decide, by decide,
    ((cache_valid_reachable fullBuild mgbaBoardHeaders mgbaHeaders simExt
      { simCore with board := { simBoard with romSize := 0x1000 } }
      [.setSavedataType 3, .listMemoryBlocks]).1 (by decide) (by decide)).2.trans (by decide)⟩

/-- C4, evaluated at a failing input: loading the multiboot image (file 1)
into a facade whose cached tag is 0 returns true and leaves the tag at 0; the
store of -2 is made on the plain-ROM path only. -/
theorem loadROM_multiboot_keeps_tag :
    (_GBACoreLoadROM simExt listedCore 1).1 = true ∧
      (_GBACoreLoadROM simExt listedCore 1).2.memoryBlockType = 0 ∧
      (_GBACoreLoadROM simExt listedCore 1).2.memoryBlockType ≠ -2 := by
  decide

/-! ## Registers by name -/

theorem isspace_of_isDigit (c : Char) (h : c.isDigit = true) : isspace c = false := by
  simp only [Char.isDigit, Bool.and_eq_true, decide_eq_true_eq] at h
  have h1 : 48 ≤ c.toNat := by
    have := h.1
    simpa [Char.toNat, UInt32.le_def, Fin.le_def] using this
  simp only [isspace, Bool.or_eq_false_iff, Bool.and_eq_false_iff, beq_eq_false_iff_ne,
    decide_eq_false_iff_not]
  omega

theorem sign_of_isDigit (c : Char) (h : c.isDigit = true) : c ≠ '-' ∧ c ≠ '+' := by
  constructor <;> (rintro rfl; revert h; decide)

theorem strtoul_digits (L : CLib) (s : List Char) (hs : s ≠ [])
    (hd : ∀ c ∈ s, c.isDigit = true) (hv : decimalValue s ≤ 4294967295) :
    strtoul L s = { value := decimalValue s, endptr := [], errno := false } := by
  obtain ⟨c, t, rfl⟩ := List.exists_cons_of_ne_nil hs
  have hc : c.isDigit = true := hd c (List.mem_cons_self _ _)
  have h1 : (c :: t).dropWhile isspace = c :: t := by
    simp [List.dropWhile, isspace_of_isDigit c hc]
  have h2 : (c :: t).takeWhile Char.isDigit = c :: t := List.takeWhile_eq_self_iff.2 hd
  have h3 : (c :: t).dropWhile Char.isDigit = [] := List.dropWhile_eq_nil_iff.2 hd
  have h4 := sign_of_isDigit c hc
  have h5 : ¬ decimalValue (c :: t) > L.ULONG_MAX := by
    have := L.ULONG_MAX_ge
    omega
  have h6 : ¬ L.ULONG_MAX < decimalValue (c :: t) := h5
  have e1 : (some c == some '-') = false := by simp [h4.1]
  have e2 : (some c == some '+') = false := by simp [h4.2]
  simp only [strtoul, h1, List.head?_cons, e1, e2, Bool.or_self, Bool.false_eq_true,
    if_false, h2, h3, List.isEmpty_cons, gt_iff_lt, h6]

theorem parseRegId_digits (L : CLib) (s : List Char) (hs : s ≠ [])
    (hd : ∀ c ∈ s, c.isDigit = true) (hv : decimalValue s ≤ 15) :
    parseRegId L s = some ⟨decimalValue s, by omega⟩ := by
  unfold parseRegId
  simp only [strtoul_digits L s hs hd (by omega)]
  simp [hv]

theorem toDigits_reg (i : Nat) (hi : i ≤ 15) :
    Nat.toDigits 10 i ≠ [] ∧ (∀ c ∈ Nat.toDigits 10 i, c.isDigit = true) ∧
      decimalValue (Nat.toDigits 10 i) = i := by
  interval_cases i <;> decide

theorem parseRegId_toDigits (L : CLib) (i : Nat) (hi : i ≤ 15) :
    parseRegId L (Nat.toDigits 10 i) = some ⟨i, by omega⟩ := by
  obtain ⟨h1, h2, h3⟩ := toDigits_reg i hi
  rw [parseRegId_digits L _ h1 h2 (by omega)]
  simp [h3]

theorem read_r {T : Types} (L : CLib) (A : ARMExt T) (core : GBACore T) (s : List Char) :
    _GBACoreReadRegister L A core ('r' :: s) =
      readNumeric L core s := by
  simp [_GBACoreReadRegister]

theorem write_r {T : Types} (L : CLib) (A : ARMExt T) (core : GBACore T) (s : List Char)
    (v : Nat) :
    _GBACoreWriteRegister L A core ('r' :: s) v = writeNumeric L A core s v := by
  simp [_GBACoreWriteRegister]

theorem read_R {T : Types} (L : CLib) (A : ARMExt T) (core : GBACore T) (s : List Char) :
    _GBACoreReadRegister L A core ('R' :: s) =
      readNumeric L core s := by
  simp [_GBACoreReadRegister]

theorem write_R {T : Types} (L : CLib) (A : ARMExt T) (core : GBACore T) (s : List Char)
    (v : Nat) :
    _GBACoreWriteRegister L A core ('R' :: s) v = writeNumeric L A core s v := by
  simp [_GBACoreWriteRegister]

/-- C5: for every i in 0..14 and every 32-bit value v, writing v to the name
`r` followed by the decimal numeral of i returns true, and reading the same
name afterwards returns true and yields v (register 15 being the program
counter). -/
theorem register_write_read_roundtrip {T : Types} (L : CLib) (A : ARMExt T) (core : GBACore T) (i v : Nat)
    (hi : i ≤ 14) (hv : v < 4294967296) (hpc : A.ARM_PC = 15) :
    (_GBACoreWriteRegister L A core (regName i) v).1 = true ∧
      (_GBACoreReadRegister L A (_GBACoreWriteRegister L A core (regName i) v).2
        (regName i)).1 = some v := by
  have hp := parseRegId_toDigits L i (by omega)
  have hne : (⟨i, by omega⟩ : Fin 16) ≠ A.ARM_PC := by
    rw [hpc]; intro h; have := congrArg Fin.val h; simp at this; omega
  simp only [regName, write_r, read_r, writeNumeric, readNumeric, hp, if_neg hne]
  simp [setGpr, Nat.mod_eq_of_lt hv]

/-- Witness of `register_write_read_roundtrip`: r5 and the value 4000000000
on the instance. -/
theorem register_write_read_roundtrip_witness :
    5 ≤ 14 ∧ 4000000000 < 4294967296 ∧ simARM.ARM_PC = 15 ∧
      (_GBACoreReadRegister simCLib simARM
        (_GBACoreWriteRegister simCLib simARM simCore (regName 5) 4000000000).2
        (regName 5)).1 = some 4000000000 :=
  ⟨by decide, by decide, rfl,
    (register_write_read_roundtrip simCLib simARM simCore 5 4000000000 (by decide) (by decide) rfl).2⟩

/-- C6, as stated, fails: the suffix `+5` starts with a sign, and both
`readRegister` and `writeRegister` accept the name `r+5` as register 5; the
write changes r5. -/
theorem register_signed_suffix_accepted :
    (_GBACoreReadRegister simCLib simARM simCore "r+5".toList).1 = some 0 ∧
      (_GBACoreWriteRegister simCLib simARM simCore "r+5".toList 7).1 = true ∧
      (_GBACoreWriteRegister simCLib simARM simCore "r+5".toList 7).2.cpu.gprs 5 = 7 ∧
      simCore.cpu.gprs 5 = 0 := by
  decide

/-- C7, evaluated at a failing input: `readRegister` accepts the name `CPSR`
and `writeRegister` rejects it. -/
theorem register_CPSR_read_not_write :
    (_GBACoreReadRegister simCLib simARM simCore "CPSR".toList).1 = some 0x1F ∧
      (_GBACoreWriteRegister simCLib simARM simCore "CPSR".toList 0x1F).1 = false := by
  decide

theorem parseRegId_eq_none (L : CLib) (s : List Char)
    (h : (strtoul L s).errno = true ∨ (strtoul L s).value > 15 ∨ (strtoul L s).endptr ≠ []) :
    parseRegId L s = none := by
  unfold parseRegId
  simp only [dif_pos h]

theorem parseRegId_rejects (L : CLib) (s : List Char)
    (hs : (s = [] ∧ L.noConvEINVAL = true) ∨
      (∃ c t, s = c :: t ∧ isspace c = false ∧ c ≠ '+' ∧ c ≠ '-' ∧
        ((∃ x ∈ s, x.isDigit = false) ∨ decimalValue s > 15))) :
    parseRegId L s = none := by
  apply parseRegId_eq_none
  rcases hs with ⟨rfl, he⟩ | ⟨c, t, rfl, hsp, hplus, hminus, hbad⟩
  · left
    simp [strtoul, he]
  · have h1 : (c :: t).dropWhile isspace = c :: t := by simp [List.dropWhile, hsp]
    have e1 : (some c == some '-') = false := by simp [hminus]
    have e2 : (some c == some '+') = false := by simp [hplus]
    by_cases hall : ∀ x ∈ c :: t, x.isDigit = true
    · have hv : decimalValue (c :: t) > 15 := by
        rcases hbad with ⟨x, hx, hxd⟩ | hv
        · rw [hall x hx] at hxd; cases hxd
        · exact hv
      have h2 : (c :: t).takeWhile Char.isDigit = c :: t := List.takeWhile_eq_self_iff.2 hall
      simp only [strtoul, h1, List.head?_cons, e1, e2, Bool.or_self, Bool.false_eq_true,
        if_false, h2, List.isEmpty_cons]
      by_cases hbig : decimalValue (c :: t) > L.ULONG_MAX
      · left; simp [hbig]
      · right; left; simp only [if_neg hbig]; exact hv
    · have h3 : (c :: t).dropWhile Char.isDigit ≠ [] := by
        intro h0
        exact hall (List.dropWhile_eq_nil_iff.1 h0)
      right; right
      simp only [strtoul, h1, List.head?_cons, e1, e2, Bool.or_self, Bool.false_eq_true,
        if_false]
      split_ifs
      · simp
      · exact h3
      · exact h3

/-- C6, amended: for a name made of `r` or `R` and a suffix that is empty (on
a C library that sets `errno` when `strtoul` converts nothing), or that
starts with a character other than white space and a sign and either
contains a character that is not a decimal digit or has a decimal value above
15 (values above `ULONG_MAX` included), `readRegister` and `writeRegister`
return false and leave the facade, every CPU register included, unchanged. -/
theorem register_suffix_rejected {T : Types} (L : CLib) (A : ARMExt T) (core : GBACore T) (r : Char)
    (s : List Char) (v : Nat) (hr : r = 'r' ∨ r = 'R')
    (hs : (s = [] ∧ L.noConvEINVAL = true) ∨
      (∃ c t, s = c :: t ∧ isspace c = false ∧ c ≠ '+' ∧ c ≠ '-' ∧
        ((∃ x ∈ s, x.isDigit = false) ∨ decimalValue s > 15))) :
    _GBACoreReadRegister L A core (r :: s) = (none, core) ∧
      _GBACoreWriteRegister L A core (r :: s) v = (false, core) := by
  have hp := parseRegId_rejects L s hs
  rcases hr with rfl | rfl
  · simp [_GBACoreReadRegister, _GBACoreWriteRegister, readNumeric, writeNumeric, hp]
  · simp [_GBACoreReadRegister, _GBACoreWriteRegister, readNumeric, writeNumeric, hp]

/-- Witness of `register_suffix_rejected`: the name `r16`. -/
theorem register_suffix_rejected_witness :
    ('r' = 'r' ∨ 'r' = 'R') ∧
      (∃ c t, "16".toList = c :: t ∧ isspace c = false ∧ c ≠ '+' ∧ c ≠ '-' ∧
        ((∃ x ∈ "16".toList, x.isDigit = false) ∨ decimalValue "16".toList > 15)) ∧
      (_GBACoreWriteRegister simCLib simARM simCore ('r' :: "16".toList) 7).1 = false :=
  ⟨Or.inl rfl, ⟨'1', ['6'], rfl, by decide, by decide, by decide, Or.inr (by decide)⟩,
    congrArg Prod.fst (register_suffix_rejected simCLib simARM simCore 'r' "16".toList 7 (Or.inl rfl)
      (Or.inr ⟨'1', ['6'], rfl, by decide, by decide, by decide, Or.inr (by decide)⟩)).2⟩

theorem writeNumeric_15 {T : Types} (L : CLib) (A : ARMExt T) (core : GBACore T) (v : Nat)
    (hpc : A.ARM_PC = 15) :
    writeNumeric L A core "15".toList v =
      (true, { core with cpu := pcWritePath A (setGpr core.cpu 15 v) }) := by
  have hp : parseRegId L "15".toList = some ⟨15, by omega⟩ := parseRegId_toDigits L 15 (by omega)
  simp only [writeNumeric, hp]
  rw [if_pos (show (⟨15, by omega⟩ : Fin 16) = A.ARM_PC from hpc.symm)]
  rfl

theorem writeNumeric_cases {T : Types} (L : CLib) (A : ARMExt T) (core : GBACore T)
    (s : List Char) (v : Nat) (h : (writeNumeric L A core s v).1 = true) :
    (∃ i : Fin 16, i ≠ A.ARM_PC ∧
        (writeNumeric L A core s v).2 = { core with cpu := setGpr core.cpu i v }) ∨
      (writeNumeric L A core s v).2 =
        { core with cpu := pcWritePath A (setGpr core.cpu A.ARM_PC v) } := by
  unfold writeNumeric at *
  cases hp : parseRegId L s with
  | none => simp [hp] at h
  | some i =>
    by_cases hi : i = A.ARM_PC
    · right; simp [hi]
    · left; exact ⟨i, hi, by simp [hi]⟩

/-- C8: with `ARM_SP`, `ARM_LR`, `ARM_PC` the registers 13, 14, 15, a write
through `pc`, `PC`, `r15` or `R15` returns true, stores the value in
`gprs[15]` and then runs `ThumbWritePC` on the CPU when the Thumb flag of the
CPSR is set and `ARMWritePC` when it is clear; and every successful write is
either a plain store into a register other than 15, which runs neither path,
or the masked CPSR store, or that store into register 15 followed by the
path of the mode. -/
theorem register_pc_write_path {T : Types} (L : CLib) (A : ARMExt T) (core : GBACore T) (v : Nat)
    (hsp : A.ARM_SP = 13) (hlr : A.ARM_LR = 14) (hpc : A.ARM_PC = 15) :
    (∀ name ∈ ["pc".toList, "PC".toList, "r15".toList, "R15".toList],
      (A.cpsr_t core.cpu.cpsr = true →
        _GBACoreWriteRegister L A core name v =
          (true, { core with
            cpu := A.ThumbWritePC { core.cpu with
              gprs := fun j => if j = 15 then v % 4294967296 else core.cpu.gprs j } })) ∧
      (A.cpsr_t core.cpu.cpsr = false →
        _GBACoreWriteRegister L A core name v =
          (true, { core with
            cpu := A.ARMWritePC { core.cpu with
              gprs := fun j => if j = 15 then v % 4294967296 else core.cpu.gprs j } }))) ∧
    (∀ name, (_GBACoreWriteRegister L A core name v).1 = true →
      (∃ i : Fin 16, i ≠ 15 ∧
        (_GBACoreWriteRegister L A core name v).2 =
          { core with cpu := { core.cpu with
              gprs := fun j => if j = i then v % 4294967296 else core.cpu.gprs j } }) ∨
      (_GBACoreWriteRegister L A core name v).2 =
        { core with cpu :=
          A._ARMReadCPSR { core.cpu with cpsr := v % 4294967296 &&& 0xF00000FF } } ∨
      (A.cpsr_t core.cpu.cpsr = true ∧
        (_GBACoreWriteRegister L A core name v).2 =
          { core with
            cpu := A.ThumbWritePC { core.cpu with
              gprs := fun j => if j = 15 then v % 4294967296 else core.cpu.gprs j } }) ∨
      (A.cpsr_t core.cpu.cpsr = false ∧
        (_GBACoreWriteRegister L A core name v).2 =
          { core with
            cpu := A.ARMWritePC { core.cpu with
              gprs := fun j => if j = 15 then v % 4294967296 else core.cpu.gprs j } })) := by
  have h15 := writeNumeric_15 L A core v hpc
  have hthumb : A.cpsr_t core.cpu.cpsr = true →
      pcWritePath A (setGpr core.cpu 15 v) =
        A.ThumbWritePC { core.cpu with
          gprs := fun j => if j = 15 then v % 4294967296 else core.cpu.gprs j } := by
    intro h
    simp only [pcWritePath, setGpr, h, if_true]
  have harm : A.cpsr_t core.cpu.cpsr = false →
      pcWritePath A (setGpr core.cpu 15 v) =
        A.ARMWritePC { core.cpu with
          gprs := fun j => if j = 15 then v % 4294967296 else core.cpu.gprs j } := by
    intro h
    simp only [pcWritePath, setGpr, h, Bool.false_eq_true, if_false]
  have hpath : ∀ r : GBACore T,
      r = { core with cpu := pcWritePath A (setGpr core.cpu 15 v) } →
      (A.cpsr_t core.cpu.cpsr = true ∧
        r = { core with
            cpu := A.ThumbWritePC { core.cpu with
              gprs := fun j => if j = 15 then v % 4294967296 else core.cpu.gprs j } }) ∨
      (A.cpsr_t core.cpu.cpsr = false ∧
        r = { core with
            cpu := A.ARMWritePC { core.cpu with
              gprs := fun j => if j = 15 then v % 4294967296 else core.cpu.gprs j } }) := by
    intro r hr
    cases ht : A.cpsr_t core.cpu.cpsr with
    | true => exact Or.inl ⟨rfl, by rw [hr, hthumb ht]⟩
    | false => exact Or.inr ⟨rfl, by rw [hr, harm ht]⟩
  constructor
  · intro name hn
    have hw : _GBACoreWriteRegister L A core name v =
        (true, { core with cpu := pcWritePath A (setGpr core.cpu 15 v) }) := by
      simp only [List.mem_cons, List.mem_singleton, List.not_mem_nil, or_false] at hn
      rcases hn with rfl | rfl | rfl | rfl
      · simpa [_GBACoreWriteRegister] using h15
      · simpa [_GBACoreWriteRegister] using h15
      · simpa [_GBACoreWriteRegister] using h15
      · simpa [_GBACoreWriteRegister] using h15
    exact ⟨fun h => by rw [hw, hthumb h], fun h => by rw [hw, harm h]⟩
  · intro name hw
    have key : (∃ i : Fin 16, i ≠ 15 ∧
          (_GBACoreWriteRegister L A core name v).2 = { core with cpu := setGpr core.cpu i v }) ∨
        (_GBACoreWriteRegister L A core name v).2 =
          { core with cpu :=
            A._ARMReadCPSR { core.cpu with cpsr := v % 4294967296 &&& 0xF00000FF } } ∨
        (_GBACoreWriteRegister L A core name v).2 =
          { core with cpu := pcWritePath A (setGpr core.cpu 15 v) } := by
      unfold _GBACoreWriteRegister at hw ⊢
      simp only at hw ⊢
      split_ifs at hw ⊢ with h1 h2 h3 h4 h5 h6 h7 h8 h9 h10 h11
      · rcases writeNumeric_cases L A core name.tail v hw with ⟨i, hi, he⟩ | he
        · exact Or.inl ⟨i, hpc ▸ hi, he⟩
        · exact Or.inr (Or.inr (hpc ▸ he))
      · exact Or.inr (Or.inl rfl)
      · exact Or.inl ⟨12, by decide, rfl⟩
      · exact Or.inl ⟨13, by decide, by rw [hsp]⟩
      · exact Or.inl ⟨14, by decide, by rw [hlr]⟩
      · exact Or.inr (Or.inr (by rw [h15]))
    rcases key with ⟨i, hi, he⟩ | he | he
    · exact Or.inl ⟨i, hi, he⟩
    · exact Or.inr (Or.inl he)
    · exact Or.inr (Or.inr (hpath _ he))

/-- Witness of `register_pc_write_path`: on the instance the value
0x08000002 written through `pc` is realigned to 0x08000000 by `ARMWritePC` in
ARM state (CPSR 0x1F) and kept by `ThumbWritePC` in Thumb state (CPSR 0x3F). -/
theorem register_pc_write_path_witness :
    simARM.ARM_SP = 13 ∧ simARM.ARM_LR = 14 ∧ simARM.ARM_PC = 15 ∧
      simARM.cpsr_t simCore.cpu.cpsr = false ∧ simARM.cpsr_t thumbCore.cpu.cpsr = true ∧
      (_GBACoreWriteRegister simCLib simARM simCore "pc".toList 0x08000002).2.cpu.gprs 15 =
        0x08000000 ∧
      (_GBACoreWriteRegister simCLib simARM thumbCore "pc".toList 0x08000002).2.cpu.gprs 15 =
        0x08000002 :=
  ⟨rfl, rfl, rfl, by decide, by decide,
    (congrArg (fun r => r.2.cpu.gprs 15)
      (((register_pc_write_path simCLib simARM simCore 0x08000002 rfl rfl rfl).1 "pc".toList
        (by decide)).2 (by decide))).trans (by decide),
    (congrArg (fun r => r.2.cpu.gprs 15)
      (((register_pc_write_path simCLib simARM thumbCore 0x08000002 rfl rfl rfl).1 "pc".toList
        (by decide)).1 (by decide))).trans (by decide)⟩

/-- C9: provided `_ARMReadCPSR` leaves the packed CPSR as it is, writing a
32-bit value v to `cpsr` returns true and sets the packed CPSR to
`v & 0xF00000FF`, the mask the catalog of `_GBACoreListRegisters` publishes
for `cpsr`. -/
theorem register_cpsr_write_mask {T : Types} (L : CLib) (A : ARMExt T) (core : GBACore T) (v : Nat)
    (hread : ∀ c, (A._ARMReadCPSR c).cpsr = c.cpsr) (hv : v < 4294967296) :
    (_GBACoreWriteRegister L A core "cpsr".toList v).1 = true ∧
      (_GBACoreWriteRegister L A core "cpsr".toList v).2.cpu.cpsr = v &&& 0xF00000FF ∧
      (((_GBACoreListRegisters core).1.find? (fun r => r.name == "cpsr")).map
        (fun r => r.mask)) = some 0xF00000FF := by
  refine ⟨by simp [_GBACoreWriteRegister], ?_, ?_⟩
  swap
  · show ((_GBARegisters.find? (fun r => r.name == "cpsr")).map (fun r => r.mask)) = _
    decide
  simp [_GBACoreWriteRegister, hread, Nat.mod_eq_of_lt hv]

/-- Witness of `register_cpsr_write_mask`: the value 0xFFFFFFFF on the
instance. -/
theorem register_cpsr_write_mask_witness :
    (∀ c, (simARM._ARMReadCPSR c).cpsr = c.cpsr) ∧ 0xFFFFFFFF < 4294967296 ∧
      (_GBACoreWriteRegister simCLib simARM simCore "cpsr".toList 0xFFFFFFFF).2.cpu.cpsr =
        0xF00000FF :=
  ⟨fun _ => rfl, by decide,
    (register_cpsr_write_mask simCLib simARM simCore 0xFFFFFFFF (fun _ => rfl) (by decide)).2.1.trans (by decide)⟩

/-! ## Keys -/

theorem complement32 (k : Nat) (hk : k < 4294967296) :
    4294967295 - k = k ^^^ 4294967295 := by
  apply Nat.eq_of_testBit_eq
  intro i
  have h1 : 4294967295 - k = 2 ^ 32 - (k + 1) := by omega
  have h2 : (4294967295 : Nat) = 2 ^ 32 - 1 := by norm_num
  rw [h1, Nat.testBit_two_pow_sub_succ (by simpa using hk), Nat.testBit_xor, h2,
    Nat.testBit_two_pow_sub_one]
  by_cases hi : i < 32
  · simp [hi]
  · have : k.testBit i = false := by
      apply Nat.testBit_lt_two_pow
      calc k < 2 ^ 32 := by simpa using hk
        _ ≤ 2 ^ i := Nat.pow_le_pow_right (by norm_num) (by omega)
    simp [hi, this]

theorem runKeyOp_keys {T : Types} (X : GBAExt T) (core : GBACore T) (op : KeyOp)
    (hirq : ∀ g, (X.GBATestKeypadIRQ g).keysActive = g.keysActive)
    (h0 : core.board.keysActive < 4294967296) (hop : op.arg < 4294967296) :
    (runKeyOp X core op).board.keysActive = keySpecStep core.board.keysActive op ∧
      (runKeyOp X core op).board.keysActive < 4294967296 := by
  cases op with
  | set k =>
    have hk : k < 4294967296 := hop
    have hm : k % 2 ^ 32 = k := Nat.mod_eq_of_lt (by norm_num; exact hk)
    simp only [runKeyOp, _GBACoreSetKeys, keySpecStep, hirq, hm, true_and]
    exact hk
  | add k =>
    have hk : k < 4294967296 := hop
    have hm : k % 2 ^ 32 = k := Nat.mod_eq_of_lt (by norm_num; exact hk)
    simp only [runKeyOp, _GBACoreAddKeys, keySpecStep, hirq, hm, true_and]
    have h32 : (4294967296 : Nat) = 2 ^ 32 := by norm_num
    rw [h32] at h0 hk ⊢
    exact Nat.or_lt_two_pow h0 hk
  | clear k =>
    have hk : k < 4294967296 := hop
    have hm : k % 2 ^ 32 = k := Nat.mod_eq_of_lt (by norm_num; exact hk)
    simp only [runKeyOp, _GBACoreClearKeys, keySpecStep, hirq, hm,
      complement32 k hk, true_and]
    exact lt_of_le_of_lt Nat.and_le_left h0

/-- C10: provided the keypad interrupt test leaves `keysActive` as it is and
the key words are 32-bit values, after any sequence of `setKeys`, `addKeys`
and `clearKeys` calls `getKeys` returns the fold of the sequence over the
initial state, with `setKeys(k)` replacing the state by k, `addKeys(k)`
giving state OR k and `clearKeys(k)` giving state AND NOT k; and `getKeys`
right after `setKeys(k)` returns k whatever came before. -/
theorem keys_fold {T : Types} (X : GBAExt T) (core : GBACore T) (ops : List KeyOp)
    (hirq : ∀ g, (X.GBATestKeypadIRQ g).keysActive = g.keysActive)
    (h0 : core.board.keysActive < 4294967296) (hops : ∀ op ∈ ops, op.arg < 4294967296) :
    _GBACoreGetKeys (ops.foldl (runKeyOp X) core) =
        ops.foldl keySpecStep core.board.keysActive ∧
      ∀ k, k < 4294967296 →
        _GBACoreGetKeys (_GBACoreSetKeys X (ops.foldl (runKeyOp X) core) k) = k := by
  constructor
  · induction ops generalizing core with
    | nil => rfl
    | cons op ops ih =>
      obtain ⟨h1, h2⟩ := runKeyOp_keys X core op hirq h0 (hops op (List.mem_cons_self _ _))
      rw [List.foldl_cons, List.foldl_cons, ih _ h2 (fun o ho => hops o (List.mem_cons_of_mem _ ho)), h1]
  · intro k hk
    simp [_GBACoreGetKeys, _GBACoreSetKeys, hirq, Nat.mod_eq_of_lt hk]

/-- Witness of `keys_fold`: set 0x3, add 0x30, clear 0x11 on the instance. -/
theorem keys_fold_witness :
    (∀ g, (simExt.GBATestKeypadIRQ g).keysActive = g.keysActive) ∧
      simCore.board.keysActive < 4294967296 ∧
      (∀ op ∈ [KeyOp.set 0x3, KeyOp.add 0x30, KeyOp.clear 0x11], op.arg < 4294967296) ∧
      _GBACoreGetKeys ([KeyOp.set 0x3, KeyOp.add 0x30, KeyOp.clear 0x11].foldl
        (runKeyOp simExt) simCore) = 0x22 :=
  ⟨fun _ => rfl, by decide, by decide,
    (keys_fold simExt simCore [KeyOp.set 0x3, KeyOp.add 0x30, KeyOp.clear 0x11] (fun _ => rfl)
      (by decide) (by decide)).1.trans (by decide)⟩

/-! ## Configuration -/

/-- C11: for every option string other than the seven the function knows,
`_GBACoreReloadConfigOption` returns the facade it was given, board included;
the function has no result through which it could report an error. -/
theorem reloadConfigOption_unrecognized {T : Types} (B : Build) (X : GBAExt T) (core : GBACore T) (option : String)
    (config : Option T.Config)
    (h : option ∉ ["mute", "volume", "frameskip", "allowOpposingDirections", "videoScale",
      "hwaccelVideo", "threadedVideo.flushScanline"]) :
    _GBACoreReloadConfigOption B X core (some option) config = core := by
  simp only [List.mem_cons, List.mem_singleton, List.not_mem_nil, or_false, not_or] at h
  obtain ⟨h1, h2, h3, h4, h5, h6, h7⟩ := h
  simp [_GBACoreReloadConfigOption, h1, h2, h3, h4, h5, h6, h7]

/-- Witness of `reloadConfigOption_unrecognized`: the option `rewindEnable`. -/
theorem reloadConfigOption_unrecognized_witness :
    "rewindEnable" ∉ ["mute", "volume", "frameskip", "allowOpposingDirections", "videoScale",
      "hwaccelVideo", "threadedVideo.flushScanline"] ∧
    (_GBACoreReloadConfigOption fullBuild simExt simCore (some "rewindEnable")
      (some [("rewindEnable", 1)])).opts.volume = simCore.opts.volume :=
  ⟨by decide, congrArg (fun c => c.opts.volume)
    (reloadConfigOption_unrecognized fullBuild simExt simCore "rewindEnable" (some [("rewindEnable", 1)]) (by decide))⟩

theorem associateIfSet_masterVolume {T : Types} (X : GBAExt T) (gba : GBA T)
    (r : Option RendererRef) : (associateIfSet X gba r).masterVolume = gba.masterVolume := by
  cases r <;> rfl

theorem reloadHwaccelVideo_rel {T : Types} (B : Build) (X : GBAExt T) (core : GBACore T) :
    (reloadHwaccelVideo B X core).board.masterVolume = core.board.masterVolume ∧
      (reloadHwaccelVideo B X core).opts = core.opts := by
  unfold reloadHwaccelVideo
  simp only
  split <;> simp [associateIfSet_masterVolume]

theorem reload_branches_rel {T : Types} (B : Build) (X : GBAExt T) (core : GBACore T)
    (cfg : T.Config) (config : Option T.Config) (hrel : MuteVolumeRelation core) :
    MuteVolumeRelation (reloadMute X core cfg) ∧
      MuteVolumeRelation (reloadVolume X core cfg) ∧
      MuteVolumeRelation (reloadFrameskip X core cfg) ∧
      MuteVolumeRelation (reloadAllowOpposingDirections X core config) ∧
      MuteVolumeRelation (reloadVideoScale X core config) ∧
      MuteVolumeRelation (reloadHwaccelVideo B X core) ∧
      MuteVolumeRelation (reloadFlushScanline X core cfg) := by
  unfold MuteVolumeRelation at hrel ⊢
  refine ⟨?_, ?_, ?_, ?_, ?_, ?_, ?_⟩
  · unfold reloadMute
    split
    · rfl
    · exact hrel
  · unfold reloadVolume
    split
    · by_cases hm : core.opts.mute = true
      · simp [hm] at hrel ⊢
        exact hrel
      · simp [hm]
    · exact hrel
  · unfold reloadFrameskip
    split
    · exact hrel
    · exact hrel
  · exact hrel
  · have hp : (reloadVideoScale X core config).board = core.board ∧
        (reloadVideoScale X core config).opts = core.opts := by
      unfold reloadVideoScale
      simp only
      split <;> exact ⟨rfl, rfl⟩
    rw [hp.1, hp.2]
    exact hrel
  · rw [(reloadHwaccelVideo_rel B X core).1, (reloadHwaccelVideo_rel B X core).2]
    exact hrel
  · exact hrel

/-- C12: the relation "master volume = 0 if `opts.mute`, `opts.volume`
otherwise" holds after `_GBACoreLoadConfig` and after
`_GBACoreReloadConfigOption` with a null option, and every
`_GBACoreReloadConfigOption` call preserves it, whatever the option and the
configuration. -/
theorem mute_volume_relation {T : Types} (B : Build) (H : BoardHeaders) (X : GBAExt T) (core : GBACore T)
    (loaded : T.Config) (option : Option String) (config : Option T.Config) :
    MuteVolumeRelation (_GBACoreLoadConfig B H X core loaded) ∧
      MuteVolumeRelation (_GBACoreReloadConfigOption B X core none config) ∧
      (MuteVolumeRelation core →
        MuteVolumeRelation (_GBACoreReloadConfigOption B X core option config)) := by
  refine ⟨?_, ?_, ?_⟩
  · unfold MuteVolumeRelation _GBACoreLoadConfig
    simp only
    split <;> (try split_ifs) <;> rfl
  · simp [MuteVolumeRelation, _GBACoreReloadConfigOption, reloadFromOpts]
  · intro hrel
    cases option with
    | none => simp [MuteVolumeRelation, _GBACoreReloadConfigOption, reloadFromOpts]
    | some o =>
      obtain ⟨b1, b2, b3, b4, b5, b6, b7⟩ :=
        reload_branches_rel B X core (config.getD core.config) config hrel
      have b8 := (reload_branches_rel B X (reloadHwaccelVideo B X core)
        (config.getD core.config) config b6).2.2.2.2.2.2
      unfold _GBACoreReloadConfigOption
      simp only
      split_ifs <;> assumption

/-- Witness of `mute_volume_relation`: the muted facade after
`_GBACoreLoadConfig`, and after a following reload of `volume`. -/
theorem mute_volume_relation_witness :
    MuteVolumeRelation
        (_GBACoreLoadConfig fullBuild mgbaBoardHeaders simExt mutedCore []) ∧
      MuteVolumeRelation (_GBACoreReloadConfigOption fullBuild simExt
        (_GBACoreLoadConfig fullBuild mgbaBoardHeaders simExt mutedCore [])
        (some "volume") (some [("volume", 0x80)])) :=
  ⟨(mute_volume_relation fullBuild mgbaBoardHeaders simExt mutedCore [] none none).1,
    (mute_volume_relation fullBuild mgbaBoardHeaders simExt
      (_GBACoreLoadConfig fullBuild mgbaBoardHeaders simExt mutedCore [])
      [] (some "volume") (some [("volume", 0x80)])).2.2
      (mute_volume_relation fullBuild mgbaBoardHeaders simExt mutedCore [] none none).1⟩

/-! ## Renderer selection -/

/-- The `BUILD_GLES3` block of reset: the GPU renderer is chosen exactly when
the build has it and the GPU target is usable, and the GPU renderer's fields
afterwards are those of `glRendererAfterReset`. -/
theorem selectGLRenderer_spec {T : Types} (B : Build) (X : GBAExt T) (core : GBACore T)
    (r : Option RendererRef) :
    selectGLRenderer B X core r =
      (if (B.BUILD_GLES3 && gpuUsable X core) = true then some .glRenderer else r,
        glRendererAfterReset B X core) := by
  unfold selectGLRenderer gpuUsable glRendererAfterReset gpuUsable
  cases B.BUILD_GLES3
  · simp
  · simp only [if_true, Bool.true_and]
    split_ifs <;> rfl

/-- The renderer part of reset, case by case. -/
theorem resetRenderer_cases {T : Types} (B : Build) (X : GBAExt T) (core : GBACore T)
    (h : core.renderer.outputBuffer.isSome = true ∨
      (B.BUILD_GLES3 = true ∧ core.glRenderer.outputTex ≠ 4294967295)) :
    (∀ r l,
      pipelineRendererSpec core.renderer.outputBuffer.isSome
          (B.BUILD_GLES3 && gpuUsable X core) false = some r →
      B.MINIMAL_CORE = none → loggerAtWrap B X core = some l →
      resetRenderer B X core =
        { core with
          glRenderer := glRendererAfterReset B X core,
          videoLogger := some l,
          proxyRenderer :=
            { X.GBAVideoProxyRendererCreate core.proxyRenderer r l with
              flushScanline :=
                (X.mCoreConfigGetIntValue core.config
                  "threadedVideo.flushScanline").getD (-1) },
          board := { core.board with
            video := X.GBAVideoAssociateRenderer core.board.video .proxyRenderer } }) ∧
    (∀ r,
      pipelineRendererSpec core.renderer.outputBuffer.isSome
          (B.BUILD_GLES3 && gpuUsable X core) false = some r →
      (B.MINIMAL_CORE ≠ none ∨ loggerAtWrap B X core = none) →
      resetRenderer B X core =
        { core with
          glRenderer := glRendererAfterReset B X core,
          videoLogger := loggerAtWrap B X core,
          board := { core.board with
            video := X.GBAVideoAssociateRenderer core.board.video r } }) ∧
    (pipelineRendererSpec core.renderer.outputBuffer.isSome
        (B.BUILD_GLES3 && gpuUsable X core) false = none →
      resetRenderer B X core =
        { core with
          glRenderer := glRendererAfterReset B X core,
          videoLogger := loggerAtWrap B X core }) := by
  have hcond : (core.renderer.outputBuffer.isSome ||
      (B.BUILD_GLES3 && core.glRenderer.outputTex != 4294967295)) = true := by
    rcases h with h | ⟨h1, h2⟩
    · simp [h]
    · simp [h1, h2]
  unfold resetRenderer
  simp only [hcond, if_true, selectGLRenderer_spec]
  have hlw : (if (!B.DISABLE_THREADING &&
        X.mCoreConfigGetBoolValue core.config "threadedVideo" == some true &&
        core.videoLogger.isNone) = true then some LoggerRef.threadProxy
      else core.videoLogger) = loggerAtWrap B X core := rfl
  rw [hlw]
  generalize loggerAtWrap B X core = logger
  generalize (B.BUILD_GLES3 && gpuUsable X core) = g
  generalize core.renderer.outputBuffer.isSome = b
  generalize glRendererAfterReset B X core = gl
  refine ⟨fun r l hr hm hl => ?_, fun r hr hm => ?_, fun hr => ?_⟩
  · subst hl
    cases g <;> cases b <;> simp [pipelineRendererSpec] at hr <;> subst hr <;>
      simp [hm, associateIfSet]
  · cases g <;> cases b <;> simp [pipelineRendererSpec] at hr <;> subst hr <;>
      rcases hm with hm | hm
    all_goals first
      | (subst hm; simp [associateIfSet])
      | (have hm' : B.MINIMAL_CORE.isNone = false := by
           cases hx : B.MINIMAL_CORE with
           | none => exact absurd hx hm
           | some _ => rfl
         simp [hm', associateIfSet])
  · cases g <;> cases b <;> simp [pipelineRendererSpec] at hr
    cases B.MINIMAL_CORE.isNone <;> cases logger <;> simp [associateIfSet]

/-- The pipeline with the wrap step, in terms of the pipeline without it. -/
theorem pipelineRendererSpec_wrap (b g w : Bool) :
    (pipelineRendererSpec b g false = none → pipelineRendererSpec b g w = none) ∧
    (∀ r, pipelineRendererSpec b g false = some r →
      pipelineRendererSpec b g w = if w then some .proxyRenderer else some r) := by
  cases b <;> cases g <;> cases w <;> decide

/-- The parts of reset after the renderer part leave the GPU renderer, the
proxy renderer and the video logger of the facade alone. -/
theorem resetTail_renderers {T : Types} (B : Build) (H : BoardHeaders) (X : GBAExt T)
    (c : GBACore T) :
    (resetFinish H X (resetBIOS B H X (resetOverrides H X c))).glRenderer = c.glRenderer ∧
    (resetFinish H X (resetBIOS B H X (resetOverrides H X c))).proxyRenderer =
      c.proxyRenderer ∧
    (resetFinish H X (resetBIOS B H X (resetOverrides H X c))).videoLogger =
      c.videoLogger := by
  simp only [resetFinish, resetBIOS, resetOverrides]
  split_ifs <;> (try split) <;> exact ⟨rfl, rfl, rfl⟩

/-- The parts of reset after the renderer part leave the video unit alone when
the collaborators they call do. -/
theorem resetTail_video {T : Types} (B : Build) (H : BoardHeaders) (X : GBAExt T)
    (c : GBACore T)
    (hov : ∀ gba o, (X.GBAOverrideApply gba o).video = gba.video)
    (hod : ∀ gba o, (X.GBAOverrideApplyDefaults gba o).video = gba.video)
    (hbios : ∀ gba vf, (X.GBALoadBIOS gba vf).video = gba.video)
    (hreset : ∀ s, (X.ARMReset s).2.video = s.2.video)
    (hskip : ∀ s, (X.GBASkipBIOS s).2.video = s.2.video)
    (htiming : ∀ s, (X.mTimingInterrupt s).2.video = s.2.video) :
    (resetFinish H X (resetBIOS B H X (resetOverrides H X c))).board.video = c.board.video := by
  have h0 : (resetOverrides H X c).board.video = c.board.video := by
    simp only [resetOverrides, applyOverride]
    split_ifs <;> simp [hov, hod]
  have h1 : ∀ d : GBACore T, (resetBIOS B H X d).board.video = d.board.video := by
    intro d
    unfold resetBIOS
    split_ifs
    · simp only
      split
      · exact hbios _ _
      · rfl
    · rfl
  have h2 : ∀ d : GBACore T, (resetFinish H X d).board.video = d.board.video := by
    intro d
    simp only [resetFinish, resetBeforeSkip, skipAndInterrupt, htiming]
    split_ifs
    · rw [hskip, hreset]
    · rw [hreset]
  rw [h2, h1, h0]

/-- C13, amended: when a buffer or (with `BUILD_GLES3`) a GPU target is
installed, reset sets the GPU scale (in a `BUILD_GLES3` build) to the
configured `videoScale` when the GPU renderer is chosen and to 1 otherwise,
and calls `GBAVideoAssociateRenderer` for the renderer the pipeline yields:
the software renderer for a buffer, replaced in a `BUILD_GLES3` build by the
GPU renderer when a GPU target is installed and `hwaccelVideo` is true, and,
in a build without `MINIMAL_CORE`, wrapped in the proxy renderer (created
over that renderer and the logger, with `flushScanline` the configured value
or -1) exactly when a logger is installed at that point; in a `MINIMAL_CORE`
build the renderer is never wrapped.  When no renderer results, and when
neither a buffer nor a GPU target is installed, reset makes no association;
after init the dummy renderer is associated.  The rest of reset then runs on
the facade so prepared, and leaves the video unit as associated when the
collaborators it calls leave the video unit alone. -/
theorem reset_renderer_pipeline {T : Types} (B : Build) (H : BoardHeaders) (X : GBAExt T)
    (core shell : GBACore T) :
    ((core.renderer.outputBuffer.isSome = true ∨
        (B.BUILD_GLES3 = true ∧ core.glRenderer.outputTex ≠ 4294967295)) →
      (_GBACoreReset B H X core).glRenderer = glRendererAfterReset B X core ∧
      (_GBACoreReset B H X core).videoLogger = loggerAtWrap B X core ∧
      (∀ r l,
        pipelineRendererSpec core.renderer.outputBuffer.isSome
            (B.BUILD_GLES3 && gpuUsable X core) false = some r →
        B.MINIMAL_CORE = none → loggerAtWrap B X core = some l →
        (_GBACoreReset B H X core).proxyRenderer =
          { X.GBAVideoProxyRendererCreate core.proxyRenderer r l with
            flushScanline :=
              (X.mCoreConfigGetIntValue core.config
                "threadedVideo.flushScanline").getD (-1) } ∧
        _GBACoreReset B H X core =
          resetFinish H X (resetBIOS B H X (resetOverrides H X
            { core with
              glRenderer := glRendererAfterReset B X core,
              videoLogger := some l,
              proxyRenderer :=
                { X.GBAVideoProxyRendererCreate core.proxyRenderer r l with
                  flushScanline :=
                    (X.mCoreConfigGetIntValue core.config
                      "threadedVideo.flushScanline").getD (-1) },
              board := { core.board with
                video := X.GBAVideoAssociateRenderer core.board.video .proxyRenderer } }))) ∧
      (∀ r,
        pipelineRendererSpec core.renderer.outputBuffer.isSome
            (B.BUILD_GLES3 && gpuUsable X core) false = some r →
        (B.MINIMAL_CORE ≠ none ∨ loggerAtWrap B X core = none) →
        (_GBACoreReset B H X core).proxyRenderer = core.proxyRenderer ∧
        _GBACoreReset B H X core =
          resetFinish H X (resetBIOS B H X (resetOverrides H X
            { core with
              glRenderer := glRendererAfterReset B X core,
              videoLogger := loggerAtWrap B X core,
              board := { core.board with
                video := X.GBAVideoAssociateRenderer core.board.video r } }))) ∧
      (pipelineRendererSpec core.renderer.outputBuffer.isSome
          (B.BUILD_GLES3 && gpuUsable X core) false = none →
        (_GBACoreReset B H X core).proxyRenderer = core.proxyRenderer ∧
        _GBACoreReset B H X core =
          resetFinish H X (resetBIOS B H X (resetOverrides H X
            { core with
              glRenderer := glRendererAfterReset B X core,
              videoLogger := loggerAtWrap B X core }))) ∧
      ((∀ gba o, (X.GBAOverrideApply gba o).video = gba.video) →
        (∀ gba o, (X.GBAOverrideApplyDefaults gba o).video = gba.video) →
        (∀ gba vf, (X.GBALoadBIOS gba vf).video = gba.video) →
        (∀ s, (X.ARMReset s).2.video = s.2.video) →
        (∀ s, (X.GBASkipBIOS s).2.video = s.2.video) →
        (∀ s, (X.mTimingInterrupt s).2.video = s.2.video) →
        (_GBACoreReset B H X core).board.video =
          match pipelineRendererSpec core.renderer.outputBuffer.isSome
            (B.BUILD_GLES3 && gpuUsable X core)
            (B.MINIMAL_CORE.isNone && (loggerAtWrap B X core).isSome) with
          | some r => X.GBAVideoAssociateRenderer core.board.video r
          | none => core.board.video)) ∧
    (core.renderer.outputBuffer = none →
      (B.BUILD_GLES3 = true → core.glRenderer.outputTex = 4294967295) →
      _GBACoreReset B H X core =
        resetFinish H X (resetBIOS B H X (resetOverrides H X core))) ∧
    (∀ cpu gba rest, X.initAlloc shell = some (cpu, gba, rest) →
      (_GBACoreInit B X shell).2.board.video =
          X.GBAVideoAssociateRenderer gba.video .dummyRenderer ∧
        _GBACoreReset B H X (_GBACoreInit B X shell).2 =
          resetFinish H X (resetBIOS B H X (resetOverrides H X (_GBACoreInit B X shell).2))) := by
  have hreset : ∀ c : GBACore T, _GBACoreReset B H X c =
      resetFinish H X (resetBIOS B H X (resetOverrides H X (resetRenderer B X c))) :=
    fun _ => rfl
  have hskipped : ∀ c : GBACore T, c.renderer.outputBuffer = none →
      (B.BUILD_GLES3 = true → c.glRenderer.outputTex = 4294967295) →
      resetRenderer B X c = c := by
    intro c hb hg
    have hcond : (c.renderer.outputBuffer.isSome ||
        (B.BUILD_GLES3 && c.glRenderer.outputTex != 4294967295)) = false := by
      cases hB : B.BUILD_GLES3 with
      | false => simp [hb]
      | true => simp [hb, hg hB]
    unfold resetRenderer
    simp only [hcond, Bool.false_eq_true, if_false]
  refine ⟨fun h => ?_, fun hb hg => ?_, fun cpu gba rest hinit => ?_⟩
  · obtain ⟨c1, c2, c3⟩ := resetRenderer_cases B X core h
    obtain ⟨t1, t2, t3⟩ := resetTail_renderers B H X (resetRenderer B X core)
    have hlog : (resetRenderer B X core).videoLogger = loggerAtWrap B X core := by
      cases hp : pipelineRendererSpec core.renderer.outputBuffer.isSome
          (B.BUILD_GLES3 && gpuUsable X core) false with
      | none => rw [c3 hp]
      | some r =>
        by_cases hm : B.MINIMAL_CORE = none
        · cases hl : loggerAtWrap B X core with
          | none => rw [c2 r hp (Or.inr hl), hl]
          | some l => rw [c1 r l hp hm hl]
        · rw [c2 r hp (Or.inl hm)]
    have hgl : (resetRenderer B X core).glRenderer = glRendererAfterReset B X core := by
      cases hp : pipelineRendererSpec core.renderer.outputBuffer.isSome
          (B.BUILD_GLES3 && gpuUsable X core) false with
      | none => rw [c3 hp]
      | some r =>
        by_cases hm : B.MINIMAL_CORE = none
        · cases hl : loggerAtWrap B X core with
          | none => rw [c2 r hp (Or.inr hl)]
          | some l => rw [c1 r l hp hm hl]
        · rw [c2 r hp (Or.inl hm)]
    refine ⟨by rw [hreset, t1, hgl], by rw [hreset, t3, hlog], fun r l hp hm hl => ?_,
      fun r hp hm => ?_, fun hp => ?_, fun hov hod hbios hrst hskip htiming => ?_⟩
    · exact ⟨by rw [hreset, t2, c1 r l hp hm hl], by rw [hreset, c1 r l hp hm hl]⟩
    · exact ⟨by rw [hreset, t2, c2 r hp hm], by rw [hreset, c2 r hp hm]⟩
    · exact ⟨by rw [hreset, t2, c3 hp], by rw [hreset, c3 hp]⟩
    · rw [hreset, resetTail_video B H X _ hov hod hbios hrst hskip htiming]
      obtain ⟨w1, w2⟩ := pipelineRendererSpec_wrap core.renderer.outputBuffer.isSome
        (B.BUILD_GLES3 && gpuUsable X core)
        (B.MINIMAL_CORE.isNone && (loggerAtWrap B X core).isSome)
      cases hp : pipelineRendererSpec core.renderer.outputBuffer.isSome
          (B.BUILD_GLES3 && gpuUsable X core) false with
      | none => rw [c3 hp, w1 hp]
      | some r =>
        rw [w2 r hp]
        by_cases hm : B.MINIMAL_CORE = none
        · cases hl : loggerAtWrap B X core with
          | none =>
            rw [c2 r hp (Or.inr hl)]
            simp
          | some l =>
            rw [c1 r l hp hm hl]
            simp [hm]
        · rw [c2 r hp (Or.inl hm)]
          have hm' : B.MINIMAL_CORE.isNone = false := by
            cases hx : B.MINIMAL_CORE with
            | none => exact absurd hx hm
            | some _ => rfl
          simp [hm']
  · rw [hreset, hskipped core hb hg]
  · have hi : (_GBACoreInit B X shell).2.board.video =
        X.GBAVideoAssociateRenderer gba.video .dummyRenderer := by
      simp [_GBACoreInit, hinit]
    refine ⟨hi, ?_⟩
    rw [hreset, hskipped]
    · simp [_GBACoreInit, hinit]
    · intro hB
      simp [_GBACoreInit, hinit, hB]

/-- Witness of `reset_renderer_pipeline`: on the instance with buffer and GPU
target installed, `hwaccelVideo` and `threadedVideo` true, reset leaves the
GPU scale at 3 and the proxy renderer associated. -/
theorem reset_renderer_pipeline_witness :
    (gpuCore.renderer.outputBuffer.isSome = true ∨
      (fullBuild.BUILD_GLES3 = true ∧ gpuCore.glRenderer.outputTex ≠ 4294967295)) ∧
    (_GBACoreReset fullBuild mgbaBoardHeaders simExt gpuCore).glRenderer.scale = 3 ∧
    (_GBACoreReset fullBuild mgbaBoardHeaders simExt gpuCore).board.video.rest =
      some .proxyRenderer :=
  ⟨Or.inl rfl,
    (congrArg (fun g => g.scale)
      ((reset_renderer_pipeline fullBuild mgbaBoardHeaders simExt gpuCore simCore).1
        (Or.inl rfl)).1).trans (by decide),
    (congrArg (fun v => v.rest)
      (((reset_renderer_pipeline fullBuild mgbaBoardHeaders simExt gpuCore simCore).1
        (Or.inl rfl)).2.2.2.2.2 (fun _ _ => rfl) (fun _ _ => rfl) (fun _ _ => rfl)
        (fun _ => rfl) (fun _ => rfl) (fun _ => rfl))).trans (by decide)⟩

/-- C13, as stated, fails: in a build with `MINIMAL_CORE`, on a facade with a
buffer and a video logger installed, the pipeline of the claim yields the
proxy renderer, but reset associates the software renderer: the wrap is
compiled out. -/
theorem reset_minimal_core_no_proxy :
    bufferLoggerCore.renderer.outputBuffer.isSome = true ∧
    bufferLoggerCore.videoLogger.isSome = true ∧
    (_GBACoreReset minimalBuild mgbaBoardHeaders simExt bufferLoggerCore).videoLogger.isSome =
      true ∧
    pipelineRendererSpec true false true = some .proxyRenderer ∧
    (_GBACoreReset minimalBuild mgbaBoardHeaders simExt bufferLoggerCore).board.video.rest =
      some .renderer := by
  decide

theorem reset_videoLogger {T : Types} (B : Build) (H : BoardHeaders) (X : GBAExt T)
    (core : GBACore T) :
    (_GBACoreReset B H X core).videoLogger = (resetRenderer B X core).videoLogger := by
  simp only [_GBACoreReset, resetPrefix, resetFinish, resetBIOS, resetOverrides]
  split_ifs <;> (try split) <;> rfl

/-- C14, as stated, fails: with `threadedVideo` true, no logger installed and
neither a buffer nor a GPU target installed, reset leaves the facade without
a video logger. -/
theorem reset_no_target_no_thread_proxy :
    simExt.mCoreConfigGetBoolValue threadedCore.config "threadedVideo" = some true ∧
      threadedCore.videoLogger.isNone = true ∧
      (_GBACoreReset fullBuild mgbaBoardHeaders simExt threadedCore).videoLogger.isNone = true := by
  decide

/-- The video logger after the renderer part of reset. -/
theorem resetRenderer_videoLogger {T : Types} (B : Build) (X : GBAExt T) (core : GBACore T) :
    (resetRenderer B X core).videoLogger =
      if (core.renderer.outputBuffer.isSome ||
          (B.BUILD_GLES3 && core.glRenderer.outputTex != 4294967295)) &&
          (!B.DISABLE_THREADING &&
            X.mCoreConfigGetBoolValue core.config "threadedVideo" == some true &&
            core.videoLogger.isNone) then some .threadProxy
      else core.videoLogger := by
  unfold resetRenderer
  by_cases hent : (core.renderer.outputBuffer.isSome ||
      (B.BUILD_GLES3 && core.glRenderer.outputTex != 4294967295)) = true
  · simp only [hent, if_true, Bool.true_and]
    split <;> rfl
  · simp only [hent, Bool.false_eq_true, if_false, Bool.false_and]

/-- C14, amended: in a build with threading, for every facade state in which
a buffer or (with `BUILD_GLES3`) a GPU target is installed, `threadedVideo`
is true in the facade's configuration and no video logger is installed, the
facade's video logger after reset is the built-in thread-proxy logger; and in
every build, when neither a buffer nor a GPU target is installed, the video
logger after reset is the one before it.  The logger is also left as it was
when the build has no threading, when `threadedVideo` is not true, and when a
logger is installed already. -/
theorem reset_installs_thread_proxy {T : Types} (B : Build) (H : BoardHeaders) (X : GBAExt T)
    (core : GBACore T) :
    (B.DISABLE_THREADING = false →
      (core.renderer.outputBuffer.isSome = true ∨
        (B.BUILD_GLES3 = true ∧ core.glRenderer.outputTex ≠ 4294967295)) →
      X.mCoreConfigGetBoolValue core.config "threadedVideo" = some true →
      core.videoLogger = none →
      (_GBACoreReset B H X core).videoLogger = some .threadProxy) ∧
    (core.renderer.outputBuffer = none →
      (B.BUILD_GLES3 = true → core.glRenderer.outputTex = 4294967295) →
      (_GBACoreReset B H X core).videoLogger = core.videoLogger) ∧
    ((B.DISABLE_THREADING = true ∨
        X.mCoreConfigGetBoolValue core.config "threadedVideo" ≠ some true ∨
        core.videoLogger.isSome = true) →
      (_GBACoreReset B H X core).videoLogger = core.videoLogger) := by
  rw [reset_videoLogger, resetRenderer_videoLogger]
  refine ⟨fun hthr h ht hl => ?_, fun hb hg => ?_, fun h => ?_⟩
  · have hcond : (core.renderer.outputBuffer.isSome ||
        (B.BUILD_GLES3 && core.glRenderer.outputTex != 4294967295)) = true := by
      rcases h with h | ⟨h1, h2⟩
      · simp [h]
      · simp [h1, h2]
    simp [hcond, hthr, ht, hl]
  · have hcond : (core.renderer.outputBuffer.isSome ||
        (B.BUILD_GLES3 && core.glRenderer.outputTex != 4294967295)) = false := by
      cases hB : B.BUILD_GLES3 with
      | false => simp [hb]
      | true => simp [hb, hg hB]
    simp [hcond]
  · rcases h with h | h | h
    · simp [h]
    · have : (X.mCoreConfigGetBoolValue core.config "threadedVideo" == some true) = false := by
        simpa using h
      simp [this]
    · have : core.videoLogger.isNone = false := by
        cases hv : core.videoLogger with
        | none => simp [hv] at h
        | some l => rfl
      simp [this]

/-- Witness of `reset_installs_thread_proxy`: on the instance with buffer and
GPU target installed reset installs the thread-proxy logger; on the facade
without buffer and target the logger supplied from outside stays. -/
theorem reset_installs_thread_proxy_witness :
    fullBuild.DISABLE_THREADING = false ∧
      (gpuCore.renderer.outputBuffer.isSome = true ∨
        (fullBuild.BUILD_GLES3 = true ∧ gpuCore.glRenderer.outputTex ≠ 4294967295)) ∧
      simExt.mCoreConfigGetBoolValue gpuCore.config "threadedVideo" = some true ∧
      gpuCore.videoLogger = none ∧
      (_GBACoreReset fullBuild mgbaBoardHeaders simExt gpuCore).videoLogger =
        some .threadProxy ∧
      loggedCore.renderer.outputBuffer = none ∧
      (_GBACoreReset fullBuild mgbaBoardHeaders simExt loggedCore).videoLogger =
        some (.other ()) :=
  ⟨rfl, Or.inl rfl, by decide, rfl,
    (reset_installs_thread_proxy fullBuild mgbaBoardHeaders simExt gpuCore).1 rfl
      (Or.inl rfl) (by decide) rfl,
    rfl,
    (reset_installs_thread_proxy fullBuild mgbaBoardHeaders simExt loggedCore).2.1 rfl
      (fun _ => rfl)⟩

/-- C15, evaluated at a failing input: the software renderer is active, a GPU
target is installed, and `hwaccelVideo` is reloaded from a configuration in
which it is true while the facade's own configuration does not have it; the
software renderer stays associated.  When the facade's own configuration has
`hwaccelVideo` true, the same call associates the GPU renderer. -/
theorem reload_hwaccelVideo_ignores_argument :
    softwareCore.board.video.rest = some .renderer ∧
      (_GBACoreReloadConfigOption fullBuild simExt (_GBACoreSetVideoGLTex fullBuild softwareCore 7)
        (some "hwaccelVideo") (some [("hwaccelVideo", 1)])).board.video.rest = some .renderer ∧
      (_GBACoreReloadConfigOption fullBuild simExt
        { _GBACoreSetVideoGLTex fullBuild softwareCore 7 with config := [("hwaccelVideo", 1)] }
        (some "hwaccelVideo") none).board.video.rest = some .glRenderer := by
  decide

/-! ## Reset: overrides and BIOS -/

theorem or_and_self_right (a b : Nat) : (a ||| b) &&& b = b := by
  apply Nat.eq_of_testBit_eq
  intro i
  simp only [Nat.testBit_and, Nat.testBit_or]
  cases a.testBit i <;> cases b.testBit i <;> rfl

theorem associateIfSet_devices {T : Types} (X : GBAExt T) (gba : GBA T)
    (r : Option RendererRef) (d : Nat) :
    associateIfSet X { gba with devices := d } r =
      { associateIfSet X gba r with devices := d } := by
  cases r <;> rfl

theorem resetRenderer_withDevices {T : Types} (B : Build) (X : GBAExt T) (core : GBACore T)
    (d : Nat) :
    resetRenderer B X (withDevices core d) = withDevices (resetRenderer B X core) d := by
  unfold resetRenderer withDevices
  simp only [selectGLRenderer]
  split_ifs <;> (try split) <;> simp [associateIfSet_devices]

theorem resetOverrides_devices {T : Types} (H : BoardHeaders) (X : GBAExt T)
    (core : GBACore T) :
    (X.mCoreConfigGetBoolValue core.config "gba.forceGbp" = some true →
      (resetOverrides H X core).board.devices =
        (applyOverride X core core.board).devices |||
          H.HW_GB_PLAYER_DETECTION % 4294967296) ∧
    (X.mCoreConfigGetBoolValue core.config "gba.forceGbp" ≠ some true →
      (resetOverrides H X core).board.devices =
        (applyOverride X core
          { core.board with devices := core.board.devices &&& gbPlayerClearMask H }).devices) := by
  constructor
  · intro h
    simp only [resetOverrides, h, Option.getD_some, Bool.not_true, Bool.false_eq_true, if_false,
      if_true]
    split_ifs <;> rfl
  · intro h
    have hf : (X.mCoreConfigGetBoolValue core.config "gba.forceGbp").getD false = false := by
      cases hv : X.mCoreConfigGetBoolValue core.config "gba.forceGbp" with
      | none => rfl
      | some b => cases b with
        | false => rfl
        | true => exact absurd hv h
    simp only [resetOverrides, hf, Bool.not_false, if_true, Bool.false_eq_true, if_false]
    split_ifs <;> rfl

theorem resetOverrides_withDevices {T : Types} (H : BoardHeaders) (X : GBAExt T)
    (core : GBACore T) (d : Nat)
    (h : X.mCoreConfigGetBoolValue core.config "gba.forceGbp" ≠ some true) :
    resetOverrides H X (withDevices core d) =
      resetOverrides H X (withDevices core (d &&& gbPlayerClearMask H)) := by
  have hf : (X.mCoreConfigGetBoolValue core.config "gba.forceGbp").getD false = false := by
    cases hv : X.mCoreConfigGetBoolValue core.config "gba.forceGbp" with
    | none => rfl
    | some b => cases b with
      | false => rfl
      | true => exact absurd hv h
  simp only [resetOverrides, withDevices, hf, Bool.not_false, if_true, Bool.false_eq_true,
    if_false, Nat.and_assoc, Nat.and_self, applyOverride]

theorem resetTail_devices {T : Types} (B : Build) (H : BoardHeaders) (X : GBAExt T)
    (core : GBACore T)
    (hbios : ∀ gba vf, (X.GBALoadBIOS gba vf).devices = gba.devices)
    (hreset : ∀ s, (X.ARMReset s).2.devices = s.2.devices)
    (hskip : ∀ s, (X.GBASkipBIOS s).2.devices = s.2.devices)
    (htiming : ∀ s, (X.mTimingInterrupt s).2.devices = s.2.devices) :
    (resetFinish H X (resetBIOS B H X core)).board.devices = core.board.devices := by
  have h1 : (resetBIOS B H X core).board.devices = core.board.devices := by
    unfold resetBIOS
    split_ifs
    · simp only
      split
      · exact hbios _ _
      · rfl
    · rfl
  rw [← h1]
  simp only [resetFinish, resetBeforeSkip, skipAndInterrupt, htiming]
  split_ifs
  · rw [hskip, hreset]
  · rw [hreset]

/-- A mask ANDed with the 32-bit complement of `k` has no bit of `k`. -/
theorem and_complement32 (a k : Nat) (hk : k < 4294967296) :
    (a &&& (4294967295 - k)) &&& k = 0 := by
  rw [complement32 k hk]
  apply Nat.eq_of_testBit_eq
  intro i
  simp only [Nat.testBit_and, Nat.testBit_xor, Nat.zero_testBit]
  by_cases hi : i < 32
  · have : (4294967295 : Nat).testBit i = true := by
      have h2 : (4294967295 : Nat) = 2 ^ 32 - 1 := by norm_num
      rw [h2, Nat.testBit_two_pow_sub_one]
      simpa using hi
    rw [this]
    cases a.testBit i <;> cases k.testBit i <;> rfl
  · have : k.testBit i = false := by
      apply Nat.testBit_lt_two_pow
      calc k < 2 ^ 32 := by simpa using hk
        _ ≤ 2 ^ i := Nat.pow_le_pow_right (by norm_num) (by omega)
    simp [this]

/-- What the renderer part of reset leaves of the board and of the override
fields: the board with at most another video unit. -/
theorem resetRenderer_board {T : Types} (B : Build) (X : GBAExt T) (core : GBACore T) :
    (resetRenderer B X core).board =
        { core.board with video := (resetRenderer B X core).board.video } ∧
      ((resetRenderer B X core).board.video = core.board.video ∨
        ∃ r, (resetRenderer B X core).board.video =
          X.GBAVideoAssociateRenderer core.board.video r) ∧
      (resetRenderer B X core).hasOverride = core.hasOverride ∧
      (resetRenderer B X core).override = core.override ∧
      (resetRenderer B X core).overrides = core.overrides ∧
      (resetRenderer B X core).config = core.config := by
  unfold resetRenderer
  by_cases hent : (core.renderer.outputBuffer.isSome ||
      (B.BUILD_GLES3 && core.glRenderer.outputTex != 4294967295)) = true
  · simp only [hent, if_true]
    generalize (selectGLRenderer B X core _) = sel
    generalize (if (!B.DISABLE_THREADING &&
        X.mCoreConfigGetBoolValue core.config "threadedVideo" == some true &&
        core.videoLogger.isNone) = true then some LoggerRef.threadProxy
      else core.videoLogger) = logger
    split
    · exact ⟨rfl, Or.inr ⟨_, rfl⟩, rfl, rfl, rfl, rfl⟩
    · cases sel.1 with
      | none => exact ⟨rfl, Or.inl rfl, rfl, rfl, rfl, rfl⟩
      | some r => exact ⟨rfl, Or.inr ⟨r, rfl⟩, rfl, rfl, rfl, rfl⟩
  · simp only [hent]
    exact ⟨rfl, Or.inl rfl, rfl, rfl, rfl, rfl⟩

/-- C16: let the collaborators reset calls after the override application
leave the device mask alone.  If `gba.forceGbp` is true, the device mask
after reset is the mask the override application produced with the
`HW_GB_PLAYER_DETECTION` bit set, so the bit is set after reset whatever
override was applied.  If it is false or absent, the mask after reset is the
one the override application (`GBAOverrideApply` with the manual override if
one was set, `GBAOverrideApplyDefaults` with the default table otherwise)
produces from the board whose mask has the bit cleared.  In both cases the
board the override is applied to is the board before reset with the video
unit the renderer part left.  Without any assumption, when `gba.forceGbp` is
not true the result of reset is the same for a mask `d` and for `d` with the
bit cleared: it does not depend on the bit's value before reset. -/
theorem reset_gb_player_bit {T : Types} (B : Build) (H : BoardHeaders) (X : GBAExt T)
    (core : GBACore T) (d : Nat) :
    ((∀ gba vf, (X.GBALoadBIOS gba vf).devices = gba.devices) →
      (∀ s, (X.ARMReset s).2.devices = s.2.devices) →
      (∀ s, (X.GBASkipBIOS s).2.devices = s.2.devices) →
      (∀ s, (X.mTimingInterrupt s).2.devices = s.2.devices) →
      ∃ video, (video = core.board.video ∨
          ∃ r, video = X.GBAVideoAssociateRenderer core.board.video r) ∧
        (X.mCoreConfigGetBoolValue core.config "gba.forceGbp" = some true →
          (_GBACoreReset B H X core).board.devices =
            (if core.hasOverride = true then
                X.GBAOverrideApply { core.board with video := video } core.override
              else
                X.GBAOverrideApplyDefaults { core.board with video := video }
                  core.overrides).devices |||
              H.HW_GB_PLAYER_DETECTION % 4294967296 ∧
          (_GBACoreReset B H X core).board.devices &&&
              (H.HW_GB_PLAYER_DETECTION % 4294967296) =
            H.HW_GB_PLAYER_DETECTION % 4294967296) ∧
        (X.mCoreConfigGetBoolValue core.config "gba.forceGbp" ≠ some true →
          (_GBACoreReset B H X core).board.devices =
            (if core.hasOverride = true then
                X.GBAOverrideApply
                  { core.board with
                    video := video,
                    devices := core.board.devices &&&
                      (4294967295 - H.HW_GB_PLAYER_DETECTION % 4294967296) }
                  core.override
              else
                X.GBAOverrideApplyDefaults
                  { core.board with
                    video := video,
                    devices := core.board.devices &&&
                      (4294967295 - H.HW_GB_PLAYER_DETECTION % 4294967296) }
                  core.overrides).devices ∧
          (core.board.devices &&& (4294967295 - H.HW_GB_PLAYER_DETECTION % 4294967296)) &&&
              (H.HW_GB_PLAYER_DETECTION % 4294967296) = 0)) ∧
    (X.mCoreConfigGetBoolValue core.config "gba.forceGbp" ≠ some true →
      _GBACoreReset B H X { core with board := { core.board with devices := d } } =
        _GBACoreReset B H X
          { core with
            board := { core.board with
              devices := d &&& (4294967295 - H.HW_GB_PLAYER_DETECTION % 4294967296) } }) := by
  have hcfg : (resetRenderer B X core).config = core.config := by
    simp only [resetRenderer]
    split_ifs <;> (try split) <;> rfl
  constructor
  · intro hbios hreset hskip htiming
    obtain ⟨hb, hv, ho1, ho2, ho3, -⟩ := resetRenderer_board B X core
    have htail : (_GBACoreReset B H X core).board.devices =
        (resetOverrides H X (resetRenderer B X core)).board.devices := by
      unfold _GBACoreReset resetPrefix
      exact resetTail_devices B H X _ hbios hreset hskip htiming
    refine ⟨(resetRenderer B X core).board.video, hv, fun h => ?_, fun h => ?_⟩
    · have h' : X.mCoreConfigGetBoolValue (resetRenderer B X core).config "gba.forceGbp" =
          some true := by rw [hcfg]; exact h
      have hd := (resetOverrides_devices H X (resetRenderer B X core)).1 h'
      have he : (_GBACoreReset B H X core).board.devices =
          (if core.hasOverride = true then
              X.GBAOverrideApply
                { core.board with video := (resetRenderer B X core).board.video } core.override
            else
              X.GBAOverrideApplyDefaults
                { core.board with video := (resetRenderer B X core).board.video }
                core.overrides).devices |||
            H.HW_GB_PLAYER_DETECTION % 4294967296 := by
        rw [htail, hd]
        simp only [applyOverride, ho1, ho2, ho3]
        rw [← hb]
      exact ⟨he, by rw [he, or_and_self_right]⟩
    · have h' : X.mCoreConfigGetBoolValue (resetRenderer B X core).config "gba.forceGbp" ≠
          some true := by rw [hcfg]; exact h
      have hd := (resetOverrides_devices H X (resetRenderer B X core)).2 h'
      refine ⟨?_, and_complement32 _ _ (Nat.mod_lt _ (by norm_num))⟩
      rw [htail, hd]
      simp only [applyOverride, ho1, ho2, ho3, gbPlayerClearMask]
      have hb' : ({ (resetRenderer B X core).board with
            devices := (resetRenderer B X core).board.devices &&&
              (4294967295 - H.HW_GB_PLAYER_DETECTION % 4294967296) } : GBA T) =
          { core.board with
            video := (resetRenderer B X core).board.video,
            devices := core.board.devices &&&
              (4294967295 - H.HW_GB_PLAYER_DETECTION % 4294967296) } := by
        rw [hb]
      rw [hb']
  · intro h
    have h' : X.mCoreConfigGetBoolValue (resetRenderer B X core).config "gba.forceGbp" ≠
        some true := by rw [hcfg]; exact h
    have := resetOverrides_withDevices H X (resetRenderer B X core) d h'
    show _GBACoreReset B H X (withDevices core d) =
      _GBACoreReset B H X (withDevices core (d &&& gbPlayerClearMask H))
    unfold _GBACoreReset resetPrefix
    rw [resetRenderer_withDevices, resetRenderer_withDevices, this]

/-- Witness of `reset_gb_player_bit`: with `gba.forceGbp` true and the manual
override 0x03 the mask after reset is 0x43; without `gba.forceGbp` and
without manual override the mask 0x45 becomes 0x05. -/
theorem reset_gb_player_bit_witness :
    simExt.mCoreConfigGetBoolValue gbpManualCore.config "gba.forceGbp" = some true ∧
    (_GBACoreReset fullBuild mgbaBoardHeaders simExt gbpManualCore).board.devices = 0x43 ∧
    simExt.mCoreConfigGetBoolValue gbpBitCore.config "gba.forceGbp" ≠ some true ∧
    (_GBACoreReset fullBuild mgbaBoardHeaders simExt gbpBitCore).board.devices = 0x05 :=
  ⟨by decide,
    by
      obtain ⟨video, -, h1, -⟩ :=
        (reset_gb_player_bit fullBuild mgbaBoardHeaders simExt gbpManualCore 0).1
          (fun _ _ => rfl) (fun _ => rfl) (fun _ => rfl) (fun _ => rfl)
      rw [(h1 (by decide)).1]
      simp [gbpManualCore, simExt, mgbaBoardHeaders],
    by decide,
    by
      obtain ⟨video, -, -, h2⟩ :=
        (reset_gb_player_bit fullBuild mgbaBoardHeaders simExt gbpBitCore 0).1
          (fun _ _ => rfl) (fun _ => rfl) (fun _ => rfl) (fun _ => rfl)
      rw [(h2 (by decide)).1]
      simp [gbpBitCore, simCore, simBoard, simExt, mgbaBoardHeaders]
      decide⟩

theorem logoBytes_forged :
    logoBytes mgbaBoardHeaders (logoBoard forgedRom) =
      List.replicate 152 0 ++ [209, 132, 88, 120] := by
  decide

theorem logoBytes_flipped :
    logoBytes mgbaBoardHeaders (logoBoard flippedRom) =
      1 :: List.replicate 151 0 ++ [209, 132, 88, 120] := by
  decide

theorem crc_forged : crc32 (List.replicate 152 0 ++ [209, 132, 88, 120]) = 0xD0BEB55E := by
  simp [crc32, crc32Byte, crc32Bit, List.replicate]

theorem crc_flipped :
    crc32 (1 :: List.replicate 151 0 ++ [209, 132, 88, 120]) = 0xCDE37B1A := by
  simp [crc32, crc32Byte, crc32Bit, List.replicate]

theorem crc_forged_off1 : crc32 ((forgedRom.drop 1).take 0x9C) = 0x750214EE := by
  have h : (forgedRom.drop 1).take 0x9C = List.replicate 155 0 ++ [209] := by decide
  rw [h]
  simp [crc32, crc32Byte, crc32Bit, List.replicate]

theorem crc_forged_mod :
    simExt.doCrc32 (logoBytes mgbaBoardHeaders (logoBoard forgedRom)) % 4294967296 =
      LOGO_CRC32 := by
  have e : simExt.doCrc32 = crc32 := rfl
  rw [logoBytes_forged, e, crc_forged]
  rfl

theorem resetForceSkip_eq_spec {T : Types} (H : BoardHeaders) (X : GBAExt T)
    (o : mCoreOptions) (g : GBA T) : resetForceSkip H X o g = biosSkipSpec H X o g := by
  unfold resetForceSkip biosSkipSpec romPresent
  simp only [ge_iff_le]
  cases g.mbVf.isSome <;> cases o.skipBios <;> cases g.romVf.isSome <;>
    cases g.rom.isSome <;> cases g.biosVf.isSome <;>
    by_cases hs : 0xA0 ≤ g.pristineRomSize <;>
    by_cases hc : (X.doCrc32 (logoBytes H g) % 4294967296 != LOGO_CRC32) = true <;>
    simp [hs, hc]

theorem resetForceSkip_logo {T : Types} (H : BoardHeaders) (X : GBAExt T)
    (opts : mCoreOptions) (gba : GBA T) (hb : gba.biosVf.isSome = true)
    (hs : opts.skipBios = false) (hm : gba.mbVf = none) (hr : romPresent gba = true) :
    (X.doCrc32 (logoBytes H gba) % 4294967296 = LOGO_CRC32 →
        resetForceSkip H X opts gba = false) ∧
      (0xA0 ≤ gba.pristineRomSize →
        X.doCrc32 (logoBytes H gba) % 4294967296 ≠ LOGO_CRC32 →
        resetForceSkip H X opts gba = true) := by
  rw [resetForceSkip_eq_spec]
  unfold biosSkipSpec
  simp only [hb, hs, hm, hr]
  constructor
  · intro hc
    simp [hc]
  · intro hsz hc
    simp [hsz, hc]

/-- The parts of reset before `ARMReset` leave the options alone. -/
theorem resetPrefix_opts {T : Types} (B : Build) (H : BoardHeaders) (X : GBAExt T)
    (core : GBACore T) : (resetPrefix B H X core).opts = core.opts := by
  have h1 : ∀ d : GBACore T, (resetBIOS B H X d).opts = d.opts := by
    intro d
    unfold resetBIOS
    split_ifs
    · simp only
      split <;> rfl
    · rfl
  have h2 : ∀ d : GBACore T, (resetOverrides H X d).opts = d.opts := fun _ => rfl
  have h3 : (resetRenderer B X core).opts = core.opts := by
    simp only [resetRenderer]
    split_ifs <;> (try split) <;> rfl
  unfold resetPrefix
  rw [h1, h2, h3]

/-- C17: reset takes the skip decision in the state `ARMReset` leaves, and
the decision is the condition of the specification: a multiboot image is
loaded, or `skipBios` is set and a ROM is present, or a ROM of at least 0xA0
bytes is present together with a loaded BIOS and its logo CRC-32 differs
from 0xD0BEB55E.  When the condition holds reset calls `GBASkipBIOS` on that
state and then `mTimingInterrupt`; when it does not hold reset calls
`mTimingInterrupt` on that state directly.  In particular, with a BIOS
loaded, `skipBios` false, no multiboot image and a ROM present, the BIOS is
not skipped when the logo CRC-32 equals 0xD0BEB55E, and is skipped when the
ROM has at least 0xA0 bytes and the CRC differs. -/
theorem reset_bios_skip_decision {T : Types} (B : Build) (H : BoardHeaders) (X : GBAExt T)
    (core : GBACore T) :
    (biosSkipSpec H X core.opts
          (X.ARMReset ((resetPrefix B H X core).cpu, (resetPrefix B H X core).board)).2 = true →
      _GBACoreReset B H X core =
        { resetPrefix B H X core with
          cpu := (X.mTimingInterrupt (X.GBASkipBIOS
            (X.ARMReset ((resetPrefix B H X core).cpu, (resetPrefix B H X core).board)))).1,
          board := (X.mTimingInterrupt (X.GBASkipBIOS
            (X.ARMReset ((resetPrefix B H X core).cpu, (resetPrefix B H X core).board)))).2 }) ∧
    (biosSkipSpec H X core.opts
          (X.ARMReset ((resetPrefix B H X core).cpu, (resetPrefix B H X core).board)).2 = false →
      _GBACoreReset B H X core =
        { resetPrefix B H X core with
          cpu := (X.mTimingInterrupt
            (X.ARMReset ((resetPrefix B H X core).cpu, (resetPrefix B H X core).board))).1,
          board := (X.mTimingInterrupt
            (X.ARMReset ((resetPrefix B H X core).cpu, (resetPrefix B H X core).board))).2 }) ∧
    (∀ gba, gba = (X.ARMReset ((resetPrefix B H X core).cpu, (resetPrefix B H X core).board)).2 →
      gba.biosVf.isSome = true → core.opts.skipBios = false → gba.mbVf = none →
      (gba.romVf.isSome = true ∨ gba.rom.isSome = true) →
      (X.doCrc32 (logoBytes H gba) % 4294967296 = LOGO_CRC32 →
        _GBACoreReset B H X core =
          { resetPrefix B H X core with
            cpu := (X.mTimingInterrupt
              (X.ARMReset ((resetPrefix B H X core).cpu, (resetPrefix B H X core).board))).1,
            board := (X.mTimingInterrupt
              (X.ARMReset ((resetPrefix B H X core).cpu, (resetPrefix B H X core).board))).2 }) ∧
      (0xA0 ≤ gba.pristineRomSize →
        X.doCrc32 (logoBytes H gba) % 4294967296 ≠ LOGO_CRC32 →
        _GBACoreReset B H X core =
          { resetPrefix B H X core with
            cpu := (X.mTimingInterrupt (X.GBASkipBIOS
              (X.ARMReset ((resetPrefix B H X core).cpu, (resetPrefix B H X core).board)))).1,
            board := (X.mTimingInterrupt (X.GBASkipBIOS
              (X.ARMReset
                ((resetPrefix B H X core).cpu, (resetPrefix B H X core).board)))).2 })) := by
  have hopts := resetPrefix_opts B H X core
  have hyes : biosSkipSpec H X core.opts
        (X.ARMReset ((resetPrefix B H X core).cpu, (resetPrefix B H X core).board)).2 = true →
      _GBACoreReset B H X core =
        { resetPrefix B H X core with
          cpu := (X.mTimingInterrupt (X.GBASkipBIOS
            (X.ARMReset ((resetPrefix B H X core).cpu, (resetPrefix B H X core).board)))).1,
          board := (X.mTimingInterrupt (X.GBASkipBIOS
            (X.ARMReset
              ((resetPrefix B H X core).cpu, (resetPrefix B H X core).board)))).2 } := by
    intro h
    simp only [_GBACoreReset, resetFinish, resetBeforeSkip, skipAndInterrupt,
      resetForceSkip_eq_spec, hopts, h, if_true]
  have hno : biosSkipSpec H X core.opts
        (X.ARMReset ((resetPrefix B H X core).cpu, (resetPrefix B H X core).board)).2 = false →
      _GBACoreReset B H X core =
        { resetPrefix B H X core with
          cpu := (X.mTimingInterrupt
            (X.ARMReset ((resetPrefix B H X core).cpu, (resetPrefix B H X core).board))).1,
          board := (X.mTimingInterrupt
            (X.ARMReset ((resetPrefix B H X core).cpu, (resetPrefix B H X core).board))).2 } := by
    intro h
    simp only [_GBACoreReset, resetFinish, resetBeforeSkip, skipAndInterrupt,
      resetForceSkip_eq_spec, hopts, h, Bool.false_eq_true, if_false]
  refine ⟨hyes, hno, fun gba hg hb hs hm hr => ?_⟩
  subst hg
  have hr' : romPresent (X.ARMReset
      ((resetPrefix B H X core).cpu, (resetPrefix B H X core).board)).2 = true := by
    unfold romPresent
    rcases hr with h | h <;> simp [h]
  obtain ⟨l1, l2⟩ := resetForceSkip_logo H X core.opts _ hb hs hm hr'
  rw [resetForceSkip_eq_spec] at l1 l2
  exact ⟨fun hc => hno (l1 hc), fun hsz hc => hyes (l2 hsz hc)⟩

set_option maxRecDepth 4000 in
/-- The bytes reset checksums on the instance with the image `forgedRom`. -/
theorem logoBytes_reset_forged :
    logoBytes mgbaBoardHeaders
        (skipExt.ARMReset
          ((resetPrefix fullBuild mgbaBoardHeaders skipExt (logoCore forgedRom)).cpu,
            (resetPrefix fullBuild mgbaBoardHeaders skipExt (logoCore forgedRom)).board)).2 =
      List.replicate 152 0 ++ [209, 132, 88, 120] := by
  decide

set_option maxRecDepth 4000 in
/-- The bytes reset checksums on the instance with the image `flippedRom`. -/
theorem logoBytes_reset_flipped :
    logoBytes mgbaBoardHeaders
        (skipExt.ARMReset
          ((resetPrefix fullBuild mgbaBoardHeaders skipExt (logoCore flippedRom)).cpu,
            (resetPrefix fullBuild mgbaBoardHeaders skipExt (logoCore flippedRom)).board)).2 =
      1 :: List.replicate 151 0 ++ [209, 132, 88, 120] := by
  decide

set_option maxRecDepth 4000 in
/-- Witness of `reset_bios_skip_decision`: on the instance whose BIOS skip
puts the program counter at 0x08000000, with a BIOS loaded, `skipBios` false
and no multiboot image, reset leaves the program counter at 0 for the image
`forgedRom`, whose logo CRC-32 is 0xD0BEB55E, and at 0x08000000 for the image
with one logo byte changed. -/
theorem reset_bios_skip_decision_witness :
    (logoCore forgedRom).board.biosVf.isSome = true ∧
    (logoCore forgedRom).opts.skipBios = false ∧ (logoCore forgedRom).board.mbVf = none ∧
    (_GBACoreReset fullBuild mgbaBoardHeaders skipExt (logoCore forgedRom)).cpu.gprs 15 = 0 ∧
    (_GBACoreReset fullBuild mgbaBoardHeaders skipExt (logoCore flippedRom)).cpu.gprs 15 =
      0x08000000 := by
  have e : skipExt.doCrc32 = crc32 := rfl
  refine ⟨rfl, rfl, rfl, ?_, ?_⟩
  · have h := ((reset_bios_skip_decision fullBuild mgbaBoardHeaders skipExt
      (logoCore forgedRom)).2.2 _ rfl (by decide) rfl (by decide) (Or.inl (by decide))).1
      (by rw [logoBytes_reset_forged, e, crc_forged]; rfl)
    rw [h]
    decide
  · have h := ((reset_bios_skip_decision fullBuild mgbaBoardHeaders skipExt
      (logoCore flippedRom)).2.2 _ rfl (by decide) rfl (by decide) (Or.inl (by decide))).2
      (by decide) (by rw [logoBytes_reset_flipped, e, crc_flipped]; decide)
    rw [h]
    decide

theorem crc_flipped_mod :
    simExt.doCrc32 (logoBytes mgbaBoardHeaders (logoBoard flippedRom)) % 4294967296 ≠
      LOGO_CRC32 := by
  have e : simExt.doCrc32 = crc32 := rfl
  rw [logoBytes_flipped, e, crc_flipped]
  decide

set_option maxRecDepth 4000 in
/-- C18, as stated, fails: with the mGBA headers, where `memory.rom` points to
32-bit words, the bytes reset hands to `doCrc32` for the image `forgedRom`
are not the bytes at offsets 1 up to 0x9D; the CRC-32 of those differs from
0xD0BEB55E, and reset still does not skip the BIOS. -/
theorem logo_checksum_not_from_offset_one :
    0xA0 ≤ (logoBoard forgedRom).pristineRomSize ∧
      logoBytes mgbaBoardHeaders (logoBoard forgedRom) ≠ (forgedRom.drop 1).take 0x9C ∧
      simExt.doCrc32 ((forgedRom.drop 1).take 0x9C) % 4294967296 ≠ LOGO_CRC32 ∧
      resetForceSkip mgbaBoardHeaders simExt simCore.opts (logoBoard forgedRom) = false := by
  refine ⟨by decide, by decide, ?_, ?_⟩
  · have e : simExt.doCrc32 = crc32 := rfl
    rw [e, crc_forged_off1]
    decide
  · exact (resetForceSkip_logo mgbaBoardHeaders simExt simCore.opts (logoBoard forgedRom)
      rfl rfl rfl rfl).1 crc_forged_mod

/-- C18, amended: the logo checksum that reset compares with 0xD0BEB55E is
the CRC-32 of exactly the 0x9C bytes of the ROM image that start at
`&memory.rom[1]`, that is at the byte offset `sizeof *memory.rom`; with the
32-bit words of the mGBA headers these are the byte offsets 4 up to and
excluding 0xA0. -/
theorem logo_checksum_bytes {T : Types} (H : BoardHeaders) (X : GBAExt T) (opts : mCoreOptions) (gba : GBA T)
    (bytes : List Nat) (hrom : gba.rom = some bytes)
    (hlen : H.sizeof_rom_element + 0x9C ≤ bytes.length) :
    (logoBytes H gba).length = 0x9C ∧
      (∀ i, i < 0x9C → (logoBytes H gba)[i]? = bytes[H.sizeof_rom_element + i]?) ∧
      (gba.mbVf = none → opts.skipBios = false → gba.biosVf.isSome = true →
        0xA0 ≤ gba.pristineRomSize →
        (resetForceSkip H X opts gba = true ↔
          X.doCrc32 (logoBytes H gba) % 4294967296 ≠ LOGO_CRC32)) ∧
      mgbaBoardHeaders.sizeof_rom_element = 4 := by
  refine ⟨?_, ?_, ?_, rfl⟩
  · simp only [logoBytes, hrom, Option.getD_some, List.length_take, List.length_drop]
    omega
  · intro i hi
    simp only [logoBytes, hrom, Option.getD_some]
    rw [List.getElem?_take_of_lt hi, List.getElem?_drop]
  · intro hm hs hb hsz
    simp only [resetForceSkip, hm, hs, hb, hrom, ge_iff_le, hsz]
    simp

set_option maxRecDepth 4000 in
/-- Witness of `logo_checksum_bytes`: the image `forgedRom` with the mGBA
headers; the last byte of the checksummed range is the byte at offset 0x9F. -/
theorem logo_checksum_bytes_witness :
    (logoBoard forgedRom).rom = some forgedRom ∧
      mgbaBoardHeaders.sizeof_rom_element + 0x9C ≤ forgedRom.length ∧
      (logoBytes mgbaBoardHeaders (logoBoard forgedRom))[0x9B]? = forgedRom[0x9F]? :=
  ⟨rfl, by decide,
    (logo_checksum_bytes mgbaBoardHeaders simExt simCore.opts (logoBoard forgedRom) forgedRom rfl
      (by decide)).2.1 0x9B (by decide)⟩

/-! ## Running a frame -/

theorem elapsed_step {T : Types} (X : GBAExt T) (start : Nat) (s : ARMCore T × GBA T)
    (hstart : start < 4294967296) :
    elapsedCycles X start (X.ARMRunLoop s) =
      (elapsedCycles X start s + burstAdvance X s) % 4294967296 := by
  unfold elapsedCycles burstAdvance
  omega

theorem runBursts_succ {T : Types} (X : GBAExt T) (n : Nat) (s : ARMCore T × GBA T) :
    runBursts X (n + 1) s = runBursts X n (X.ARMRunLoop s) := by
  simp [runBursts, Function.iterate_succ_apply]

theorem runBursts_succ_last {T : Types} (X : GBAExt T) (n : Nat) (s : ARMCore T × GBA T) :
    runBursts X (n + 1) s = X.ARMRunLoop (runBursts X n s) := by
  simp [runBursts, Function.iterate_succ_apply']

theorem runFrameTest_true {T : Types} (H : BoardHeaders) (X : GBAExt T) (fc start : Nat)
    (s : ARMCore T × GBA T) :
    runFrameTest H X fc start s = true ↔
      s.2.video.frameCounter % 4294967296 = fc ∧ elapsedCycles X start s < frameCycleLimit H := by
  simp [runFrameTest]

theorem runFrame_exit_exists {T : Types} (H : BoardHeaders) (X : GBAExt T) (fc start : Nat)
    (hstep : ∀ s, 1 ≤ burstAdvance X s ∧ burstAdvance X s < 2147483648)
    (hL : frameCycleLimit H ≤ 2147483648) (hstart : start < 4294967296) :
    ∀ m s, frameCycleLimit H - elapsedCycles X start s ≤ m →
      ∃ n, n ≤ m ∧ (∀ k, k < n → runFrameTest H X fc start (runBursts X k s) = true) ∧
        runFrameTest H X fc start (runBursts X n s) = false := by
  intro m
  induction m with
  | zero =>
    intro s hs
    refine ⟨0, le_refl _, fun k hk => absurd hk (Nat.not_lt_zero k), ?_⟩
    cases ht : runFrameTest H X fc start (runBursts X 0 s) with
    | false => rfl
    | true =>
      have := ((runFrameTest_true H X fc start _).1 ht).2
      simp only [runBursts, Function.iterate_zero, id_eq] at this
      omega
  | succ m ih =>
    intro s hs
    cases ht : runFrameTest H X fc start s with
    | false => exact ⟨0, Nat.zero_le _, fun k hk => absurd hk (Nat.not_lt_zero k), ht⟩
    | true =>
      have he := ((runFrameTest_true H X fc start _).1 ht).2
      have hd := hstep s
      have hs' : frameCycleLimit H - elapsedCycles X start (X.ARMRunLoop s) ≤ m := by
        rw [elapsed_step X start s hstart]
        omega
      obtain ⟨n, hn, hk, hx⟩ := ih (X.ARMRunLoop s) hs'
      refine ⟨n + 1, by omega, fun k hk' => ?_, by rw [runBursts_succ]; exact hx⟩
      cases k with
      | zero => exact ht
      | succ k => rw [runBursts_succ]; exact hk k (by omega)

theorem runFrameLoop_unroll {T : Types} (H : BoardHeaders) (X : GBAExt T) (fc start : Nat) :
    ∀ n s fuel, (∀ k, k < n → runFrameTest H X fc start (runBursts X k s) = true) →
      runFrameTest H X fc start (runBursts X n s) = false → n < fuel →
      runFrameLoop H X fc start fuel s = some (runBursts X n s) := by
  intro n
  induction n with
  | zero =>
    intro s fuel _ hx hf
    obtain ⟨f, rfl⟩ : ∃ f, fuel = f + 1 := ⟨fuel - 1, by omega⟩
    have hx' : runFrameTest H X fc start s = false := hx
    simp [runFrameLoop, hx', runBursts]
  | succ n ih =>
    intro s fuel hk hx hf
    obtain ⟨f, rfl⟩ : ∃ f, fuel = f + 1 := ⟨fuel - 1, by omega⟩
    have h0 : runFrameTest H X fc start s = true := hk 0 (by omega)
    simp only [runFrameLoop, h0, if_true]
    rw [runBursts_succ]
    apply ih
    · intro k hk'
      rw [← runBursts_succ]
      exact hk (k + 1) (by omega)
    · rw [← runBursts_succ]; exact hx
    · omega

theorem simExt_burst (s : ARMCore simTypes × GBA simTypes) :
    1 ≤ burstAdvance simExt s ∧ burstAdvance simExt s < 2147483648 := by
  have h : burstAdvance simExt s =
      ((s.2.timing + 200000) % 4294967296 + 4294967296 -
        s.2.timing % 4294967296) % 4294967296 := rfl
  rw [h]
  omega

theorem runFrame_result {T : Types} (H : BoardHeaders) (X : GBAExt T) (core : GBACore T)
    (hstep : ∀ s, 1 ≤ burstAdvance X s ∧ burstAdvance X s < 2147483648)
    (hpos : 0 < H.VIDEO_TOTAL_LENGTH + H.VIDEO_HORIZONTAL_LENGTH)
    (hL : H.VIDEO_TOTAL_LENGTH + H.VIDEO_HORIZONTAL_LENGTH ≤ 2147483648) :
    ∃ n, 1 ≤ n ∧ n ≤ H.VIDEO_TOTAL_LENGTH + H.VIDEO_HORIZONTAL_LENGTH ∧
      (∀ fuel, n < fuel →
        _GBACoreRunFrame H X fuel core =
          some { core with
            cpu := (runBursts X n (core.cpu, core.board)).1,
            board := (runBursts X n (core.cpu, core.board)).2 }) ∧
      (∀ k, k < n →
        runFrameTest H X (core.board.video.frameCounter % 4294967296)
          (X.mTimingCurrentTime core.board.timing % 4294967296)
          (runBursts X k (core.cpu, core.board)) = true) ∧
      runFrameTest H X (core.board.video.frameCounter % 4294967296)
        (X.mTimingCurrentTime core.board.timing % 4294967296)
        (runBursts X n (core.cpu, core.board)) = false := by
  have hlim : frameCycleLimit H = H.VIDEO_TOTAL_LENGTH + H.VIDEO_HORIZONTAL_LENGTH := by
    unfold frameCycleLimit
    omega
  have hstart : X.mTimingCurrentTime core.board.timing % 4294967296 < 4294967296 := by omega
  obtain ⟨n, hn, hk, hx⟩ := runFrame_exit_exists H X (core.board.video.frameCounter % 4294967296)
    (X.mTimingCurrentTime core.board.timing % 4294967296) hstep (by omega) hstart
    (frameCycleLimit H) (core.cpu, core.board) (by omega)
  have h0 : runFrameTest H X (core.board.video.frameCounter % 4294967296)
      (X.mTimingCurrentTime core.board.timing % 4294967296) (core.cpu, core.board) = true := by
    rw [runFrameTest_true]
    refine ⟨rfl, ?_⟩
    unfold elapsedCycles
    simp only
    omega
  have hn1 : 1 ≤ n := by
    rcases Nat.eq_zero_or_pos n with h | h
    · subst h
      have hx' : runFrameTest H X (core.board.video.frameCounter % 4294967296)
        (X.mTimingCurrentTime core.board.timing % 4294967296) (core.cpu, core.board) = false := hx
      rw [h0] at hx'
      cases hx'
    · exact h
  refine ⟨n, hn1, by omega, fun fuel hf => ?_, hk, hx⟩
  unfold _GBACoreRunFrame
  simp only [runFrameLoop_unroll H X _ _ n _ fuel hk hx hf]

/-- C19: assuming every burst `ARMRunLoop` advances the timing clock by at
least 1 and fewer than 2^31 cycles (and the bound `VIDEO_TOTAL_LENGTH +
VIDEO_HORIZONTAL_LENGTH` is positive and at most 2^31, as it is in the mGBA
headers), `_GBACoreRunFrame` returns: for some n of at least 1 it returns the
state after exactly n bursts whenever more than n loop tests are allowed; in
that state the frame counter differs from its value on entry or the cycles
elapsed since entry, computed modulo 2^32, are at least the bound; and each of
the n bursts was started in a state where the frame counter was unchanged and
the elapsed cycles were below the bound. -/
theorem runFrame_terminates {T : Types} (H : BoardHeaders) (X : GBAExt T) (core : GBACore T)
    (hstep : ∀ s, 1 ≤ burstAdvance X s ∧ burstAdvance X s < 2147483648)
    (hpos : 0 < H.VIDEO_TOTAL_LENGTH + H.VIDEO_HORIZONTAL_LENGTH)
    (hL : H.VIDEO_TOTAL_LENGTH + H.VIDEO_HORIZONTAL_LENGTH ≤ 2147483648) :
    ∃ n, 1 ≤ n ∧
      (∀ fuel, n < fuel →
        _GBACoreRunFrame H X fuel core =
          some { core with
            cpu := (runBursts X n (core.cpu, core.board)).1,
            board := (runBursts X n (core.cpu, core.board)).2 }) ∧
      ((runBursts X n (core.cpu, core.board)).2.video.frameCounter % 4294967296 ≠
          core.board.video.frameCounter % 4294967296 ∨
        H.VIDEO_TOTAL_LENGTH + H.VIDEO_HORIZONTAL_LENGTH ≤
          elapsedCycles X (X.mTimingCurrentTime core.board.timing % 4294967296)
            (runBursts X n (core.cpu, core.board))) ∧
      (∀ k, k < n →
        (runBursts X k (core.cpu, core.board)).2.video.frameCounter % 4294967296 =
            core.board.video.frameCounter % 4294967296 ∧
          elapsedCycles X (X.mTimingCurrentTime core.board.timing % 4294967296)
              (runBursts X k (core.cpu, core.board)) <
            H.VIDEO_TOTAL_LENGTH + H.VIDEO_HORIZONTAL_LENGTH) := by
  have hlim : frameCycleLimit H = H.VIDEO_TOTAL_LENGTH + H.VIDEO_HORIZONTAL_LENGTH := by
    unfold frameCycleLimit
    omega
  obtain ⟨n, hn1, -, hrun, hk, hx⟩ := runFrame_result H X core hstep hpos hL
  refine ⟨n, hn1, hrun, ?_, fun k hk' => ?_⟩
  · by_cases hfc : (runBursts X n (core.cpu, core.board)).2.video.frameCounter % 4294967296 =
        core.board.video.frameCounter % 4294967296
    · right
      by_contra hlt
      have : runFrameTest H X (core.board.video.frameCounter % 4294967296)
          (X.mTimingCurrentTime core.board.timing % 4294967296)
          (runBursts X n (core.cpu, core.board)) = true := by
        rw [runFrameTest_true]
        exact ⟨hfc, by omega⟩
      rw [hx] at this
      cases this
    · exact Or.inl hfc
  · have := (runFrameTest_true H X _ _ _).1 (hk k hk')
    exact ⟨this.1, by omega⟩

/-- Witness of `runFrame_terminates`: the instance, whose bursts advance the
clock by 200000 cycles, with the mGBA constants. -/
theorem runFrame_terminates_witness :
    (∀ s, 1 ≤ burstAdvance simExt s ∧ burstAdvance simExt s < 2147483648) ∧
      0 < mgbaBoardHeaders.VIDEO_TOTAL_LENGTH + mgbaBoardHeaders.VIDEO_HORIZONTAL_LENGTH ∧
      mgbaBoardHeaders.VIDEO_TOTAL_LENGTH + mgbaBoardHeaders.VIDEO_HORIZONTAL_LENGTH ≤
        2147483648 ∧
      ∃ n, 1 ≤ n ∧ ∀ fuel, n < fuel →
        _GBACoreRunFrame mgbaBoardHeaders simExt fuel simCore =
          some { simCore with
            cpu := (runBursts simExt n (simCore.cpu, simCore.board)).1,
            board := (runBursts simExt n (simCore.cpu, simCore.board)).2 } :=
  ⟨simExt_burst, by decide, by decide,
    (runFrame_terminates mgbaBoardHeaders simExt simCore simExt_burst (by decide) (by decide)).elim
      (fun n h => ⟨n, h.1, h.2.1⟩)⟩

/-- C20, as stated, fails: on the instance the frame counter never advances
and every burst takes 200000 cycles; `_GBACoreRunFrame` returns after two
bursts, when 400000 cycles have elapsed, which is more than
`VIDEO_TOTAL_LENGTH + VIDEO_HORIZONTAL_LENGTH` = 282128. -/
theorem runFrame_overshoots_bound :
    (_GBACoreRunFrame mgbaBoardHeaders simExt 10 simCore).map
        (fun c => (c.board.video.frameCounter, c.board.timing)) = some (0, 400000) ∧
      simCore.board.video.frameCounter = 0 ∧ simCore.board.timing = 0 ∧
      ¬ (400000 ≤ mgbaBoardHeaders.VIDEO_TOTAL_LENGTH +
          mgbaBoardHeaders.VIDEO_HORIZONTAL_LENGTH) := by
  decide

/-- C20, amended: if the frame counter never advances and every burst
advances the clock by at least 1 and fewer than 2^31 cycles,
`_GBACoreRunFrame` returns after a last burst that was started when fewer
than `VIDEO_TOTAL_LENGTH + VIDEO_HORIZONTAL_LENGTH` cycles had elapsed; the
cycles elapsed at return are those elapsed before the last burst plus the
length of that burst, and they are at least the bound. -/
theorem runFrame_watchdog {T : Types} (H : BoardHeaders) (X : GBAExt T) (core : GBACore T)
    (hstep : ∀ s, 1 ≤ burstAdvance X s ∧ burstAdvance X s < 2147483648)
    (hpos : 0 < H.VIDEO_TOTAL_LENGTH + H.VIDEO_HORIZONTAL_LENGTH)
    (hL : H.VIDEO_TOTAL_LENGTH + H.VIDEO_HORIZONTAL_LENGTH ≤ 2147483648)
    (hfc : ∀ s, (X.ARMRunLoop s).2.video.frameCounter = s.2.video.frameCounter) :
    ∃ n,
      (∀ fuel, n + 1 < fuel →
        _GBACoreRunFrame H X fuel core =
          some { core with
            cpu := (runBursts X (n + 1) (core.cpu, core.board)).1,
            board := (runBursts X (n + 1) (core.cpu, core.board)).2 }) ∧
      elapsedCycles X (X.mTimingCurrentTime core.board.timing % 4294967296)
          (runBursts X n (core.cpu, core.board)) <
        H.VIDEO_TOTAL_LENGTH + H.VIDEO_HORIZONTAL_LENGTH ∧
      elapsedCycles X (X.mTimingCurrentTime core.board.timing % 4294967296)
          (runBursts X (n + 1) (core.cpu, core.board)) =
        elapsedCycles X (X.mTimingCurrentTime core.board.timing % 4294967296)
            (runBursts X n (core.cpu, core.board)) +
          burstAdvance X (runBursts X n (core.cpu, core.board)) ∧
      H.VIDEO_TOTAL_LENGTH + H.VIDEO_HORIZONTAL_LENGTH ≤
        elapsedCycles X (X.mTimingCurrentTime core.board.timing % 4294967296)
          (runBursts X (n + 1) (core.cpu, core.board)) := by
  have hlim : frameCycleLimit H = H.VIDEO_TOTAL_LENGTH + H.VIDEO_HORIZONTAL_LENGTH := by
    unfold frameCycleLimit
    omega
  have hstart : X.mTimingCurrentTime core.board.timing % 4294967296 < 4294967296 := by omega
  obtain ⟨m, hm1, -, hrun, hk, hx⟩ := runFrame_result H X core hstep hpos hL
  obtain ⟨n, rfl⟩ : ∃ n, m = n + 1 := ⟨m - 1, by omega⟩
  have hfcn : ∀ k, (runBursts X k (core.cpu, core.board)).2.video.frameCounter =
      core.board.video.frameCounter := by
    intro k
    induction k with
    | zero => rfl
    | succ k ih => rw [runBursts_succ_last, hfc, ih]
  have hprev := ((runFrameTest_true H X _ _ _).1 (hk n (by omega))).2
  have hd := hstep (runBursts X n (core.cpu, core.board))
  have he : elapsedCycles X (X.mTimingCurrentTime core.board.timing % 4294967296)
      (runBursts X (n + 1) (core.cpu, core.board)) =
      elapsedCycles X (X.mTimingCurrentTime core.board.timing % 4294967296)
          (runBursts X n (core.cpu, core.board)) +
        burstAdvance X (runBursts X n (core.cpu, core.board)) := by
    rw [runBursts_succ_last, elapsed_step X _ _ hstart]
    omega
  refine ⟨n, hrun, by omega, he, ?_⟩
  by_contra hlt
  have : runFrameTest H X (core.board.video.frameCounter % 4294967296)
      (X.mTimingCurrentTime core.board.timing % 4294967296)
      (runBursts X (n + 1) (core.cpu, core.board)) = true := by
    rw [runFrameTest_true]
    exact ⟨by rw [hfcn], by omega⟩
  rw [hx] at this
  cases this

/-- Witness of `runFrame_watchdog`: the instance with the mGBA constants. -/
theorem runFrame_watchdog_witness :
    (∀ s, 1 ≤ burstAdvance simExt s ∧ burstAdvance simExt s < 2147483648) ∧
      (∀ s, (simExt.ARMRunLoop s).2.video.frameCounter = s.2.video.frameCounter) ∧
      ∃ n, ∀ fuel, n + 1 < fuel →
        _GBACoreRunFrame mgbaBoardHeaders simExt fuel simCore =
          some { simCore with
            cpu := (runBursts simExt (n + 1) (simCore.cpu, simCore.board)).1,
            board := (runBursts simExt (n + 1) (simCore.cpu, simCore.board)).2 } :=
  ⟨simExt_burst, fun _ => rfl,
    (runFrame_watchdog mgbaBoardHeaders simExt simCore simExt_burst (by decide) (by decide)
      (fun _ => rfl)).elim (fun n h => ⟨n, h.1⟩)⟩

/-! ## Looking up a memory block -/

/-- The lookup of `GBA_REGION_SRAM`: the Flash-1M branch or the fall-through. -/
theorem getMemoryBlock_SRAM {T : Types} (K : Headers) (G : GBA T → Nat) (core : GBACore T) :
    _GBACoreGetMemoryBlock K G core K.GBA_REGION_SRAM =
      if core.board.savedataType = K.GBA_SAVEDATA_FLASH1M then
        (core.board.regions.savedataCurrentBank, some K.GBA_SIZE_FLASH1M)
      else (core.board.regions.savedataData, some (G core.board)) := by
  have h := K.region_nodup
  simp only [List.nodup_cons, List.mem_cons, List.mem_singleton, not_or, List.not_mem_nil,
    not_false_eq_true, List.nodup_nil, and_true] at h
  obtain ⟨⟨-, -, -, -, -, -, -, -, h1, -⟩, ⟨-, -, -, -, -, -, -, h2, -⟩,
    ⟨-, -, -, -, -, -, h3, -⟩, ⟨-, -, -, -, -, h4, -⟩, ⟨-, -, -, -, h5, -⟩,
    ⟨-, -, -, h6, -⟩, ⟨-, -, h7, -⟩, ⟨-, h8, -⟩, ⟨h9, -⟩, -⟩ := h
  simp only [_GBACoreGetMemoryBlock, Ne.symm h1, Ne.symm h2, Ne.symm h3, Ne.symm h4,
    Ne.symm h5, Ne.symm h6, Ne.symm h7, Ne.symm h8, Ne.symm h9, if_false, or_self, true_and,
    true_or, if_true]

/-- The lookup of `GBA_REGION_SRAM_MIRROR`. -/
theorem getMemoryBlock_SRAM_MIRROR {T : Types} (K : Headers) (G : GBA T → Nat)
    (core : GBACore T) :
    _GBACoreGetMemoryBlock K G core K.GBA_REGION_SRAM_MIRROR =
      (core.board.regions.savedataData, some (G core.board)) := by
  have h := K.region_nodup
  simp only [List.nodup_cons, List.mem_cons, List.mem_singleton, not_or, List.not_mem_nil,
    not_false_eq_true, List.nodup_nil, and_true] at h
  obtain ⟨⟨-, -, -, -, -, -, -, -, -, h1⟩, ⟨-, -, -, -, -, -, -, -, h2⟩,
    ⟨-, -, -, -, -, -, -, h3⟩, ⟨-, -, -, -, -, -, h4⟩, ⟨-, -, -, -, -, h5⟩,
    ⟨-, -, -, -, h6⟩, ⟨-, -, -, h7⟩, ⟨-, -, h8⟩, ⟨-, h9⟩, h10⟩ := h
  simp only [_GBACoreGetMemoryBlock, Ne.symm h1, Ne.symm h2, Ne.symm h3, Ne.symm h4,
    Ne.symm h5, Ne.symm h6, Ne.symm h7, Ne.symm h8, Ne.symm h9, Ne.symm h10, if_false,
    or_self, false_and, or_true, if_true]

/-- The blocks of `_GBAMemoryBlocks` other than `mem` and `io`, patched for
the ROM size, are found by `_GBACoreGetMemoryBlock` with their size. -/
theorem getMemoryBlock_base {T : Types} (K : Headers) (G : GBA T → Nat) (core : GBACore T)
    (halloc : regionsAllocated core.board) (b : mCoreMemoryBlock)
    (hb : b ∈ _GBAMemoryBlocks K) (hmem : b.internalName ≠ "mem")
    (hio : b.internalName ≠ "io") :
    ∃ p, _GBACoreGetMemoryBlock K G core (patchROMSize K core.board.romSize b).id =
      (some p, some (patchROMSize K core.board.romSize b).size) := by
  have h := K.region_nodup
  simp only [List.nodup_cons, List.mem_cons, List.mem_singleton, not_or, List.not_mem_nil,
    not_false_eq_true, List.nodup_nil, and_true] at h
  obtain ⟨⟨a1, a2, a3, a4, a5, a6, a7, a8, a9, a10⟩, ⟨b2, b3, b4, b5, b6, b7, b8, b9, b10⟩,
    ⟨c3, c4, c5, c6, c7, c8, c9, c10⟩, ⟨d4, d5, d6, d7, d8, d9, d10⟩,
    ⟨e5, e6, e7, e8, e9, e10⟩, ⟨f6, f7, f8, f9, f10⟩, ⟨g7, g8, g9, g10⟩, ⟨h8, h9, h10⟩,
    ⟨i9, i10⟩, j10⟩ := h
  obtain ⟨x1, x2, x3, x4, x5, x6, x7, x8, x9⟩ := halloc
  obtain ⟨p1, q1⟩ := Option.isSome_iff_exists.1 x1
  obtain ⟨p2, q2⟩ := Option.isSome_iff_exists.1 x2
  obtain ⟨p3, q3⟩ := Option.isSome_iff_exists.1 x3
  obtain ⟨p4, q4⟩ := Option.isSome_iff_exists.1 x4
  obtain ⟨p5, q5⟩ := Option.isSome_iff_exists.1 x5
  obtain ⟨p6, q6⟩ := Option.isSome_iff_exists.1 x6
  obtain ⟨p7, q7⟩ := Option.isSome_iff_exists.1 x7
  simp only [_GBAMemoryBlocks, List.mem_cons, List.mem_singleton, List.not_mem_nil,
    or_false] at hb
  rcases hb with rfl | rfl | rfl | rfl | rfl | rfl | rfl | rfl | rfl | rfl | rfl
  · exact absurd rfl hmem
  · exact ⟨p1, by simp [patchROMSize, isROMRegion, _GBACoreGetMemoryBlock, *]⟩
  · exact ⟨p2, by simp [patchROMSize, isROMRegion, _GBACoreGetMemoryBlock, Ne.symm a1, *]⟩
  · exact ⟨p3, by simp [patchROMSize, isROMRegion, _GBACoreGetMemoryBlock, Ne.symm a1,
      Ne.symm a2, Ne.symm b2, *]⟩
  · exact absurd rfl hio
  · exact ⟨p4, by simp [patchROMSize, isROMRegion, _GBACoreGetMemoryBlock, Ne.symm a3,
      Ne.symm b3, Ne.symm c3, *]⟩
  · exact ⟨p5, by simp [patchROMSize, isROMRegion, _GBACoreGetMemoryBlock, Ne.symm a4,
      Ne.symm b4, Ne.symm c4, Ne.symm d4, *]⟩
  · exact ⟨p6, by simp [patchROMSize, isROMRegion, _GBACoreGetMemoryBlock, Ne.symm a5,
      Ne.symm b5, Ne.symm c5, Ne.symm d5, Ne.symm e5, *]⟩
  · exact ⟨core.board.regions.rom, by simp [patchROMSize, isROMRegion,
      _GBACoreGetMemoryBlock, Ne.symm a6, Ne.symm b6, Ne.symm c6, Ne.symm d6, Ne.symm e6,
      Ne.symm f6, *]⟩
  · exact ⟨core.board.regions.rom, by simp [patchROMSize, isROMRegion,
      _GBACoreGetMemoryBlock, Ne.symm a7, Ne.symm b7, Ne.symm c7, Ne.symm d7, Ne.symm e7,
      Ne.symm f7, *]⟩
  · exact ⟨core.board.regions.rom, by simp [patchROMSize, isROMRegion,
      _GBACoreGetMemoryBlock, Ne.symm a8, Ne.symm b8, Ne.symm c8, Ne.symm d8, Ne.symm e8,
      Ne.symm f8, *]⟩

/-- The lookup reads the board only. -/
theorem getMemoryBlock_congr {T : Types} (K : Headers) (G : GBA T → Nat)
    (c1 c2 : GBACore T) (h : c1.board = c2.board) (id : Int) :
    _GBACoreGetMemoryBlock K G c1 id = _GBACoreGetMemoryBlock K G c2 id := by
  simp only [_GBACoreGetMemoryBlock, h]

/-- The id `GBA_REGION_SRAM_MIRROR` is none of the ROM regions. -/
theorem sram_mirror_not_rom (K : Headers) : isROMRegion K K.GBA_REGION_SRAM_MIRROR = false := by
  have h := K.region_nodup
  simp only [List.nodup_cons, List.mem_cons, List.mem_singleton, not_or, List.not_mem_nil,
    not_false_eq_true, List.nodup_nil, and_true] at h
  obtain ⟨-, -, -, -, -, -, ⟨-, -, -, h7⟩, ⟨-, -, h8⟩, ⟨-, h9⟩, -⟩ := h
  simp [isROMRegion, Ne.symm h7, Ne.symm h8, Ne.symm h9]

/-- The save block of each of the six save-media templates is found by
`_GBACoreGetMemoryBlock` with its size when `GBASavedataSize` is the nominal
size. -/
theorem getMemoryBlock_save {T : Types} (K : Headers) (G : GBA T → Nat) (core : GBACore T)
    (halloc : regionsAllocated core.board)
    (hsize : G core.board = nominalSavedataSize K core.board.savedataType)
    (b : mCoreMemoryBlock)
    (hb : b ∈ memoryBlockTemplate K core.board.savedataType) (hbase : b ∉ _GBAMemoryBlocks K) :
    ∃ p, _GBACoreGetMemoryBlock K G core (patchROMSize K core.board.romSize b).id =
      (some p, some (patchROMSize K core.board.romSize b).size) := by
  obtain ⟨-, -, -, -, -, -, -, x8, x9⟩ := halloc
  obtain ⟨p8, q8⟩ := Option.isSome_iff_exists.1 x8
  obtain ⟨p9, q9⟩ := Option.isSome_iff_exists.1 x9
  have hs := sram_not_rom K
  have hm := sram_mirror_not_rom K
  have hn := K.savedata_nodup
  simp only [List.nodup_cons, List.mem_cons, List.mem_singleton, not_or, List.not_mem_nil,
    not_false_eq_true, List.nodup_nil, and_true] at hn
  obtain ⟨⟨-, -, n1, -, -⟩, ⟨-, n2, -, -⟩, ⟨n3, -, -⟩, -⟩ := hn
  unfold memoryBlockTemplate at hb
  unfold nominalSavedataSize at hsize
  split_ifs at hb hsize with t1 t2 t3 t4 t5 t6
  · simp only [_GBAMemoryBlocksSRAM, List.mem_append, hbase, false_or,
      List.mem_singleton] at hb
    subst hb
    refine ⟨p8, ?_⟩
    simp only [patchROMSize, hs, Bool.false_eq_true, if_false, getMemoryBlock_SRAM, q8,
      hsize, t1, n1]
  · simp only [_GBAMemoryBlocksSRAM512, List.mem_append, hbase, false_or,
      List.mem_singleton] at hb
    subst hb
    refine ⟨p8, ?_⟩
    simp only [patchROMSize, hs, Bool.false_eq_true, if_false, getMemoryBlock_SRAM, q8,
      hsize, t2, n2]
  · simp only [_GBAMemoryBlocksFlash512, List.mem_append, hbase, false_or,
      List.mem_singleton] at hb
    subst hb
    refine ⟨p8, ?_⟩
    simp only [patchROMSize, hs, Bool.false_eq_true, if_false, getMemoryBlock_SRAM, q8,
      hsize, t3, n3]
  · simp only [_GBAMemoryBlocksFlash1M, List.mem_append, hbase, false_or,
      List.mem_singleton] at hb
    subst hb
    refine ⟨p9, ?_⟩
    simp only [patchROMSize, hs, Bool.false_eq_true, if_false, getMemoryBlock_SRAM, t4, q9,
      if_true]
  · simp only [_GBAMemoryBlocksEEPROM, List.mem_append, hbase, false_or,
      List.mem_singleton] at hb
    subst hb
    refine ⟨p8, ?_⟩
    simp only [patchROMSize, hm, Bool.false_eq_true, if_false, getMemoryBlock_SRAM_MIRROR,
      q8, hsize]
  · simp only [_GBAMemoryBlocksEEPROM512, List.mem_append, hbase, false_or,
      List.mem_singleton] at hb
    subst hb
    refine ⟨p8, ?_⟩
    simp only [patchROMSize, hm, Bool.false_eq_true, if_false, getMemoryBlock_SRAM_MIRROR,
      q8, hsize]
  · exact absurd hb hbase

/-- The patch loop keeps the names. -/
theorem patchROMSize_name (K : Headers) (r : Nat) (b : mCoreMemoryBlock) :
    (patchROMSize K r b).internalName = b.internalName := by
  unfold patchROMSize
  split <;> rfl

/-- Every template starts with the blocks of `_GBAMemoryBlocks`; what it adds
is named `sram` or `eeprom`. -/
theorem template_mem (K : Headers) (t : Int) (b : mCoreMemoryBlock) :
    (b ∈ _GBAMemoryBlocks K → b ∈ memoryBlockTemplate K t) ∧
    (b ∈ memoryBlockTemplate K t →
      b ∈ _GBAMemoryBlocks K ∨ b.internalName = "sram" ∨ b.internalName = "eeprom") := by
  unfold memoryBlockTemplate
  split_ifs <;>
    try simp only [_GBAMemoryBlocksSRAM, _GBAMemoryBlocksSRAM512, _GBAMemoryBlocksFlash512,
      _GBAMemoryBlocksFlash1M, _GBAMemoryBlocksEEPROM, _GBAMemoryBlocksEEPROM512,
      List.mem_append, List.mem_singleton]
  all_goals
    refine ⟨fun h => by simp [h], fun h => ?_⟩
    first
      | exact Or.inl h
      | (rcases h with h | rfl
         · exact Or.inl h
         · simp)

/-- The block named `io` of `_GBAMemoryBlocks` has the id `GBA_REGION_IO`. -/
theorem io_block (K : Headers) (b : mCoreMemoryBlock) (hb : b ∈ _GBAMemoryBlocks K)
    (hio : b.internalName = "io") : b.id = K.GBA_REGION_IO := by
  simp only [_GBAMemoryBlocks, List.mem_cons, List.mem_singleton, List.not_mem_nil,
    or_false] at hb
  rcases hb with rfl | rfl | rfl | rfl | rfl | rfl | rfl | rfl | rfl | rfl | rfl <;>
    first | rfl | simp at hio

/-- The template `_GBAMemoryBlocks` has a block named `io`. -/
theorem io_block_mem (K : Headers) : ∃ b ∈ _GBAMemoryBlocks K, b.internalName = "io" := by
  simp [_GBAMemoryBlocks]

/-- C28 (amended): when the listing rebuilds the vector, the board's memory is
allocated and `GBASavedataSize` is the nominal size of the save type, every
listed block other than `mem` and `io` is found by `_GBACoreGetMemoryBlock`
under its id, with a non-null pointer and the size the listing gives; when
`GBA_REGION_IO` is none of the `case` labels, the lookup of the `io` block
returns null and stores no size. -/
theorem listing_lookup_agree {T : Types} (K : Headers) (G : GBA T → Nat) (core : GBACore T)
    (hrebuild : core.memoryBlockType ≠ core.board.savedataType)
    (halloc : regionsAllocated core.board)
    (hsize : G core.board = nominalSavedataSize K core.board.savedataType) :
    (∀ b ∈ listedBlocks (_GBACoreListMemoryBlocks K core),
      b.internalName ≠ "mem" → b.internalName ≠ "io" →
      ∃ p, _GBACoreGetMemoryBlock K G (_GBACoreListMemoryBlocks K core).1 b.id =
        (some p, some b.size)) ∧
    (K.GBA_REGION_IO ∉ [K.GBA_REGION_BIOS, K.GBA_REGION_EWRAM, K.GBA_REGION_IWRAM,
        K.GBA_REGION_PALETTE_RAM, K.GBA_REGION_VRAM, K.GBA_REGION_OAM, K.GBA_REGION_ROM0,
        K.GBA_REGION_ROM1, K.GBA_REGION_ROM2, K.GBA_REGION_SRAM, K.GBA_REGION_SRAM_MIRROR] →
      (∃ b ∈ listedBlocks (_GBACoreListMemoryBlocks K core), b.internalName = "io") ∧
      ∀ b ∈ listedBlocks (_GBACoreListMemoryBlocks K core), b.internalName = "io" →
        _GBACoreGetMemoryBlock K G (_GBACoreListMemoryBlocks K core).1 b.id =
          (none, none)) := by
  obtain ⟨hl, -, -, hboard, -, -⟩ := listMemoryBlocks_rebuild K core hrebuild
  rw [hl]
  constructor
  · intro b hb hmem hio
    obtain ⟨b0, hb0, rfl⟩ := List.mem_map.1 hb
    rw [patchROMSize_name] at hmem hio
    rw [getMemoryBlock_congr K G _ core hboard]
    by_cases hbase : b0 ∈ _GBAMemoryBlocks K
    · exact getMemoryBlock_base K G core halloc b0 hbase hmem hio
    · exact getMemoryBlock_save K G core halloc hsize b0 hb0 hbase
  · intro hIO
    simp only [List.mem_cons, List.mem_singleton, List.not_mem_nil, or_false, not_or] at hIO
    obtain ⟨i1, i2, i3, i4, i5, i6, i7, i8, i9, i10, i11⟩ := hIO
    have hrom : isROMRegion K K.GBA_REGION_IO = false := by simp [isROMRegion, i7, i8, i9]
    constructor
    · obtain ⟨b, hb, hn⟩ := io_block_mem K
      exact ⟨_, List.mem_map.2 ⟨b, (template_mem K _ b).1 hb, rfl⟩,
        by rw [patchROMSize_name]; exact hn⟩
    · intro b hb hio
      obtain ⟨b0, hb0, rfl⟩ := List.mem_map.1 hb
      rw [patchROMSize_name] at hio
      have hbase : b0 ∈ _GBAMemoryBlocks K := by
        rcases (template_mem K _ b0).2 hb0 with h | h | h
        · exact h
        · rw [hio] at h; exact absurd h (by decide)
        · rw [hio] at h; exact absurd h (by decide)
      have hid := io_block K b0 hbase hio
      simp [patchROMSize, hid, hrom, _GBACoreGetMemoryBlock, i1, i2, i3, i4, i5, i6, i7, i8,
        i9, i10, i11]

/-- Witness of `listing_lookup_agree`: the facade `allocatedCore` with the
mGBA constants and the nominal save size; its cached tag -2 differs from the
save type 0, so the listing rebuilds. -/
theorem listing_lookup_agree_witness :
    (∀ b ∈ listedBlocks (_GBACoreListMemoryBlocks mgbaHeaders allocatedCore),
      b.internalName ≠ "mem" → b.internalName ≠ "io" →
      ∃ p, _GBACoreGetMemoryBlock mgbaHeaders
          (fun gba => nominalSavedataSize mgbaHeaders gba.savedataType)
          (_GBACoreListMemoryBlocks mgbaHeaders allocatedCore).1 b.id =
        (some p, some b.size)) ∧
    (mgbaHeaders.GBA_REGION_IO ∉ [mgbaHeaders.GBA_REGION_BIOS, mgbaHeaders.GBA_REGION_EWRAM,
        mgbaHeaders.GBA_REGION_IWRAM, mgbaHeaders.GBA_REGION_PALETTE_RAM,
        mgbaHeaders.GBA_REGION_VRAM, mgbaHeaders.GBA_REGION_OAM, mgbaHeaders.GBA_REGION_ROM0,
        mgbaHeaders.GBA_REGION_ROM1, mgbaHeaders.GBA_REGION_ROM2, mgbaHeaders.GBA_REGION_SRAM,
        mgbaHeaders.GBA_REGION_SRAM_MIRROR] →
      (∃ b ∈ listedBlocks (_GBACoreListMemoryBlocks mgbaHeaders allocatedCore),
        b.internalName = "io") ∧
      ∀ b ∈ listedBlocks (_GBACoreListMemoryBlocks mgbaHeaders allocatedCore),
        b.internalName = "io" →
        _GBACoreGetMemoryBlock mgbaHeaders
            (fun gba => nominalSavedataSize mgbaHeaders gba.savedataType)
            (_GBACoreListMemoryBlocks mgbaHeaders allocatedCore).1 b.id =
          (none, none)) :=
  listing_lookup_agree mgbaHeaders _ allocatedCore (by decide)
    (by unfold regionsAllocated; decide) (by decide)

/-- C28, as stated, fails: on the facade `allocatedCore`, whose board has
every region allocated, the listing returns the block `io` with the id
`GBA_REGION_IO`, which is not the block `mem`, and `_GBACoreGetMemoryBlock`
answers that id with a null pointer and stores no size. -/
theorem getMemoryBlock_io_is_null :
    regionsAllocated allocatedCore.board ∧
    ∃ b, (listedBlocks (_GBACoreListMemoryBlocks mgbaHeaders allocatedCore))[4]? = some b ∧
      b.internalName = "io" ∧ b.internalName ≠ "mem" ∧ b.id = mgbaHeaders.GBA_REGION_IO ∧
      b.size = 0x400 ∧
      _GBACoreGetMemoryBlock mgbaHeaders
          (fun gba => nominalSavedataSize mgbaHeaders gba.savedataType)
          (_GBACoreListMemoryBlocks mgbaHeaders allocatedCore).1 b.id = (none, none) :=
  ⟨by unfold regionsAllocated; decide, _, rfl, rfl, by decide, rfl, rfl, by decide⟩

/-- C26: on a Flash-1M board `_GBACoreGetMemoryBlock` answers the id
`GBA_REGION_SRAM` with the pointer `savedata.currentBank` and the size
`GBA_SIZE_FLASH1M`; on other save types, and for the id
`GBA_REGION_SRAM_MIRROR`, with `savedata.data` and `GBASavedataSize`.  On the
board `flashBank1Board`, whose 0x20000 bytes of save data start at 0x90000
and whose second bank (at 0xA0000) is selected, the reported region is
0x20000 bytes from 0xA0000: it ends at 0xC0000, 0x10000 bytes behind the end
of the save data at 0xB0000. -/
theorem getMemoryBlock_flash1M_bank1_overruns :
    (∀ (T : Types) (K : Headers) (G : GBA T → Nat) (core : GBACore T),
      (core.board.savedataType = K.GBA_SAVEDATA_FLASH1M →
        _GBACoreGetMemoryBlock K G core K.GBA_REGION_SRAM =
          (core.board.regions.savedataCurrentBank, some K.GBA_SIZE_FLASH1M)) ∧
      (core.board.savedataType ≠ K.GBA_SAVEDATA_FLASH1M →
        _GBACoreGetMemoryBlock K G core K.GBA_REGION_SRAM =
          (core.board.regions.savedataData, some (G core.board))) ∧
      _GBACoreGetMemoryBlock K G core K.GBA_REGION_SRAM_MIRROR =
        (core.board.regions.savedataData, some (G core.board))) ∧
    flashBank1Board.regions.savedataData = some 0x90000 ∧
    _GBACoreGetMemoryBlock mgbaHeaders
        (fun gba => nominalSavedataSize mgbaHeaders gba.savedataType)
        { simCore with board := flashBank1Board } mgbaHeaders.GBA_REGION_SRAM =
      (some 0xA0000, some 0x20000) ∧
    0x90000 + mgbaHeaders.GBA_SIZE_FLASH1M = 0xB0000 ∧
    ¬ (0xA0000 + 0x20000 ≤ 0x90000 + mgbaHeaders.GBA_SIZE_FLASH1M) := by
  refine ⟨fun T K G core => ⟨fun h => ?_, fun h => ?_, getMemoryBlock_SRAM_MIRROR K G core⟩,
    rfl, ?_, by decide, by decide⟩
  · rw [getMemoryBlock_SRAM, if_pos h]
  · rw [getMemoryBlock_SRAM, if_neg h]
  · decide

/-! ## The catalog templates -/

/-- C29: in the template `_GBAMemoryBlocksEEPROM512`, with the constants of
the mGBA headers, the twelfth block (`eeprom`) has the window
`[0, GBA_SIZE_EEPROM)` of 0x2000 bytes and one bank, but the size field
`GBA_SIZE_EEPROM512`, 0x200; every other block of the seven templates has
the size `(end - start) * (maxSegment + 1)`. -/
theorem eeprom512_size_differs_from_window :
    (∃ b, (_GBAMemoryBlocksEEPROM512 mgbaHeaders)[11]? = some b ∧
      b.internalName = "eeprom" ∧ b.size = 0x200 ∧
      (b.end_ - b.start) * (b.maxSegment + 1) = 0x2000) ∧
    (∀ b ∈ _GBAMemoryBlocks mgbaHeaders ++ _GBAMemoryBlocksSRAM mgbaHeaders ++
        _GBAMemoryBlocksSRAM512 mgbaHeaders ++ _GBAMemoryBlocksFlash512 mgbaHeaders ++
        _GBAMemoryBlocksFlash1M mgbaHeaders ++ _GBAMemoryBlocksEEPROM mgbaHeaders ++
        (_GBAMemoryBlocksEEPROM512 mgbaHeaders).take 11,
      b.size = (b.end_ - b.start) * (b.maxSegment + 1)) := by
  constructor
  · exact ⟨_, rfl, rfl, rfl, rfl⟩
  · decide

/-- C30: with the constants of the mGBA headers the twelfth block of the
templates `_GBAMemoryBlocksSRAM` and `_GBAMemoryBlocksSRAM512` has the id
`GBA_REGION_SRAM` and the flags 1 (the initializer `true`), which is
`mCORE_MEMORY_READ` and does not include `mCORE_MEMORY_RW`; the save blocks
of the Flash and EEPROM templates do include it. -/
theorem sram_block_flags_lack_write :
    (∀ t ∈ [_GBAMemoryBlocksSRAM mgbaHeaders, _GBAMemoryBlocksSRAM512 mgbaHeaders],
      ∃ b, t[11]? = some b ∧ b.id = mgbaHeaders.GBA_REGION_SRAM ∧ b.flags = 1 ∧
        b.flags = mgbaHeaders.mCORE_MEMORY_READ ∧
        b.flags &&& mgbaHeaders.mCORE_MEMORY_RW ≠ mgbaHeaders.mCORE_MEMORY_RW) ∧
    (∀ t ∈ [_GBAMemoryBlocksFlash512 mgbaHeaders, _GBAMemoryBlocksFlash1M mgbaHeaders,
        _GBAMemoryBlocksEEPROM mgbaHeaders, _GBAMemoryBlocksEEPROM512 mgbaHeaders],
      ∃ b, t[11]? = some b ∧
        b.flags &&& mgbaHeaders.mCORE_MEMORY_RW = mgbaHeaders.mCORE_MEMORY_RW) := by
  constructor
  · intro t ht
    simp only [List.mem_cons, List.mem_singleton, List.not_mem_nil, or_false] at ht
    rcases ht with rfl | rfl
    · exact ⟨_, rfl, rfl, rfl, rfl, by decide⟩
    · exact ⟨_, rfl, rfl, rfl, rfl, by decide⟩
  · intro t ht
    simp only [List.mem_cons, List.mem_singleton, List.not_mem_nil, or_false] at ht
    rcases ht with rfl | rfl | rfl | rfl
    · exact ⟨_, rfl, by decide⟩
    · exact ⟨_, rfl, by decide⟩
    · exact ⟨_, rfl, by decide⟩
    · exact ⟨_, rfl, by decide⟩

/-! ## Reading the registers of the catalog -/

/-- The names `r0` to `r15` are read. -/
theorem read_regName_isSome {T : Types} (L : CLib) (A : ARMExt T) (core : GBACore T)
    (i : Nat) (hi : i ≤ 15) :
    (_GBACoreReadRegister L A core ('r' :: Nat.toDigits 10 i)).1.isSome = true := by
  rw [read_r, readNumeric, parseRegId_toDigits L i hi]
  rfl

/-- The names and aliases of the catalog, in order. -/
theorem catalog_names :
    (_GBARegisters.map (fun info => info.name :: info.aliases)).flatten =
      ((List.range 13).map fun i => String.mk ('r' :: Nat.toDigits 10 i)) ++
      ["ip", "sp", String.mk ('r' :: Nat.toDigits 10 13), "lr",
        String.mk ('r' :: Nat.toDigits 10 14), "pc", String.mk ('r' :: Nat.toDigits 10 15),
        "cpsr", "spsr", "spsr_irq", "spsr_fiq", "spsr_svc", "spsr_abt", "spsr_und"] := by
  decide

/-- C27: the catalog `_GBARegisters` publishes the names `spsr`, `spsr_irq`,
`spsr_fiq`, `spsr_svc`, `spsr_abt` and `spsr_und`, and `_GBACoreReadRegister`
returns false for each of them, leaving the facade as it was (the branch for
the initial `s` accepts `sp` and `SP` only); every other name and alias of the
catalog is read. -/
theorem readRegister_spsr_unreadable {T : Types} (L : CLib) (A : ARMExt T)
    (core : GBACore T) :
    (∀ n ∈ ["spsr", "spsr_irq", "spsr_fiq", "spsr_svc", "spsr_abt", "spsr_und"],
      (∃ info ∈ (_GBACoreListRegisters core).1, info.name = n) ∧
      _GBACoreReadRegister L A core n.toList = (none, core)) ∧
    (∀ info ∈ (_GBACoreListRegisters core).1, ∀ n ∈ info.name :: info.aliases,
      n ∉ ["spsr", "spsr_irq", "spsr_fiq", "spsr_svc", "spsr_abt", "spsr_und"] →
      (_GBACoreReadRegister L A core n.toList).1.isSome = true) := by
  constructor
  · intro n hn
    simp only [List.mem_cons, List.mem_singleton, List.not_mem_nil, or_false] at hn
    refine ⟨?_, ?_⟩
    · rcases hn with rfl | rfl | rfl | rfl | rfl | rfl <;>
        simp [_GBACoreListRegisters, _GBARegisters]
    · rcases hn with rfl | rfl | rfl | rfl | rfl | rfl <;>
        simp [_GBACoreReadRegister]
  · intro info hinfo n hn hns
    have hmem : n ∈ (_GBARegisters.map (fun info => info.name :: info.aliases)).flatten := by
      simp only [List.mem_flatten, List.mem_map]
      exact ⟨_, ⟨info, hinfo, rfl⟩, hn⟩
    rw [catalog_names] at hmem
    simp only [List.mem_append, List.mem_map, List.mem_range, List.mem_cons,
      List.mem_singleton, List.not_mem_nil, or_false] at hmem
    simp only [List.mem_cons, List.mem_singleton, List.not_mem_nil, or_false, not_or] at hns
    rcases hmem with ⟨i, hi, rfl⟩ | rfl | rfl | rfl | rfl | rfl | rfl | rfl | rfl | h
    · exact read_regName_isSome L A core i (by omega)
    · simp [_GBACoreReadRegister]
    · simp [_GBACoreReadRegister]
    · exact read_regName_isSome L A core 13 (by omega)
    · simp [_GBACoreReadRegister]
    · exact read_regName_isSome L A core 14 (by omega)
    · simp [_GBACoreReadRegister]
    · exact read_regName_isSome L A core 15 (by omega)
    · simp [_GBACoreReadRegister]
    · rcases h with rfl | rfl | rfl | rfl | rfl | rfl <;> simp at hns

/-! ## Looking up an identifier -/

/-- The test of the loop body, spelled out. -/
theorem ioNameMatches_iff (H : IOHeaders) (name : String) (k : Nat) :
    ioNameMatches H name k = true ↔
      ∃ reg, H.GBAIORegisterNames[k]? = some (some reg) ∧ strcasecmpEq reg name = true := by
  unfold ioNameMatches
  split
  · next reg h => simp [h]
  · next h =>
    constructor
    · intro hf; exact absurd hf (by simp)
    · rintro ⟨reg, hr, -⟩; exact absurd hr (h reg)

/-- What the loop of `_GBACoreLookupIdentifier` yields from the even counter
value `2 * k` on. -/
theorem lookupLoop_spec (K : Headers) (H : IOHeaders) (name : String) (n k v : Nat) :
    lookupLoop K H name n (2 * k) = some v ↔
      ∃ m, k ≤ m ∧ m < k + n ∧ 2 * m < H.GBA_REG_MAX ∧ ioNameMatches H name m = true ∧
        (∀ j, k ≤ j → j < m → ioNameMatches H name j = false) ∧
        v = K.GBA_BASE_IO ||| (2 * m) := by
  induction n generalizing k with
  | zero =>
    simp only [lookupLoop, add_zero]
    constructor
    · intro h; exact absurd h (by simp)
    · rintro ⟨m, h1, h2, -⟩; omega
  | succ n ih =>
    have hshift : (2 * k) >>> 1 = k := by
      rw [Nat.shiftRight_eq_div_pow]; omega
    rw [lookupLoop]
    by_cases hlt : 2 * k < H.GBA_REG_MAX
    · rw [if_pos hlt, hshift]
      by_cases hm : ioNameMatches H name k = true
      · rw [if_pos hm]
        constructor
        · intro h
          refine ⟨k, le_refl _, by omega, hlt, hm, fun j h1 h2 => by omega, ?_⟩
          exact (Option.some.inj h).symm
        · rintro ⟨m, h1, -, -, -, h5, rfl⟩
          have : m = k := by
            by_contra hne
            have := h5 k (le_refl _) (by omega)
            rw [hm] at this
            exact absurd this (by simp)
          rw [this]
      · rw [if_neg hm]
        have e : 2 * k + 2 = 2 * (k + 1) := by ring
        rw [e, ih (k + 1)]
        have hm' : ioNameMatches H name k = false := by simpa using hm
        constructor
        · rintro ⟨m, h1, h2, h3, h4, h5, h6⟩
          refine ⟨m, by omega, by omega, h3, h4, fun j hj1 hj2 => ?_, h6⟩
          by_cases hjk : j = k
          · rw [hjk]; exact hm'
          · exact h5 j (by omega) hj2
        · rintro ⟨m, h1, h2, h3, h4, h5, h6⟩
          have hmk : m ≠ k := by
            rintro rfl
            exact hm h4
          exact ⟨m, by omega, by omega, h3, h4, fun j hj1 hj2 => h5 j (by omega) hj2, h6⟩
    · rw [if_neg hlt]
      constructor
      · intro h; exact absurd h (by simp)
      · rintro ⟨m, h1, -, h3, -⟩; omega

/-- C24: when the register-name table has an entry for every even offset
below `GBA_REG_MAX` and no further entry, `_GBACoreLookupIdentifier` stores -1
through `segment`; it returns true exactly when some non-null entry of the
table equals the name ignoring case; and the value it then stores is
`GBA_BASE_IO | 2k` for the smallest index `k` of such an entry, `2k` being an
even offset below `GBA_REG_MAX`. -/
theorem lookupIdentifier_spec (K : Headers) (H : IOHeaders) (name : String)
    (hlo : H.GBA_REG_MAX ≤ 2 * H.GBAIORegisterNames.length)
    (hhi : 2 * H.GBAIORegisterNames.length ≤ H.GBA_REG_MAX + 1) :
    (_GBACoreLookupIdentifier K H name).2 = -1 ∧
    ((_GBACoreLookupIdentifier K H name).1.isSome = true ↔
      ∃ (k : Nat) (reg : String), H.GBAIORegisterNames[k]? = some (some reg) ∧
        strcasecmpEq reg name = true) ∧
    (∀ v, (_GBACoreLookupIdentifier K H name).1 = some v →
      ∃ (k : Nat) (reg : String), H.GBAIORegisterNames[k]? = some (some reg) ∧
        strcasecmpEq reg name = true ∧
        (∀ j < k, ∀ reg', H.GBAIORegisterNames[j]? = some (some reg') →
          strcasecmpEq reg' name = false) ∧
        v = K.GBA_BASE_IO ||| (2 * k) ∧ 2 * k % 2 = 0 ∧ 2 * k < H.GBA_REG_MAX) := by
  have hfound : ∀ v, (_GBACoreLookupIdentifier K H name).1 = some v →
      ∃ (k : Nat) (reg : String), H.GBAIORegisterNames[k]? = some (some reg) ∧
        strcasecmpEq reg name = true ∧
        (∀ j < k, ∀ reg', H.GBAIORegisterNames[j]? = some (some reg') →
          strcasecmpEq reg' name = false) ∧
        v = K.GBA_BASE_IO ||| (2 * k) ∧ 2 * k % 2 = 0 ∧ 2 * k < H.GBA_REG_MAX := by
    intro v hv
    have hv' : lookupLoop K H name (H.GBA_REG_MAX + 1) (2 * 0) = some v := hv
    obtain ⟨m, -, -, h3, h4, h5, h6⟩ := (lookupLoop_spec K H name _ 0 v).1 hv'
    obtain ⟨reg, hr1, hr2⟩ := (ioNameMatches_iff H name m).1 h4
    refine ⟨m, reg, hr1, hr2, fun j hj reg' hreg' => ?_, h6, by omega, h3⟩
    have hj' := h5 j (Nat.zero_le _) hj
    by_contra hc
    have : ioNameMatches H name j = true :=
      (ioNameMatches_iff H name j).2 ⟨reg', hreg', by simpa using hc⟩
    rw [hj'] at this
    exact absurd this (by simp)
  refine ⟨rfl, ⟨fun h => ?_, ?_⟩, hfound⟩
  · obtain ⟨v, hv⟩ := Option.isSome_iff_exists.1 h
    obtain ⟨k, reg, h1, h2, -⟩ := hfound v hv
    exact ⟨k, reg, h1, h2⟩
  · rintro ⟨k0, reg, h1, h2⟩
    have hex : ∃ m, ioNameMatches H name m = true :=
      ⟨k0, (ioNameMatches_iff H name k0).2 ⟨reg, h1, h2⟩⟩
    have hk0 : k0 < H.GBAIORegisterNames.length := by
      by_contra hc
      rw [List.getElem?_eq_none (by omega)] at h1
      exact absurd h1 (by simp)
    have hmin := Nat.find_spec hex
    have hle : Nat.find hex ≤ k0 := Nat.find_min' hex ((ioNameMatches_iff H name k0).2 ⟨reg, h1, h2⟩)
    have : lookupLoop K H name (H.GBA_REG_MAX + 1) (2 * 0) =
        some (K.GBA_BASE_IO ||| (2 * Nat.find hex)) := by
      rw [lookupLoop_spec]
      refine ⟨Nat.find hex, Nat.zero_le _, by omega, by omega, hmin, fun j _ hj => ?_, rfl⟩
      have := Nat.find_min hex hj
      simpa using this
    show (lookupLoop K H name (H.GBA_REG_MAX + 1) 0).isSome = true
    rw [show (0 : Nat) = 2 * 0 from rfl, this]
    rfl

/-- Witness of `lookupIdentifier_spec`: the table `simIO` and the name
`dispstat`, which matches the entry 2 and yields `GBA_BASE_IO | 4`. -/
theorem lookupIdentifier_spec_witness :
    _GBACoreLookupIdentifier mgbaHeaders simIO "dispstat" = (some 0x04000004, -1) ∧
    (_GBACoreLookupIdentifier mgbaHeaders simIO "dispstat").2 = -1 ∧
    ((_GBACoreLookupIdentifier mgbaHeaders simIO "dispstat").1.isSome = true ↔
      ∃ (k : Nat) (reg : String), simIO.GBAIORegisterNames[k]? = some (some reg) ∧
        strcasecmpEq reg "dispstat" = true) ∧
    (∀ v, (_GBACoreLookupIdentifier mgbaHeaders simIO "dispstat").1 = some v →
      ∃ (k : Nat) (reg : String), simIO.GBAIORegisterNames[k]? = some (some reg) ∧
        strcasecmpEq reg "dispstat" = true ∧
        (∀ j < k, ∀ reg', simIO.GBAIORegisterNames[j]? = some (some reg') →
          strcasecmpEq reg' "dispstat" = false) ∧
        v = mgbaHeaders.GBA_BASE_IO ||| (2 * k) ∧ 2 * k % 2 = 0 ∧
        2 * k < simIO.GBA_REG_MAX) :=
  ⟨by decide, lookupIdentifier_spec mgbaHeaders simIO "dispstat" (by decide) (by decide)⟩

/-! ## Cheat-device hot-plug -/

/-- A successful init leaves the cheat-device pointer and the slot null. -/
theorem init_cheat_fields {T : Types} (B : Build) (X : GBAExt T) (shell : GBACore T)
    (hinit : (_GBACoreInit B X shell).1 = true) :
    (_GBACoreInit B X shell).2.cheatDevice = none ∧
      (_GBACoreInit B X shell).2.componentsCheatDevice = none := by
  unfold _GBACoreInit at *
  cases h : X.initAlloc shell with
  | none => simp [h] at hinit
  | some r => exact ⟨rfl, rfl⟩

/-- The call `cheatDevice` keeps slot and pointer equal. -/
theorem cheatDevice_slot {T : Types} (C : CheatExt T) (core : GBACore T)
    (h : core.componentsCheatDevice = core.cheatDevice) :
    (_GBACoreCheatDevice C core).2.componentsCheatDevice =
      (_GBACoreCheatDevice C core).2.cheatDevice := by
  unfold _GBACoreCheatDevice
  cases hd : core.cheatDevice with
  | none => rfl
  | some d => simpa [hd] using h

/-- After `unloadROM` the pointer is null, and the slot is null or was left
alone because there was no device. -/
theorem unloadROM_slot {T : Types} (C : CheatExt T) (core : GBACore T) :
    (_GBACoreUnloadROM C core).cheatDevice = none ∧
      ((_GBACoreUnloadROM C core).componentsCheatDevice = none ∨
        (_GBACoreUnloadROM C core).componentsCheatDevice = core.componentsCheatDevice ∧
          core.cheatDevice = none) := by
  unfold _GBACoreUnloadROM
  cases hd : core.cheatDevice with
  | none => exact ⟨hd, Or.inr ⟨rfl, rfl⟩⟩
  | some d => exact ⟨rfl, Or.inl rfl⟩

/-- Slot and pointer are equal in every reached state. -/
theorem cheatReached_slot {T : Types} (B : Build) (X : GBAExt T) (C : CheatExt T)
    (shell : GBACore T) (hinit : (_GBACoreInit B X shell).1 = true) (ops : List CheatOp) :
    (cheatReached B X C shell ops).componentsCheatDevice =
      (cheatReached B X C shell ops).cheatDevice := by
  unfold cheatReached
  induction ops using List.reverseRecOn with
  | nil =>
    obtain ⟨h1, h2⟩ := init_cheat_fields B X shell hinit
    simp [h1, h2]
  | append_singleton ops op ih =>
    rw [List.foldl_append]
    simp only [List.foldl_cons, List.foldl_nil]
    cases op with
    | cheatDevice => exact cheatDevice_slot C _ ih
    | unloadROM =>
      obtain ⟨h1, h2 | ⟨h2, h3⟩⟩ := unloadROM_slot C (List.foldl (runCheatOp C)
        (_GBACoreInit B X shell).2 ops)
      · simp only [runCheatOp]; rw [h1, h2]
      · simp only [runCheatOp]; rw [h1, h2, ih, h3]

/-- C23: in every state reached from a successful `_GBACoreInit` through
`cheatDevice` and `unloadROM` calls, the slot
`components[CPU_COMPONENT_CHEAT_DEVICE]` holds exactly what the facade's
pointer `cheatDevice` holds (both null, or both the same device); right after
init both are null.  A `cheatDevice` call in a state without device creates
one, stores it in both places, signals the attach for it and returns it; a
call in a state with a device returns that device and changes nothing.
`unloadROM` clears both places, after the detach signal for the slot and the
destruction of the device when there was one; and the `cheatDevice` call that
follows `unloadROM` creates a device again. -/
theorem cheat_device_hotplug {T : Types} (B : Build) (X : GBAExt T) (C : CheatExt T)
    (shell : GBACore T) (hinit : (_GBACoreInit B X shell).1 = true) (ops : List CheatOp) :
    (cheatReached B X C shell ops).componentsCheatDevice =
      (cheatReached B X C shell ops).cheatDevice ∧
    (cheatReached B X C shell []).cheatDevice = none ∧
    ((cheatReached B X C shell ops).cheatDevice = none →
      (_GBACoreCheatDevice C (cheatReached B X C shell ops)).1 =
        some (C.GBACheatDeviceCreate (cheatReached B X C shell ops).rest).1 ∧
      (_GBACoreCheatDevice C (cheatReached B X C shell ops)).2 =
        { cheatReached B X C shell ops with
          cheatDevice := some (C.GBACheatDeviceCreate (cheatReached B X C shell ops).rest).1,
          componentsCheatDevice :=
            some (C.GBACheatDeviceCreate (cheatReached B X C shell ops).rest).1,
          rest := (C.GBACheatDeviceCreate (cheatReached B X C shell ops).rest).2,
          cpu := C.ARMHotplugAttach (cheatReached B X C shell ops).cpu
            (some (C.GBACheatDeviceCreate (cheatReached B X C shell ops).rest).1) }) ∧
    (∀ d, (cheatReached B X C shell ops).cheatDevice = some d →
      _GBACoreCheatDevice C (cheatReached B X C shell ops) =
        (some d, cheatReached B X C shell ops) ∧
      (_GBACoreUnloadROM C (cheatReached B X C shell ops)).cpu =
        C.ARMHotplugDetach (cheatReached B X C shell ops).cpu (some d) ∧
      (_GBACoreUnloadROM C (cheatReached B X C shell ops)).rest =
        C.mCheatDeviceDestroy (cheatReached B X C shell ops).rest d) ∧
    (_GBACoreUnloadROM C (cheatReached B X C shell ops)).cheatDevice = none ∧
    (_GBACoreUnloadROM C (cheatReached B X C shell ops)).componentsCheatDevice = none ∧
    (_GBACoreCheatDevice C (_GBACoreUnloadROM C (cheatReached B X C shell ops))).1 =
      some (C.GBACheatDeviceCreate
        (_GBACoreUnloadROM C (cheatReached B X C shell ops)).rest).1 := by
  have hinv := cheatReached_slot B X C shell hinit ops
  obtain ⟨hu1, hu2⟩ := unloadROM_slot C (cheatReached B X C shell ops)
  refine ⟨hinv, (init_cheat_fields B X shell hinit).1, fun hnone => ?_, fun d hd => ?_, hu1,
    ?_, ?_⟩
  · unfold _GBACoreCheatDevice
    rw [hnone]
    exact ⟨rfl, rfl⟩
  · refine ⟨?_, ?_, ?_⟩
    · unfold _GBACoreCheatDevice
      rw [hd]
    · unfold _GBACoreUnloadROM
      rw [hd]
      simp only
      rw [hinv, hd]
    · unfold _GBACoreUnloadROM
      rw [hd]
  · rcases hu2 with h | ⟨h1, h2⟩
    · exact h
    · rw [h1, hinv, h2]
  · unfold _GBACoreCheatDevice
    rw [hu1]

/-- Witness of `cheat_device_hotplug`: on the instance, after init and the
calls `cheatDevice`, `cheatDevice`, `unloadROM`, `cheatDevice`, the facade
and the slot hold the device 1, the second one created. -/
theorem cheat_device_hotplug_witness :
    (_GBACoreInit fullBuild simExt simCore).1 = true ∧
    (cheatReached fullBuild simExt simCheat simCore
        [.cheatDevice, .cheatDevice, .unloadROM, .cheatDevice]).cheatDevice = some 1 ∧
    (cheatReached fullBuild simExt simCheat simCore
        [.cheatDevice, .cheatDevice, .unloadROM, .cheatDevice]).componentsCheatDevice =
      (cheatReached fullBuild simExt simCheat simCore
        [.cheatDevice, .cheatDevice, .unloadROM, .cheatDevice]).cheatDevice :=
  ⟨by decide, by decide,
    (cheat_device_hotplug fullBuild simExt simCheat simCore (by decide)
      [.cheatDevice, .cheatDevice, .unloadROM, .cheatDevice]).1⟩

/-! ## The video-log player -/

/-- C25: `_GBAVLPLoadROM` stores a new context in `logContext` before it
loads the file, and when the load fails it destroys the new context and
stores null; whatever context the facade held before is no longer its log
context.  On the instance, after file 5 was loaded as a video log the
facade's context is 0; `loadROM` on file 2, which is no video log, returns
false and leaves the facade with a null log context. -/
theorem vlp_loadROM_failure_drops_context :
    (∀ (T : Types) (V : VLPExt T) (core : GBACore T) (vf : T.VFile),
      (_GBAVLPLoadROM V core vf).1 = false →
        (_GBAVLPLoadROM V core vf).2.logContext = none) ∧
    (_GBAVLPLoadROM simVLP simCore 5).1 = true ∧
    logLoadedCore.logContext = some 0 ∧
    (_GBAVLPLoadROM simVLP logLoadedCore 2).1 = false ∧
    (_GBAVLPLoadROM simVLP logLoadedCore 2).2.logContext = none ∧
    (_GBAVLPLoadROM simVLP logLoadedCore 2).2.logContext ≠ logLoadedCore.logContext := by
  refine ⟨fun T V core vf h => ?_, by decide, by decide, by decide, by decide, by decide⟩
  unfold _GBAVLPLoadROM at *
  simp only at h ⊢
  split at h
  · simp only [Bool.not_eq_true'] at *
    rename_i h1
    simp [h1]
  · simp at h

/-! ## Extra state -/

/-- What the block of `_GBACoreLoadExtraState` does with an item. -/
theorem loadSubsystemBlob_spec {T : Types} (M : Nat) (id : GBACore T → Nat)
    (ld : GBACore T → List Nat → Nat → Bool × GBACore T) (item : mStateExtdataItem)
    (s : Bool × GBACore T) :
    (blobHanded (id s.2) item →
      loadSubsystemBlob M id ld item s =
        ((ld s.2 (blobPayload item) (blobLength M item)).1 && s.1,
          (ld s.2 (blobPayload item) (blobLength M item)).2)) ∧
    (¬ blobHanded (id s.2) item → (loadSubsystemBlob M id ld item s).2 = s.2) ∧
    (toUInt32 item.size > 4 → ¬ blobHanded (id s.2) item →
      loadSubsystemBlob M id ld item s = s) ∧
    ((loadSubsystemBlob M id ld item s).1 = false ↔
      s.1 = false ∨ blobShort item ∨
        (blobHanded (id s.2) item ∧
          (ld s.2 (blobPayload item) (blobLength M item)).1 = false)) := by
  unfold loadSubsystemBlob blobHanded blobShort blobPayload blobLength
  by_cases h1 : toUInt32 item.size > 4
  · by_cases h2 : LOAD_32 (item.data.getD []) = id s.2 % 4294967296
    · simp only [h1, h2, if_true, true_and, not_true_eq_false, false_implies, and_true,
        true_implies, implies_true]
      have : ¬ toUInt32 item.size ≤ 4 := by omega
      simp only [this, false_and, false_or, Bool.and_eq_false_imp]
      cases s.1 <;> simp
    · have : ¬ toUInt32 item.size ≤ 4 := by omega
      simp [h1, h2, this]
  · have h1' : toUInt32 item.size ≤ 4 := by omega
    simp only [h1, if_false, false_and, false_implies, not_false_eq_true, true_implies,
      h1', true_and, or_false, true_and]
    by_cases h3 : item.data.isSome = true
    · simp [h3]
    · simp [h3]

/-- The link-cable block when a driver with `driverId` and `loadState` is
present and the container has its entry. -/
theorem loadSioExtra_consulted {T : Types} {E : Type} (X : ExtdataExt T E) (e : E)
    (s : Bool × GBACore T) (driver : GBASIODriver T) (did : GBACore T → Nat)
    (ld : GBACore T → List Nat → Nat → Bool × GBACore T) (item : mStateExtdataItem)
    (h1 : X.sioDriver s.2 = some driver) (h2 : driver.driverId = some did)
    (h3 : driver.loadState = some ld)
    (h4 : X.mStateExtdataGet e (X.EXTDATA_SUBSYSTEM_START + X.GBA_SUBSYSTEM_SIO_DRIVER) =
      some item) :
    loadSioExtra X e s = loadSubsystemBlob X.SIZE_MAX did ld item s := by
  unfold loadSioExtra
  simp only [h1, h2, h3, h4]

/-- The link-cable block does nothing otherwise. -/
theorem loadSioExtra_not_consulted {T : Types} {E : Type} (X : ExtdataExt T E) (e : E)
    (s : Bool × GBACore T)
    (h : ¬ ∃ driver did ld item, X.sioDriver s.2 = some driver ∧ driver.driverId = some did ∧
      driver.loadState = some ld ∧
      X.mStateExtdataGet e (X.EXTDATA_SUBSYSTEM_START + X.GBA_SUBSYSTEM_SIO_DRIVER) =
        some item) :
    loadSioExtra X e s = s := by
  unfold loadSioExtra
  cases h1 : X.sioDriver s.2 with
  | none => rfl
  | some driver =>
    cases h2 : driver.driverId with
    | none => cases h3 : driver.loadState <;> simp only [h2, h3]
    | some did =>
      cases h3 : driver.loadState with
      | none => simp only [h2, h3]
      | some ld =>
        cases h4 : X.mStateExtdataGet e
            (X.EXTDATA_SUBSYSTEM_START + X.GBA_SUBSYSTEM_SIO_DRIVER) with
        | none => simp only [h2, h3, h4]
        | some item => exact absurd ⟨driver, did, ld, item, h1, h2, h3, h4⟩ h

/-- C21: `_GBACoreLoadExtraState` runs the renderer block and then the
link-cable block.  In each block the stored blob is handed to the subsystem
exactly when it is longer than four bytes and its leading little-endian
32-bit tag equals the subsystem's current id, and then from its fifth byte on
and with the length `size - 4`; a blob that is not handed leaves the facade
as it was, and a long blob with another tag also leaves `ok` as it was.  The
link-cable block does nothing unless a driver with `driverId` and `loadState`
is present and the container has its entry.  The function returns false
exactly when the blob of a block that was run is at most four bytes long with
non-null data, or was handed over and `loadState` returned false. -/
theorem loadExtraState_spec {T : Types} {E : Type} (X : ExtdataExt T E) (core : GBACore T)
    (e : E) :
    (∀ item,
      X.mStateExtdataGet e (X.EXTDATA_SUBSYSTEM_START + X.GBA_SUBSYSTEM_VIDEO_RENDERER) =
        some item →
      (blobHanded (X.rendererId core) item →
        loadRendererExtra X e (true, core) =
          X.rendererLoadState core (blobPayload item) (blobLength X.SIZE_MAX item)) ∧
      (¬ blobHanded (X.rendererId core) item →
        (loadRendererExtra X e (true, core)).2 = core) ∧
      (toUInt32 item.size > 4 → ¬ blobHanded (X.rendererId core) item →
        loadRendererExtra X e (true, core) = (true, core))) ∧
    (X.mStateExtdataGet e (X.EXTDATA_SUBSYSTEM_START + X.GBA_SUBSYSTEM_VIDEO_RENDERER) =
        none →
      loadRendererExtra X e (true, core) = (true, core)) ∧
    (∀ s driver did ld item, X.sioDriver s.2 = some driver → driver.driverId = some did →
      driver.loadState = some ld →
      X.mStateExtdataGet e (X.EXTDATA_SUBSYSTEM_START + X.GBA_SUBSYSTEM_SIO_DRIVER) =
        some item →
      (blobHanded (did s.2) item →
        loadSioExtra X e s =
          ((ld s.2 (blobPayload item) (blobLength X.SIZE_MAX item)).1 && s.1,
            (ld s.2 (blobPayload item) (blobLength X.SIZE_MAX item)).2)) ∧
      (¬ blobHanded (did s.2) item → (loadSioExtra X e s).2 = s.2) ∧
      (toUInt32 item.size > 4 → ¬ blobHanded (did s.2) item → loadSioExtra X e s = s)) ∧
    (∀ s, (¬ ∃ driver did ld item, X.sioDriver s.2 = some driver ∧
        driver.driverId = some did ∧ driver.loadState = some ld ∧
        X.mStateExtdataGet e (X.EXTDATA_SUBSYSTEM_START + X.GBA_SUBSYSTEM_SIO_DRIVER) =
          some item) →
      loadSioExtra X e s = s) ∧
    ((_GBACoreLoadExtraState X core e).1 = false ↔
      (∃ item,
        X.mStateExtdataGet e (X.EXTDATA_SUBSYSTEM_START + X.GBA_SUBSYSTEM_VIDEO_RENDERER) =
          some item ∧
        (blobShort item ∨
          (blobHanded (X.rendererId core) item ∧
            (X.rendererLoadState core (blobPayload item)
              (blobLength X.SIZE_MAX item)).1 = false))) ∨
      (∃ driver did ld item,
        X.sioDriver (loadRendererExtra X e (true, core)).2 = some driver ∧
        driver.driverId = some did ∧ driver.loadState = some ld ∧
        X.mStateExtdataGet e (X.EXTDATA_SUBSYSTEM_START + X.GBA_SUBSYSTEM_SIO_DRIVER) =
          some item ∧
        (blobShort item ∨
          (blobHanded (did (loadRendererExtra X e (true, core)).2) item ∧
            (ld (loadRendererExtra X e (true, core)).2 (blobPayload item)
              (blobLength X.SIZE_MAX item)).1 = false)))) := by
  have hrend : ∀ item,
      X.mStateExtdataGet e (X.EXTDATA_SUBSYSTEM_START + X.GBA_SUBSYSTEM_VIDEO_RENDERER) =
        some item →
      loadRendererExtra X e (true, core) =
        loadSubsystemBlob X.SIZE_MAX X.rendererId X.rendererLoadState item (true, core) := by
    intro item h
    unfold loadRendererExtra
    rw [h]
  have hrnone :
      X.mStateExtdataGet e (X.EXTDATA_SUBSYSTEM_START + X.GBA_SUBSYSTEM_VIDEO_RENDERER) =
        none →
      loadRendererExtra X e (true, core) = (true, core) := by
    intro h
    unfold loadRendererExtra
    rw [h]
  refine ⟨fun item h => ?_, hrnone, fun s driver did ld item h1 h2 h3 h4 => ?_,
    fun s h => loadSioExtra_not_consulted X e s h, ?_⟩
  · rw [hrend item h]
    obtain ⟨a, b, c, -⟩ := loadSubsystemBlob_spec X.SIZE_MAX X.rendererId X.rendererLoadState
      item (true, core)
    refine ⟨fun hh => ?_, b, c⟩
    rw [a hh]
    simp
  · rw [loadSioExtra_consulted X e s driver did ld item h1 h2 h3 h4]
    obtain ⟨a, b, c, -⟩ := loadSubsystemBlob_spec X.SIZE_MAX did ld item s
    exact ⟨a, b, c⟩
  · -- the returned flag
    have hfirst : (loadRendererExtra X e (true, core)).1 = false ↔
        ∃ item,
          X.mStateExtdataGet e
              (X.EXTDATA_SUBSYSTEM_START + X.GBA_SUBSYSTEM_VIDEO_RENDERER) = some item ∧
          (blobShort item ∨
            (blobHanded (X.rendererId core) item ∧
              (X.rendererLoadState core (blobPayload item)
                (blobLength X.SIZE_MAX item)).1 = false)) := by
      cases hv : X.mStateExtdataGet e
          (X.EXTDATA_SUBSYSTEM_START + X.GBA_SUBSYSTEM_VIDEO_RENDERER) with
      | none =>
        rw [hrnone hv]
        simp
      | some item =>
        rw [hrend item hv]
        obtain ⟨-, -, -, d⟩ := loadSubsystemBlob_spec X.SIZE_MAX X.rendererId
          X.rendererLoadState item (true, core)
        rw [d]
        simp
    unfold _GBACoreLoadExtraState
    by_cases hc : ∃ driver did ld item,
        X.sioDriver (loadRendererExtra X e (true, core)).2 = some driver ∧
        driver.driverId = some did ∧ driver.loadState = some ld ∧
        X.mStateExtdataGet e (X.EXTDATA_SUBSYSTEM_START + X.GBA_SUBSYSTEM_SIO_DRIVER) =
          some item
    · obtain ⟨driver, did, ld, item, h1, h2, h3, h4⟩ := hc
      rw [loadSioExtra_consulted X e _ driver did ld item h1 h2 h3 h4]
      obtain ⟨-, -, -, d⟩ := loadSubsystemBlob_spec X.SIZE_MAX did ld item
        (loadRendererExtra X e (true, core))
      rw [d, hfirst]
      constructor
      · rintro (h | h)
        · exact Or.inl h
        · exact Or.inr ⟨driver, did, ld, item, h1, h2, h3, h4, h⟩
      · rintro (h | ⟨driver', did', ld', item', g1, g2, g3, g4, g5⟩)
        · exact Or.inl h
        · rw [h1] at g1
          cases g1
          rw [h2] at g2
          cases g2
          rw [h3] at g3
          cases g3
          rw [h4] at g4
          cases g4
          exact Or.inr g5
    · rw [loadSioExtra_not_consulted X e _ hc, hfirst]
      constructor
      · exact Or.inl
      · rintro (h | ⟨driver', did', ld', item', g1, g2, g3, g4, -⟩)
        · exact h
        · exact absurd ⟨driver', did', ld', item', g1, g2, g3, g4⟩ hc

end MGBA
